import Mathlib

/-!
# JanBol: issue lifecycle, engagement scoring and trending

A shallow embedding of `backend/src/models/Issue.js` and of the issue
resolvers in `backend/src/resolvers/issueResolvers.js`.

Conventions of the embedding:

* a mongoose document is a record; a method that mutates `this` becomes a
  function returning the mutated record;
* `new Date()` / `Date.now()` is an explicit argument `now` (milliseconds);
* the collection is a list of documents in storage order;
* strings stay strings (status, priority, timeline action), because the
  methods accept any string and only the schema restricts them.
-/

namespace JanBol

/-- Mongo object ids, as their string form. -/
abbrev ObjectId := String

/-- Instants, in milliseconds since the epoch. -/
abbrev Date := Int

/-- Equality of results (a value or a thrown error) is decidable. -/
instance {ε α : Type} [DecidableEq ε] [DecidableEq α] : DecidableEq (Except ε α) := fun a b =>
  match a, b with
  | .ok x, .ok y =>
    if h : x = y then isTrue (by rw [h]) else isFalse (fun h2 => h (by cases h2; rfl))
  | .error x, .error y =>
    if h : x = y then isTrue (by rw [h]) else isFalse (fun h2 => h (by cases h2; rfl))
  | .ok _, .error _ => isFalse (fun h => by cases h)
  | .error _, .ok _ => isFalse (fun h => by cases h)

/-- The `engagement` sub-document of an issue. The counters are integers: the
schema only says `Number`, and `$inc` by -1 can take one below zero. -/
structure Engagement where
  views : Int
  upvotes : Int
  downvotes : Int
  shares : Int
  comments : Int
deriving DecidableEq, Repr

/-- The part of `aiAnalysis` the lifecycle reads. -/
structure AiAnalysis where
  urgencyScore : Option Nat
deriving DecidableEq, Repr

/-- One element of the `timeline` array. `metadata` is `Mixed`; the code only
ever stores flat string records in it. -/
structure TimelineEntry where
  action : String
  description : String
  performedBy : ObjectId
  timestamp : Date
  metadata : Option (List (String × String))
deriving DecidableEq, Repr

/-- An issue document. `isNew` is mongoose's flag: true until the first save. -/
structure Issue where
  id : ObjectId
  priority : String
  status : String
  reporter : ObjectId
  assignedTo : Option ObjectId
  aiAnalysis : Option AiAnalysis
  timeline : List TimelineEntry
  engagement : Engagement
  actualResolution : Option Date
  isPublic : Bool
  isUrgent : Bool
  createdAt : Date
  isNew : Bool
deriving DecidableEq, Repr

/-! ## Engagement score and trending (Issue.js 185-189, 275-298) -/

/-- The `engagementScore` virtual:
`(upvotes * 2) + shares + comments - downvotes + Math.floor(views / 10)`. -/
def engagementScore (e : Engagement) : Int :=
  (e.upvotes * 2) + e.shares + e.comments - e.downvotes + Int.floor ((e.views : ℚ) / 10)

/-- The `engagementScore` virtual of an issue document. -/
def Issue.engagementScore (i : Issue) : Int :=
  JanBol.engagementScore i.engagement

/-- The `$addFields` stage of `getTrending`:
`$add [ $multiply [upvotes, 2], shares, comments, $subtract [0, downvotes],
$divide [views, 10] ]`. `$divide` is exact division. -/
def trendingScore (e : Engagement) : ℚ :=
  ((e.upvotes : ℚ) * 2) + e.shares + e.comments + (0 - (e.downvotes : ℚ))
    + (e.views : ℚ) / 10

/-- Seven days in milliseconds: `7 * 24 * 60 * 60 * 1000`. -/
def sevenDaysMs : Int := 7 * 24 * 60 * 60 * 1000

/-- The `$match` stage of `getTrending`: `createdAt >= now - 7 days`. -/
def inTrendingWindow (now : Date) (i : Issue) : Bool :=
  decide (now - sevenDaysMs ≤ i.createdAt)

/-- The sort key order of `$sort: { engagementScore: -1 }`: the only key is
the computed score, descending. -/
def trendingBefore (a b : Issue) : Prop :=
  trendingScore b.engagement ≤ trendingScore a.engagement

instance : DecidableRel trendingBefore := fun a b =>
  inferInstanceAs (Decidable (trendingScore b.engagement ≤ trendingScore a.engagement))

/-- The static `getTrending(limit)`: match, add the score, sort on the score
alone, limit. Documents with equal keys keep their storage order (the
pipeline names no further key). -/
def getTrending (now : Date) (limit : Nat) (stored : List Issue) : List Issue :=
  ((stored.filter (inTrendingWindow now)).insertionSort trendingBefore).take limit

/-- The tie-breaking order of the specification: among equal scores the more
recent `createdAt` first, then the smaller id. -/
def TieBroken (r : List Issue) : Prop :=
  r.Pairwise (fun a b => trendingScore a.engagement = trendingScore b.engagement →
    (b.createdAt < a.createdAt ∨ (b.createdAt = a.createdAt ∧ a.id ≤ b.id)))

/-- A sample issue with the given id, creation time and counters. -/
def sampleIssue (id : ObjectId) (createdAt : Date) (e : Engagement) : Issue :=
  { id := id, priority := "medium", status := "pending", reporter := "u1",
    assignedTo := none, aiAnalysis := none, timeline := [], engagement := e,
    actualResolution := none, isPublic := true, isUrgent := false,
    createdAt := createdAt, isNew := false }

instance : IsTotal Issue trendingBefore :=
  ⟨fun a b => le_total (trendingScore b.engagement) (trendingScore a.engagement)⟩

instance : IsTrans Issue trendingBefore :=
  ⟨fun _ _ _ hab hbc => le_trans hbc hab⟩

/-! ## Lifecycle: pre-save hook and instance methods (Issue.js 191-257)

Two levels are modelled. `save`, `addTimelineEntry`, `updateStatus` and
`incrementEngagement` give the document a method leaves behind when its
`save()` goes through: the pre-save hook has run and `isNew` is cleared.
Whether a `save()` goes through is modelled by `trySave` (schema validation
first) and, for `updateStatus`, by `updateStatusOutcome`: its first `save()`
is started inside `addTimelineEntry` and not awaited, so the second `save()`
finds it in flight. -/

/-- The schema's status enum. -/
def statusEnum : List String :=
  ["pending", "acknowledged", "in-progress", "resolved", "rejected", "duplicate"]

/-- The schema's priority enum. -/
def priorityEnum : List String :=
  ["low", "medium", "high", "critical"]

/-- The enum of `timeline.action` in the issue schema. -/
def timelineActionEnum : List String :=
  ["created", "acknowledged", "assigned", "updated", "resolved", "rejected", "reopened"]

/-- A fresh document, as `new Issue({...input, reporter, priority})` builds it
from a `CreateIssueInput`: the schema defaults for everything the input
cannot carry. -/
def newIssue (id reporter : ObjectId) (priority : String) (isPublic : Bool) : Issue :=
  { id := id, priority := priority, status := "pending", reporter := reporter,
    assignedTo := none, aiAnalysis := none, timeline := [],
    engagement := ⟨0, 0, 0, 0, 0⟩, actualResolution := none, isPublic := isPublic,
    isUrgent := false, createdAt := 0, isNew := true }

/-- The test of the pre-save hook:
`this.priority === 'critical' || (this.aiAnalysis && this.aiAnalysis.urgencyScore > 80)`. -/
def urgencyCondition (doc : Issue) : Bool :=
  doc.priority == "critical" ||
    (match doc.aiAnalysis with
     | some a => (match a.urgencyScore with
        | some u => decide (80 < u)
        | none => false)
     | none => false)

/-- The `pre('save')` middleware. -/
def preSave (now : Date) (doc : Issue) : Issue :=
  let doc1 := if urgencyCondition doc then { doc with isUrgent := true } else doc
  if doc1.isNew then
    { doc1 with timeline := doc1.timeline ++
        [{ action := "created", description := "Issue reported",
           performedBy := doc1.reporter, timestamp := now, metadata := none }] }
  else doc1

/-- The document after a `save()` that goes through: the hook, then the
write; `timestamps: true` stamps `createdAt` on the first save. -/
def save (now : Date) (doc : Issue) : Issue :=
  let d := preSave now doc
  { d with isNew := false, createdAt := if d.isNew then now else d.createdAt }

/-- The method `addTimelineEntry(action, description, performedBy, metadata = {})`;
`none` for `metadata` is the omitted argument. -/
def addTimelineEntry (now : Date) (doc : Issue) (action description : String)
    (performedBy : ObjectId) (metadata : Option (List (String × String))) : Issue :=
  save now { doc with timeline := doc.timeline ++
    [{ action := action, description := description, performedBy := performedBy,
       timestamp := now, metadata := some (metadata.getD []) }] }

/-- The table `statusDescriptions` of `updateStatus`. -/
def statusDescriptions : List (String × String) :=
  [("acknowledged", "Issue acknowledged by authorities"),
   ("in-progress", "Work started on the issue"),
   ("resolved", "Issue has been resolved"),
   ("rejected", "Issue was rejected"),
   ("duplicate", "Issue marked as duplicate")]

/-- The description of a status entry:
`statusDescriptions[newStatus] || "Status changed to " + newStatus`. -/
def statusDescription (newStatus : String) : String :=
  (statusDescriptions.lookup newStatus).getD ("Status changed to " ++ newStatus)

/-- The method `updateStatus(newStatus, performedBy, notes = '')` on the
document, when its saving goes through; `none` for `notes` is the omitted
argument. What is stored and how the returned promise settles is
`updateStatusOutcome`. -/
def updateStatus (now : Date) (doc : Issue) (newStatus : String) (performedBy : ObjectId)
    (notes : Option String) : Issue :=
  let oldStatus := doc.status
  let doc1 := { doc with status := newStatus }
  let doc2 := addTimelineEntry now doc1 newStatus (statusDescription newStatus) performedBy
    (some [("oldStatus", oldStatus), ("notes", notes.getD "")])
  let doc3 := if newStatus = "resolved" then { doc2 with actualResolution := some now } else doc2
  save now doc3

/-- The method `incrementEngagement(type)`: bumps the named counter and
saves; an unknown counter name leaves the document alone. -/
def incrementEngagement (now : Date) (doc : Issue) (type : String) : Issue :=
  if type = "views" then
    save now { doc with engagement := { doc.engagement with views := doc.engagement.views + 1 } }
  else if type = "upvotes" then
    save now { doc with engagement := { doc.engagement with upvotes := doc.engagement.upvotes + 1 } }
  else if type = "downvotes" then
    save now { doc with engagement :=
      { doc.engagement with downvotes := doc.engagement.downvotes + 1 } }
  else if type = "shares" then
    save now { doc with engagement := { doc.engagement with shares := doc.engagement.shares + 1 } }
  else if type = "comments" then
    save now { doc with engagement :=
      { doc.engagement with comments := doc.engagement.comments + 1 } }
  else doc

/-- How a `save()` fails: the schema validators reject the named paths, or
another `save()` of the same document is still in flight. -/
inductive SaveError where
  | ValidationError (paths : List String)
  | ParallelSaveError
deriving DecidableEq, Repr

/-- The paths the schema validators reject, for the modelled paths: the
`priority` and `status` enums, `min: 0, max: 100` of
`aiAnalysis.urgencyScore`, and the `action` enum of every timeline entry. -/
def invalidPaths (doc : Issue) : List String :=
  (if doc.priority ∈ priorityEnum then [] else ["priority"]) ++
  (if doc.status ∈ statusEnum then [] else ["status"]) ++
  (match doc.aiAnalysis with
   | some a => (match a.urgencyScore with
      | some u => if u ≤ 100 then [] else ["aiAnalysis.urgencyScore"]
      | none => [])
   | none => []) ++
  (if doc.timeline.all (fun e => decide (e.action ∈ timelineActionEnum)) then []
   else ["timeline.action"])

/-- A `save()` of a document none of whose saves is in flight: validation
runs first; when it passes, the pre-save hook and the write follow. -/
def trySave (now : Date) (doc : Issue) : Except SaveError Issue :=
  if invalidPaths doc = [] then .ok (save now doc)
  else .error (.ValidationError (invalidPaths doc))

/-- What a call of `updateStatus` leaves behind: the document in memory, the
version its first `save()` wrote to the store (if it wrote), and how the
promise it returns settles. -/
structure UpdateStatusOutcome where
  document : Issue
  stored : Option Issue
  result : Except SaveError Issue

/-- The document as the synchronous part of `updateStatus` leaves it: the
status set, the timeline entry pushed by `addTimelineEntry`, and the stamp
of `resolved`. -/
def updateStatusDocument (now : Date) (doc : Issue) (newStatus : String)
    (performedBy : ObjectId) (notes : Option String) : Issue :=
  let oldStatus := doc.status
  let doc1 := { doc with status := newStatus }
  let doc2 := { doc1 with timeline := doc1.timeline ++
    [{ action := newStatus, description := statusDescription newStatus,
       performedBy := performedBy, timestamp := now,
       metadata := some [("oldStatus", oldStatus), ("notes", notes.getD "")] }] }
  if newStatus = "resolved" then { doc2 with actualResolution := some now } else doc2

/-- The method `updateStatus(newStatus, performedBy, notes = '')` with its
two `save()` calls. `addTimelineEntry` pushes the entry and starts the first
`save()`, whose promise is dropped; the stamp of `resolved` is set; then the
second `save()` is called while the first is in flight and rejects with
`ParallelSaveError`: that is the promise `updateStatus` returns. The first
`save()` then validates the document as the method left it and, when the
validation passes, runs the hook and writes it. -/
def updateStatusOutcome (now : Date) (doc : Issue) (newStatus : String)
    (performedBy : ObjectId) (notes : Option String) : UpdateStatusOutcome :=
  let doc3 := updateStatusDocument now doc newStatus performedBy notes
  let second : Except SaveError Issue := .error .ParallelSaveError
  match trySave now doc3 with
  | .ok saved => { document := saved, stored := some saved, result := second }
  | .error _ => { document := doc3, stored := none, result := second }

/-- The store after a sequence of `updateStatus` calls on one issue, each on
the document as stored by then: a call whose first save fails validation
stores nothing. -/
def storedAfterTransitions (stored : Issue) (ts : List (Date × String × ObjectId)) : Issue :=
  ts.foldl (fun d t => ((updateStatusOutcome t.1 d t.2.1 t.2.2 none).stored).getD d) stored

/-- The method `toLowerCase()` of a string, on the ASCII letters (all the
GraphQL enum names consist of). -/
def toLowerCase (s : String) : String :=
  String.mk (s.data.map Char.toLower)

/-- The part of `UpdateIssueInput` that reaches a modelled field: the
priority, as the GraphQL enum name. -/
structure UpdateIssueInput where
  priority : Option String
deriving DecidableEq, Repr

/-- The `$set` of `updateIssue`, applied by `findByIdAndUpdate`: no document
middleware runs. -/
def applyUpdate (doc : Issue) (input : UpdateIssueInput) : Issue :=
  match input.priority with
  | some p => { doc with priority := toLowerCase p }
  | none => doc

/-- The operations on a stored issue document. -/
inductive IssueOp where
  | updateStatus (newStatus : String) (performedBy : ObjectId) (notes : Option String)
  | addTimelineEntry (action description : String) (performedBy : ObjectId)
      (metadata : Option (List (String × String)))
  | assign (assigneeId : ObjectId) (assigneeName : String) (performedBy : ObjectId)
  | incrementEngagement (type : String)
  | update (input : UpdateIssueInput)
  | save
deriving DecidableEq, Repr

/-- The body of `assignIssue` on the document: set `assignedTo`, then add the
timeline entry. -/
def assign (now : Date) (doc : Issue) (assigneeId : ObjectId) (assigneeName : String)
    (performedBy : ObjectId) : Issue :=
  addTimelineEntry now { doc with assignedTo := some assigneeId } "assigned"
    ("Issue assigned to " ++ assigneeName) performedBy
    (some [("assigneeId", assigneeId), ("assigneeName", assigneeName)])

/-- One operation at time `now`. -/
def IssueOp.run (now : Date) (doc : Issue) : IssueOp → Issue
  | .updateStatus s actor notes => JanBol.updateStatus now doc s actor notes
  | .addTimelineEntry a d actor m => JanBol.addTimelineEntry now doc a d actor m
  | .assign aid an actor => JanBol.assign now doc aid an actor
  | .incrementEngagement t => JanBol.incrementEngagement now doc t
  | .update input => applyUpdate doc input
  | .save => JanBol.save now doc

/-- Whether an operation is a transition into resolved. -/
def IssueOp.resolves : IssueOp → Bool
  | .updateStatus s _ _ => s == "resolved"
  | _ => false

/-- A sequence of timed operations, in order. -/
def runOps (doc : Issue) (ops : List (Date × IssueOp)) : Issue :=
  ops.foldl (fun d op => op.2.run op.1 d) doc

/-- One status transition: a call of `updateStatus` at time `now`. -/
structure Transition where
  now : Date
  newStatus : String
  performedBy : ObjectId
  notes : Option String
deriving DecidableEq, Repr

/-- A sequence of status transitions, in order. -/
def runTransitions (doc : Issue) (ts : List Transition) : Issue :=
  ts.foldl (fun d t => updateStatus t.now d t.newStatus t.performedBy t.notes) doc

/-- The urgency score read as in the specification: `aiAnalysis.urgencyScore ?? 0`. -/
def urgencyScoreOrZero (doc : Issue) : Nat :=
  match doc.aiAnalysis with
  | some a => a.urgencyScore.getD 0
  | none => 0

/-- The invariant in the words of the specification:
`isUrgent == (priority == 'critical' || (aiAnalysis.urgencyScore ?? 0) > 80)`. -/
def UrgencyInvariant (doc : Issue) : Prop :=
  doc.isUrgent = true ↔ (doc.priority = "critical" ∨ 80 < urgencyScoreOrZero doc)

instance (doc : Issue) : Decidable (UrgencyInvariant doc) :=
  inferInstanceAs (Decidable (doc.isUrgent = true ↔ _))

/-! ## Store and resolvers (issueResolvers.js 289-401) -/

/-- The `stats` sub-document of a user. -/
structure UserStats where
  reportsSubmitted : Nat
  issuesResolved : Nat
  points : Nat
  badge : String
  lastActive : Date
deriving DecidableEq, Repr

/-- A user document; the request context carries one as `user`. -/
structure User where
  id : ObjectId
  name : String
  email : String
  role : String
  stats : UserStats
deriving DecidableEq, Repr

/-- The two collections the issue resolvers touch. -/
structure Db where
  issues : List Issue
  users : List User
deriving DecidableEq, Repr

/-- The errors a resolver throws: its own, a `TypeError` of the runtime, the
`CastError` of a query whose id string is not an ObjectId, or the error of a
rejected `save()`. -/
inductive ApiError where
  | AuthenticationError (message : String)
  | ForbiddenError (message : String)
  | UserInputError (message : String)
  | TypeError (message : String)
  | CastError (value : String)
  | SaveFailed (error : SaveError)
deriving DecidableEq, Repr

/-- Whether a string casts to an ObjectId: 24 hexadecimal digits. (Drivers
before bson 6 also take a string of 12 bytes as an ObjectId; every driver
refuses every other string.) -/
def isObjectIdString (id : String) : Bool :=
  decide (id.data.length = 24) &&
    id.data.all (fun c =>
      decide (48 ≤ c.toNat ∧ c.toNat ≤ 57) || decide (97 ≤ c.toNat ∧ c.toNat ≤ 102)
        || decide (65 ≤ c.toNat ∧ c.toNat ≤ 70))

/-- `Issue.findById(id)` for an id that casts to an ObjectId: the stored
document, hydrated (so not new). For a string that does not cast
(`isObjectIdString`) the query throws a `CastError`; `updateIssueStatus`
models that. -/
def Issue.findById (db : Db) (id : ObjectId) : Option Issue :=
  (db.issues.find? (fun i => i.id == id)).map (fun i => { i with isNew := false })

/-- `User.findById(id)`. -/
def User.findById (db : Db) (id : ObjectId) : Option User :=
  db.users.find? (fun u => u.id == id)

/-- The write of a saved document: it replaces the stored document of the
same id. -/
def Db.writeIssue (db : Db) (doc : Issue) : Db :=
  { db with issues := db.issues.map (fun i => if i.id == doc.id then doc else i) }

/-- The method `updateStats(type, increment = 1)` of a user, on its stats. -/
def updateStats (now : Date) (u : User) (type : String) : User :=
  let st := u.stats
  let st1 : UserStats :=
    if type = "report" then
      { st with reportsSubmitted := st.reportsSubmitted + 1, points := st.points + 10 }
    else if type = "resolve" then
      { st with issuesResolved := st.issuesResolved + 1, points := st.points + 50 }
    else if type = "feedback" then
      { st with points := st.points + 5 }
    else st
  let touched : Bool := type = "report" ∨ type = "resolve" ∨ type = "feedback"
  let st2 : UserStats :=
    if touched ∧ 1000 ≤ st1.points then { st1 with badge := "सुपर नागरिक" }
    else if touched ∧ 500 ≤ st1.points then { st1 with badge := "सक्रिय नागरिक" }
    else if touched ∧ 100 ≤ st1.points then { st1 with badge := "योगदानकर्ता" }
    else st1
  { u with stats := { st2 with lastActive := now } }

/-- The write of `updateOne` on a user. -/
def Db.writeUser (db : Db) (u : User) : Db :=
  { db with users := db.users.map (fun v => if v.id == u.id then u else v) }

/-- The test `user.role !== 'admin' && user.role !== 'official'`. -/
def notElevated (u : User) : Bool :=
  u.role != "admin" && u.role != "official"

/-- The mutation `updateIssue(id, input)`. -/
def updateIssue (db : Db) (id : ObjectId) (input : UpdateIssueInput) (user : Option User) :
    Db × Except ApiError Issue :=
  match user with
  | none => (db, .error (.AuthenticationError "Not authenticated"))
  | some u =>
    match Issue.findById db id with
    | none => (db, .error (.UserInputError "Issue not found"))
    | some issue =>
      if issue.reporter != u.id && notElevated u then
        (db, .error (.ForbiddenError "Access denied"))
      else
        let updated := applyUpdate issue input
        (db.writeIssue updated, .ok updated)

/-- The mutation `updateIssueStatus(id, status, notes)`; `status` is the
GraphQL enum name and `id` the string of the `ID!` argument, which
`Issue.findById` casts to an ObjectId. The store in the result holds what the
first `save()` of `updateStatus` wrote, if it wrote; the promise the resolver
awaits is the one `updateStatus` returns. -/
def updateIssueStatus (now : Date) (db : Db) (id : String) (status : String)
    (notes : Option String) (user : Option User) : Db × Except ApiError Issue :=
  match user with
  | none => (db, .error (.AuthenticationError "Not authenticated"))
  | some u =>
    if isObjectIdString id = false then (db, .error (.CastError id))
    else
      match Issue.findById db id with
      | none => (db, .error (.UserInputError "Issue not found"))
      | some issue =>
        if notElevated u then
          (db, .error (.ForbiddenError "Only officials can update issue status"))
        else
          let outcome := updateStatusOutcome now issue (toLowerCase status) u.id notes
          let db1 := match outcome.stored with
            | some written => db.writeIssue written
            | none => db
          match outcome.result with
          | .error e => (db1, .error (.SaveFailed e))
          | .ok issue1 =>
            if (toLowerCase status) = "resolved" then
              match User.findById db1 issue1.reporter with
              | some reporter => (db1.writeUser (updateStats now reporter "resolve"), .ok issue1)
              | none => (db1, .error (.TypeError "Cannot read properties of null"))
            else (db1, .ok issue1)

/-- The mutation `assignIssue(id, assigneeId)`. -/
def assignIssue (now : Date) (db : Db) (id assigneeId : ObjectId) (user : Option User) :
    Db × Except ApiError Issue :=
  match user with
  | none => (db, .error (.AuthenticationError "Not authenticated"))
  | some u =>
    if notElevated u then
      (db, .error (.ForbiddenError "Only officials can assign issues"))
    else
      match Issue.findById db id with
      | none => (db, .error (.UserInputError "Issue not found"))
      | some issue =>
        match User.findById db assigneeId with
        | none => (db, .error (.UserInputError "Assignee not found"))
        | some assignee =>
          let issue1 := assign now issue assigneeId assignee.name u.id
          (db.writeIssue issue1, .ok issue1)

/-! ## Engagement through the resolvers (issueResolvers.js 8-26, 403-414;
commentResolvers.js 122-249) -/

/-- Counter-wise order on engagement sub-documents. -/
def Engagement.le (a b : Engagement) : Prop :=
  a.views ≤ b.views ∧ a.upvotes ≤ b.upvotes ∧ a.downvotes ≤ b.downvotes
    ∧ a.shares ≤ b.shares ∧ a.comments ≤ b.comments

instance (a b : Engagement) : Decidable (Engagement.le a b) :=
  inferInstanceAs (Decidable (_ ∧ _))

/-- The query `issue(id)`: after the checks it counts a view. The reporter
is populated before the check, so on a private issue
`issue.reporter.toString()` is the text of a user document, never the
caller's id (and of `null` a `TypeError` when the reporter is not stored):
only the role lets a caller view a private issue. -/
def issueQuery (now : Date) (db : Db) (id : ObjectId) (user : Option User) :
    Db × Except ApiError Issue :=
  match user with
  | none => (db, .error (.AuthenticationError "Not authenticated"))
  | some u =>
    match Issue.findById db id with
    | none => (db, .error (.UserInputError "Issue not found"))
    | some issue =>
      let proceed : Db × Except ApiError Issue :=
        let issue1 := incrementEngagement now issue "views"
        (db.writeIssue issue1, .ok issue1)
      if issue.isPublic then proceed
      else
        match User.findById db issue.reporter with
        | none => (db, .error (.TypeError "Cannot read properties of null"))
        | some _ =>
          if notElevated u then (db, .error (.ForbiddenError "Access denied"))
          else proceed

/-- The mutation `upvoteIssue(id)`. -/
def upvoteIssue (now : Date) (db : Db) (id : ObjectId) (user : Option User) :
    Db × Except ApiError Issue :=
  match user with
  | none => (db, .error (.AuthenticationError "Not authenticated"))
  | some u =>
    match Issue.findById db id with
    | none => (db, .error (.UserInputError "Issue not found"))
    | some issue =>
      let _ := u
      let issue1 := incrementEngagement now issue "upvotes"
      (db.writeIssue issue1, .ok issue1)

/-- Modelled from the spec: the comment document, whose schema file
`models/Comment.js` is not among the sources; the fields are those the
comment resolvers read and write. -/
structure Comment where
  id : ObjectId
  content : String
  author : ObjectId
  issue : ObjectId
  parentComment : Option ObjectId
  replies : List ObjectId
deriving DecidableEq, Repr

/-- The input of `createComment`, as far as the resolver reads it. -/
structure CreateCommentInput where
  issueId : ObjectId
  content : String
  parentCommentId : Option ObjectId
deriving DecidableEq, Repr

/-- `Comment.findById(id)`. -/
def Comment.findById (cs : List Comment) (id : ObjectId) : Option Comment :=
  cs.find? (fun c => c.id == id)

/-- `Issue.findByIdAndUpdate(id, { $inc: { 'engagement.comments': delta } })`:
the stored document of that id gets its comment counter moved by `delta`;
no document middleware runs. -/
def Db.incComments (db : Db) (id : ObjectId) (delta : Int) : Db :=
  { db with issues := db.issues.map (fun i =>
      if i.id == id then
        { i with engagement := { i.engagement with comments := i.engagement.comments + delta } }
      else i) }

/-- The mutation `createComment(input)`; `newId` is the id the new comment
document gets. The comment's own `save()` is taken to succeed. -/
def createComment (db : Db) (cs : List Comment) (newId : ObjectId) (input : CreateCommentInput)
    (user : Option User) : (Db × List Comment) × Except ApiError Comment :=
  match user with
  | none => ((db, cs), .error (.AuthenticationError "Not authenticated"))
  | some u =>
    match Issue.findById db input.issueId with
    | none => ((db, cs), .error (.UserInputError "Issue not found"))
    | some issue =>
      if !issue.isPublic && issue.reporter != u.id && notElevated u then
        ((db, cs), .error (.ForbiddenError "Cannot comment on private issue"))
      else
        let parentCheck : Option ApiError :=
          match input.parentCommentId with
          | none => none
          | some pid =>
            match Comment.findById cs pid with
            | none => some (.UserInputError "Parent comment not found")
            | some parent =>
              if parent.issue != input.issueId then
                some (.UserInputError "Parent comment does not belong to this issue")
              else none
        match parentCheck with
        | some err => ((db, cs), .error err)
        | none =>
          let comment : Comment :=
            { id := newId, content := input.content, author := u.id, issue := input.issueId,
              parentComment := input.parentCommentId, replies := [] }
          let cs1 := cs ++ [comment]
          let cs2 : List Comment := match input.parentCommentId with
            | none => cs1
            | some pid => cs1.map (fun c =>
                if c.id == pid then { c with replies := c.replies ++ [newId] } else c)
          ((db.incComments input.issueId 1, cs2), .ok comment)

/-- The mutation `deleteComment(id)`: the comment and its replies are
removed, and the comment counter of the comment's issue is decremented
once. -/
def deleteComment (db : Db) (cs : List Comment) (id : ObjectId) (user : Option User) :
    (Db × List Comment) × Except ApiError Bool :=
  match user with
  | none => ((db, cs), .error (.AuthenticationError "Not authenticated"))
  | some u =>
    match Comment.findById cs id with
    | none => ((db, cs), .error (.UserInputError "Comment not found"))
    | some comment =>
      if comment.author != u.id && u.role != "admin" then
        ((db, cs), .error (.ForbiddenError "Can only delete your own comments"))
      else
        let cs1 : List Comment := match comment.parentComment with
          | none => cs
          | some pid => cs.map (fun c =>
              if c.id == pid then { c with replies := c.replies.filter (fun r => r != comment.id) }
              else c)
        let cs2 := cs1.filter (fun c => c.parentComment != some comment.id)
        let cs3 := cs2.filter (fun c => c.id != id)
        ((db.incComments comment.issue (-1), cs3), .ok true)

/-- A sample comment on the sample issue i2, written by user u1, as the seed
script inserts comments (without touching the issue's counter). -/
def sampleComment : Comment :=
  { id := "c1", content := "ok", author := "u1", issue := "i2", parentComment := none,
    replies := [] }

/-! ## Intake classifier (services/aiService.ts 50-88, 136-291)

Strings are sequences of code points; `includes` is the substring test,
`split(' ')` the split on single spaces, `length` the number of UTF-16 code
units. -/

/-- Whether `pat` occurs in a list as a block of consecutive elements. -/
def isInfixOf (pat : List Char) : List Char → Bool
  | [] => pat.isEmpty
  | c :: cs => pat.isPrefixOf (c :: cs) || isInfixOf pat cs

/-- The method `s.includes(kw)`. -/
def includes (s kw : String) : Bool :=
  isInfixOf kw.data s.data

/-- Split of a character list on every single space. -/
def splitChars : List Char → List (List Char)
  | [] => [[]]
  | c :: cs =>
    if c = ' ' then [] :: splitChars cs
    else match splitChars cs with
      | w :: ws => (c :: w) :: ws
      | [] => [[c]]

/-- The method `s.split(' ')`. -/
def splitSpaces (s : String) : List String :=
  (splitChars s.data).map String.mk

/-- The property `s.length`: UTF-16 code units. -/
def utf16Length (s : String) : Nat :=
  (s.data.map (fun c => if c.toNat < 65536 then 1 else 2)).sum

/-- One entry of `issueCategories`. -/
structure CategoryData where
  name : String
  keywords : List String
  subcategories : List String
deriving DecidableEq, Repr

/-- The table `issueCategories`, in declaration order. -/
def issueCategories : List (String × CategoryData) :=
  [("roads", ⟨"सड़क और परिवहन", ["सड़क", "गड्ढे", "ट्रैफिक", "बस", "रिक्शा", "पार्किंग"],
      ["potholes", "traffic", "street_lights", "signage"]⟩),
   ("water", ⟨"पानी की आपूर्ति", ["पानी", "नल", "टंकी", "बोरवेल", "कमी", "गुणवत्ता"],
      ["shortage", "quality", "leakage", "pressure"]⟩),
   ("electricity", ⟨"बिजली", ["बिजली", "कटौती", "ट्रांसफार्मर", "मीटर", "वोल्टेज", "बिल"],
      ["outage", "billing", "infrastructure", "voltage"]⟩),
   ("garbage", ⟨"कचरा प्रबंधन", ["कचरा", "गंदगी", "सफाई", "डस्टबिन", "कलेक्शन"],
      ["collection", "disposal", "bins", "segregation"]⟩),
   ("healthcare", ⟨"स्वास्थ्य सेवा", ["अस्पताल", "डॉक्टर", "दवा", "इलाज", "एम्बुलेंस"],
      ["facilities", "staff", "medicines", "emergency"]⟩),
   ("education", ⟨"शिक्षा", ["स्कूल", "शिक्षक", "किताबें", "फीस", "बिल्डिंग"],
      ["infrastructure", "teachers", "resources", "fees"]⟩)]

/-- The shape of `sentimentKeywords`. -/
structure SentimentKeywords where
  negative : List String
  positive : List String
  urgent : List String
deriving DecidableEq, Repr

/-- The table `sentimentKeywords`. -/
def sentimentKeywords : SentimentKeywords :=
  { negative := ["समस्या", "परेशानी", "गुस्सा", "गलत", "बुरा", "खराब", "टूटा"],
    positive := ["अच्छा", "बेहतर", "सुधार", "धन्यवाद", "खुश", "संतुष्ट"],
    urgent := ["तुरंत", "जल्दी", "आपातकाल", "इमरजेंसी", "फौरन"] }

/-- The test of the inner loop of `classifyIssue`:
`words.some(word => word.includes(keyword.toLowerCase()))`. -/
def keywordHit (words : List String) (keyword : String) : Bool :=
  words.any (fun word => includes word (toLowerCase keyword))

/-- The inner loop of `classifyIssue` over one category's keywords: the score
and the keywords that were hit. -/
def keywordScan (words : List String) (keywords : List String) : Nat × List String :=
  keywords.foldl
    (fun acc keyword => if keywordHit words keyword then (acc.1 + 1, acc.2 ++ [keyword]) else acc)
    (0, [])

/-- The score of one category of the table for a tokenised text. -/
def categoryScore (words : List String) (entry : String × CategoryData) : Nat :=
  (keywordScan words entry.2.keywords).1

/-- The variable `bestMatch` of `classifyIssue`. -/
structure BestMatch where
  category : String
  score : Nat
deriving DecidableEq, Repr

/-- One round of the outer loop of `classifyIssue`: a category replaces the
best match only with a strictly greater score. -/
def classifyStep (words : List String) (st : BestMatch × List String)
    (entry : String × CategoryData) : BestMatch × List String :=
  let r := keywordScan words entry.2.keywords
  if st.1.score < r.1 then (⟨entry.1, r.1⟩, r.2) else st

/-- The outer loop of `classifyIssue` over a category table. -/
def bestCategory (words : List String) (cats : List (String × CategoryData)) :
    BestMatch × List String :=
  cats.foldl (classifyStep words) (⟨"other", 0⟩, [])

/-- The method `analyzeSentiment(text)`. -/
def analyzeSentiment (text : String) : String :=
  let words := splitSpaces (toLowerCase text)
  let counts := words.foldl
    (fun (acc : Nat × Nat) word =>
      let negativeScore :=
        if sentimentKeywords.negative.any (fun kw => includes word kw) then acc.1 + 1 else acc.1
      let positiveScore :=
        if sentimentKeywords.positive.any (fun kw => includes word kw) then acc.2 + 1 else acc.2
      (negativeScore, positiveScore))
    (0, 0)
  if counts.2 < counts.1 then "negative"
  else if counts.1 < counts.2 then "positive"
  else "neutral"

/-- The local table `categoryPriorities` of `calculatePriority`. -/
def categoryPriorities : List (String × Nat) :=
  [("healthcare", 3), ("water", 3), ("electricity", 2), ("roads", 2), ("garbage", 1),
   ("education", 1)]

/-- The local list `urgentWords` of `calculatePriority`. -/
def urgentWords : List String :=
  ["तुरंत", "जल्दी", "आपातकाल", "इमरजेंसी"]

/-- The score of `calculatePriority` before it is mapped to a priority. -/
def priorityScore (text sentiment category : String) : Nat :=
  let score0 := (categoryPriorities.lookup category).getD 1
  let score1 := if sentiment = "negative" then score0 + 1 else score0
  if urgentWords.any (fun word => includes text word) then score1 + 2 else score1

/-- The last four lines of `calculatePriority`. -/
def priorityOfScore (score : Nat) : String :=
  if 5 ≤ score then "critical"
  else if 4 ≤ score then "high"
  else if 2 ≤ score then "medium"
  else "low"

/-- The method `calculatePriority(text, sentiment, category)`. -/
def calculatePriority (text sentiment category : String) : String :=
  priorityOfScore (priorityScore text sentiment category)

/-- The method `calculateUrgencyScore(text)`. -/
def calculateUrgencyScore (text : String) : Nat :=
  let score0 := 50
  let score1 :=
    if sentimentKeywords.urgent.any (fun kw => includes text kw) then score0 + 30 else score0
  let score2 :=
    if sentimentKeywords.negative.any (fun kw => includes text kw) then score1 + 20 else score1
  let score3 := if 100 < utf16Length text then score2 + 10 else score2
  min score3 100

/-- The local table `subcategoryKeywords` of `detectSubcategory`. -/
def subcategoryKeywords : List (String × List (String × List String)) :=
  [("roads", [("potholes", ["गड्ढे", "holes"]), ("traffic", ["ट्रैफिक", "jam"]),
      ("street_lights", ["बत्ती", "lights"]), ("signage", ["साइन", "board"])]),
   ("water", [("shortage", ["कमी", "shortage"]), ("quality", ["गुणवत्ता", "quality", "गंदा"]),
      ("leakage", ["लीकेज", "leak"]), ("pressure", ["प्रेशर", "pressure"])])]

/-- The method `detectSubcategory(category, text)`. -/
def detectSubcategory (category text : String) : String :=
  match subcategoryKeywords.lookup category with
  | none => "general"
  | some categoryMap =>
    match categoryMap.find? (fun entry => entry.2.any (fun kw => includes text kw)) with
    | some entry => entry.1
    | none => "general"

/-- The interface `IssueClassification`. -/
structure IssueClassification where
  category : String
  subcategory : String
  priority : String
  sentiment : String
  keywords : List String
  confidence : ℚ
  urgencyScore : Nat
deriving DecidableEq, Repr

/-- The method `classifyIssue(text)` (the optional location is not read). -/
def classifyIssue (text : String) : IssueClassification :=
  let words := splitSpaces (toLowerCase text)
  let best := bestCategory words issueCategories
  let sentiment := analyzeSentiment text
  let priority := calculatePriority text sentiment best.1.category
  let urgencyScore := calculateUrgencyScore text
  { category := best.1.category,
    subcategory := detectSubcategory best.1.category text,
    priority := priority,
    sentiment := sentiment,
    keywords := best.2,
    confidence := min ((best.1.score : ℚ) / 3) 1,
    urgencyScore := urgencyScore }

/-- The count in the words of the specification: the tokens of the text that
match a keyword of the list. -/
def matchingTokenCount (words : List String) (keywords : List String) : Nat :=
  words.countP (fun word => keywords.any (fun kw => includes word (toLowerCase kw)))

/-- The priority in the words of the specification: as `calculatePriority`,
with the urgent table of `sentimentKeywords`. -/
def specPriority (text sentiment category : String) : String :=
  let score0 := (categoryPriorities.lookup category).getD 1
  let score1 := if sentiment = "negative" then score0 + 1 else score0
  priorityOfScore
    (if sentimentKeywords.urgent.any (fun kw => includes text kw) then score1 + 2 else score1)

/-! ## Notification service (services/notificationService.ts 34-57, 83-131,
203-254, 280-297)

A channel delivery is an external call; what it does (return, or throw) is
an argument of the model, indexed by the position of the attempt. -/

/-- The channels of a `NotificationConfig`: `'push' | 'sms' | 'voice'`. -/
inductive Channel where
  | push
  | sms
  | voice
deriving DecidableEq, Repr

/-- The string of a channel. -/
def Channel.name : Channel → String
  | .push => "push"
  | .sms => "sms"
  | .voice => "voice"

/-- The interface `NotificationConfig` (without `scheduledTime`, which the
sender does not read). It has no status field. -/
structure NotificationConfig where
  title : String
  body : String
  type : String
  priority : String
  issueId : Option String
  userId : String
  channels : List Channel
  language : String
deriving DecidableEq, Repr

/-- The table `templates`: language, then type. -/
def templates : List (String × List (String × String)) :=
  [("hindi",
     [("update", "आपकी रिपोर्ट #{issueId} को अपडेट मिला है। स्थिति: {status}"),
      ("resolved", "बधाई हो! आपकी रिपोर्ट #{issueId} का समाधान हो गया है।"),
      ("feedback", "कृपया रिपोर्ट #{issueId} पर अपनी राय दें।"),
      ("urgent", "आपके क्षेत्र में तत्काल ध्यान की जरूरत है।"),
      ("system", "JanBol ऐप में नए अपडेट उपलब्ध हैं।")]),
   ("english",
     [("update", "Your report #{issueId} has been updated. Status: {status}"),
      ("resolved", "Congratulations! Your report #{issueId} has been resolved."),
      ("feedback", "Please provide feedback on report #{issueId}."),
      ("urgent", "Urgent attention needed in your area."),
      ("system", "New updates available in JanBol app.")]),
   ("punjabi",
     [("update", "ਤੁਹਾਡੀ ਰਿਪੋਰਟ #{issueId} ਨੂੰ ਅਪਡੇਟ ਮਿਲਿਆ ਹੈ।"),
      ("resolved", "ਵਧਾਈ! ਤੁਹਾਡੀ ਰਿਪੋਰਟ #{issueId} ਦਾ ਹੱਲ ਹੋ ਗਿਆ ਹੈ।"),
      ("feedback", "ਕਿਰਪਾ ਕਰਕੇ ਰਿਪੋਰਟ #{issueId} ਬਾਰੇ ਆਪਣੀ ਰਾਏ ਦਿਓ।"),
      ("urgent", "ਤੁਹਾਡੇ ਖੇਤਰ ਵਿੱਚ ਤੁਰੰਤ ਧਿਆਨ ਦੀ ਲੋੜ ਹੈ।"),
      ("system", "JanBol ਐਪ ਵਿੱਚ ਨਵੇ ਅਪਡੇਟ ਉਪਲਬਧ ਹਨ।")])]

/-- Replacement of the first occurrence of `pat` in a character list. -/
def replaceFirstChars (pat rep : List Char) : List Char → List Char
  | [] => if pat.isEmpty then rep else []
  | c :: cs =>
    if pat.isPrefixOf (c :: cs) then rep ++ (c :: cs).drop pat.length
    else c :: replaceFirstChars pat rep cs

/-- The method `s.replace(pat, rep)` with a string pattern: the first
occurrence only (for a replacement without `$` patterns). -/
def replaceFirst (s pat rep : String) : String :=
  String.mk (replaceFirstChars pat.data rep.data s.data)

/-- The property names every object inherits from `Object.prototype`: a
lookup `table[key]` under one of them finds a function (under `__proto__`
the prototype itself), which is truthy, is not a string and has no property
named after a notification type. -/
def inheritedProperties : List String :=
  ["constructor", "hasOwnProperty", "isPrototypeOf", "propertyIsEnumerable", "toLocaleString",
   "toString", "valueOf", "__proto__", "__defineGetter__", "__defineSetter__",
   "__lookupGetter__", "__lookupSetter__"]

/-- What `body` can hold: a template text, an inherited value that is not a
string, or `undefined`. -/
inductive TemplateValue where
  | text (body : String)
  | inherited
  | undefined
deriving DecidableEq, Repr

/-- The rendered message. -/
structure Message where
  title : String
  body : TemplateValue
deriving DecidableEq, Repr

/-- What a channel delivery can throw: an `Error` with its message, or any
other value. -/
inductive Thrown where
  | error (message : String)
  | other
deriving DecidableEq, Repr

/-- The lookup `templates[config.type] || templates.system` in the table of
one language: the text of a declared type, the inherited value under an
inherited name, the system text otherwise. -/
def templateOfType (table : List (String × String)) (type : String) : TemplateValue :=
  match table.lookup type with
  | some body => .text body
  | none =>
    if type ∈ inheritedProperties then .inherited
    else
      match table.lookup "system" with
      | some body => .text body
      | none => .undefined

/-- The value of `body` before the replacement. The lookup
`this.templates[language] || this.templates.hindi` finds the table of a
declared language, an inherited value under an inherited name (on which the
lookup of one of the five notification types, and of `system`, is
`undefined`), and falls back to the hindi table otherwise. -/
def templateBody (config : NotificationConfig) : TemplateValue :=
  let language := if config.language = "" then "hindi" else config.language
  match templates.lookup language with
  | some table => templateOfType table config.type
  | none =>
    if language ∈ inheritedProperties then
      if config.type ∈ inheritedProperties then .inherited else .undefined
    else templateOfType ((templates.lookup "hindi").getD []) config.type

/-- The method `generateMessage(config)`: the template body, with
`{issueId}` replaced once when the config has a non-empty issue id; nothing
else is replaced. `body.replace` throws a `TypeError` when the body is not a
string. -/
def generateMessage (config : NotificationConfig) : Except Thrown Message :=
  let body := templateBody config
  match config.issueId with
  | some issueId =>
    if issueId = "" then .ok { title := config.title, body := body }
    else
      match body with
      | .text template =>
        .ok { title := config.title, body := .text (replaceFirst template "{issueId}" issueId) }
      | .inherited => .error (.error "body.replace is not a function")
      | .undefined =>
        .error (.error "Cannot read properties of undefined (reading 'replace')")
  | none => .ok { title := config.title, body := body }

/-- One element of `results`. -/
structure ChannelResult where
  channel : String
  success : Bool
  error : Option String
deriving DecidableEq, Repr

/-- The result of `sendNotification`. -/
structure SendResult where
  success : Bool
  results : List ChannelResult
deriving DecidableEq, Repr

/-- The `try`/`catch` around one channel: the entry pushed to `results`. -/
def attemptChannel (outcome : Except Thrown Unit) (channel : Channel) : ChannelResult :=
  match outcome with
  | .ok _ => { channel := channel.name, success := true, error := none }
  | .error (.error message) =>
    { channel := channel.name, success := false, error := some message }
  | .error .other => { channel := channel.name, success := false, error := some "Unknown error" }

/-- The loop over `config.channels`, from attempt number `k`. -/
def attemptAll (deliver : Nat → Channel → Except Thrown Unit) :
    Nat → List Channel → List ChannelResult
  | _, [] => []
  | k, channel :: rest => attemptChannel (deliver k channel) channel :: attemptAll deliver (k + 1) rest

/-- The method `sendNotification(config)`; an error value is an exception
reaching the caller. The message is generated before the loop, outside its
`try`/`catch`. -/
def sendNotification (deliver : Nat → Channel → Except Thrown Unit)
    (config : NotificationConfig) : Except Thrown SendResult :=
  match generateMessage config with
  | .error thrown => .error thrown
  | .ok _message =>
    let results := attemptAll deliver 0 config.channels
    .ok { success := results.any (fun r => r.success), results := results }

/-- The counts `sendBulkNotification` returns. -/
structure BulkCounts where
  sent : Nat
  failed : Nat
deriving DecidableEq, Repr

/-- The config `sendBulkNotification` builds for one recipient. -/
def bulkConfig (userId message type priority : String) : NotificationConfig :=
  { title := "महत्वपूर्ण सूचना", body := message, type := type, priority := priority,
    issueId := none, userId := userId, channels := [.push, .sms], language := "hindi" }

/-- The loop of `sendBulkNotification`, from recipient number `k`:
`sent` is bumped when `sendNotification` returns, `failed` when it throws. -/
def bulkLoop (deliver : Nat → Nat → Channel → Except Thrown Unit)
    (message type priority : String) : Nat → List String → BulkCounts → BulkCounts
  | _, [], acc => acc
  | k, userId :: rest, acc =>
    match sendNotification (deliver k) (bulkConfig userId message type priority) with
    | .ok _ => bulkLoop deliver message type priority (k + 1) rest { acc with sent := acc.sent + 1 }
    | .error _ =>
      bulkLoop deliver message type priority (k + 1) rest { acc with failed := acc.failed + 1 }

/-- The method `sendBulkNotification(userIds, message, type, priority)`. -/
def sendBulkNotification (deliver : Nat → Nat → Channel → Except Thrown Unit)
    (userIds : List String) (message type priority : String) : BulkCounts :=
  bulkLoop deliver message type priority 0 userIds ⟨0, 0⟩

/-- The config `notifyIssueUpdate(issueId, userId, status, message, language)`
passes to `sendNotification`: the status argument is not put in it. -/
def notifyIssueUpdateConfig (issueId userId _status : String) (message : Option String)
    (language : String) : NotificationConfig :=
  { title := "रिपोर्ट अपडेट",
    body := match message with
      | some m => if m = "" then "आपकी रिपोर्ट " ++ issueId ++ " की स्थिति बदली गई है।" else m
      | none => "आपकी रिपोर्ट " ++ issueId ++ " की स्थिति बदली गई है।",
    type := "update", priority := "medium", issueId := some issueId, userId := userId,
    channels := [.push, .sms], language := language }

/-- A sample config: an update about issue 42 whose language is the name of
an inherited property. -/
def inheritedLanguageConfig : NotificationConfig :=
  { title := "Report update", body := "Your report has been updated", type := "update",
    priority := "medium", issueId := some "42", userId := "u1", channels := [.push, .sms],
    language := "constructor" }

/-- A delivery oracle: every attempt is delivered. -/
def allDelivered : Nat → Channel → Except Thrown Unit :=
  fun _ _ => .ok ()

/-- A delivery oracle: every attempt throws. -/
def allFail : Nat → Channel → Except Thrown Unit :=
  fun _ _ => .error (.error "gateway down")

/-- A delivery oracle: push throws, everything else is delivered. -/
def pushFails : Nat → Channel → Except Thrown Unit :=
  fun _ channel => if channel = .push then .error (.error "no token") else .ok ()

/-! ## Notification documents (models/Notification.js 77-83;
notificationResolvers.js 83-118) -/

/-- A notification document, as far as reading it is concerned. -/
structure Notification where
  id : ObjectId
  recipient : ObjectId
  status : String
  isRead : Bool
  readAt : Option Date
  deliveryAttempts : Nat
  failureReason : Option String
deriving DecidableEq, Repr

/-- The method `markAsRead()`. -/
def Notification.markAsRead (now : Date) (n : Notification) : Notification :=
  { n with isRead := true, readAt := some now, status := "read" }

/-- The mutation `markNotificationAsRead(id)`. -/
def markNotificationAsRead (now : Date) (ns : List Notification) (id : ObjectId)
    (user : Option User) : List Notification × Except ApiError Notification :=
  match user with
  | none => (ns, .error (.AuthenticationError "Not authenticated"))
  | some u =>
    match ns.find? (fun n => n.id == id) with
    | none => (ns, .error (.UserInputError "Notification not found"))
    | some n =>
      if n.recipient != u.id then (ns, .error (.ForbiddenError "Access denied"))
      else
        (ns.map (fun m => if m.id == n.id then n.markAsRead now else m), .ok (n.markAsRead now))

/-- The mutation `markAllNotificationsAsRead`: `updateMany` over the caller's
unread notifications. -/
def markAllNotificationsAsRead (now : Date) (ns : List Notification) (user : Option User) :
    List Notification × Except ApiError Bool :=
  match user with
  | none => (ns, .error (.AuthenticationError "Not authenticated"))
  | some u =>
    (ns.map (fun n =>
        if n.recipient == u.id && n.isRead == false then
          { n with isRead := true, readAt := some now, status := "read" }
        else n),
     .ok true)

/-- A sample notification of user u1 with the given id and status, unread. -/
def sampleNotification (id : ObjectId) (status : String) : Notification :=
  { id := id, recipient := "u1", status := status, isRead := false, readAt := none,
    deliveryAttempts := 0, failureReason := none }

/-! ## Schema enums (schemas/index.js 107-114) -/

/-- The values of the GraphQL enum `IssueStatus`. -/
def issueStatusEnumNames : List String :=
  ["PENDING", "ACKNOWLEDGED", "IN_PROGRESS", "RESOLVED", "REJECTED", "DUPLICATE"]

/-! ## Pagination (issueResolvers.js 85-115; notificationResolvers.js 29-57;
utils/validation.js 113-131)

Offsets are natural numbers; a cursor is the base64 text of the decimal
numeral of an offset. The Number arithmetic of the code agrees with the
naturals up to 2^53; `toNumber`, `parseInt` and `decodeCursor` model the
rounding beyond it. -/

/-- The base64 alphabet. -/
def base64Alphabet : List Char :=
  "ABCDEFGHIJKLMNOPQRSTUVWXYZabcdefghijklmnopqrstuvwxyz0123456789+/".data

/-- The base64 character of a 6-bit value. -/
def encodeSextet (k : Nat) : Char :=
  base64Alphabet.getD k '='

/-- The 6-bit value of a base64 character; the decoder of `Buffer.from` also
reads the URL-safe `-` and `_`, and skips every other character. -/
def decodeSextet (c : Char) : Option Nat :=
  if c ∈ base64Alphabet then some (base64Alphabet.indexOf c)
  else if c = '-' then some 62
  else if c = '_' then some 63
  else none

/-- Bytes to 6-bit groups, three bytes at a time. -/
def bytesToSextets : List Nat → List Nat
  | a :: b :: c :: rest =>
    (a / 4) :: ((a % 4) * 16 + b / 16) :: ((b % 16) * 4 + c / 64) :: (c % 64)
      :: bytesToSextets rest
  | [a, b] => [a / 4, (a % 4) * 16 + b / 16, (b % 16) * 4]
  | [a] => [a / 4, (a % 4) * 16]
  | [] => []

/-- 6-bit groups back to bytes, four groups at a time. -/
def sextetsToBytes : List Nat → List Nat
  | s1 :: s2 :: s3 :: s4 :: rest =>
    (s1 * 4 + s2 / 16) :: ((s2 % 16) * 16 + s3 / 4) :: ((s3 % 4) * 64 + s4) :: sextetsToBytes rest
  | [s1, s2, s3] => [s1 * 4 + s2 / 16, (s2 % 16) * 16 + s3 / 4]
  | [s1, s2] => [s1 * 4 + s2 / 16]
  | [_] => []
  | [] => []

/-- The conversion `buffer.toString('base64')`: the alphabet characters, then
the `=` padding to a multiple of four. -/
def base64Encode (bytes : List Nat) : List Char :=
  (bytesToSextets bytes).map encodeSextet
    ++ List.replicate ((3 - bytes.length % 3) % 3) '='

/-- The conversion `Buffer.from(text, 'base64')`: reading stops at the first
`=`, characters outside the alphabet are skipped. -/
def base64Decode (chars : List Char) : List Nat :=
  sextetsToBytes ((chars.takeWhile (fun c => c != '=')).filterMap decodeSextet)

/-- The conversion `Buffer.from(text)` for an ASCII text, as a decimal
numeral is: one byte per character, its code. -/
def asciiBytes (text : List Char) : List Nat :=
  text.map Char.toNat

/-- The conversion `buffer.toString()`, exact on ASCII bytes; any other byte
becomes a character that `parseInt` does not read. -/
def bytesToText (bytes : List Nat) : List Char :=
  bytes.map (fun b => if b < 128 then Char.ofNat b else Char.ofNat 65533)

/-- The decimal numeral of a natural: what `n.toString()` gives for a Number
that is a safe integer (at most 2^53 - 1). For a larger Number `toString`
gives the shortest digits that read back as the same Number and, from 1e21
on, exponent form; the model keeps the numeral of the exact natural. -/
def numberToString (n : Nat) : List Char :=
  Nat.toDigits 10 n

/-- The constant `Number.MAX_SAFE_INTEGER`, 2^53 - 1. -/
def maxSafeInteger : Nat := 9007199254740991

/-- The Number nearest to a natural, as a natural: the natural itself below
2^53; from there on it is rounded to 53 significant bits, to the nearest and
in a tie to the even one. -/
def toNumber (n : Nat) : Nat :=
  if n < 2 ^ 53 then n
  else
    let e := (Nat.toDigits 2 n).length - 53
    let q := n / 2 ^ e
    let r := n % 2 ^ e
    if 2 * r < 2 ^ e ∨ (2 * r = 2 ^ e ∧ q % 2 = 0) then q * 2 ^ e else (q + 1) * 2 ^ e

/-- What `parseInt` returns: `NaN`, an integer-valued Number, or an infinity. -/
inductive ParsedNumber where
  | nan
  | number (value : Int)
  | infinity (negative : Bool)
deriving DecidableEq, Repr

/-- White space `parseInt` skips (the ASCII part). -/
def isJsWhitespace (c : Char) : Bool :=
  c = ' ' || c = '\t' || c = '\n' || c = '\r' || c.toNat = 11 || c.toNat = 12

/-- The value of a character as a digit in the given radix, if it is one. -/
def radixDigit (radix : Nat) (c : Char) : Option Nat :=
  let v :=
    if 48 ≤ c.toNat ∧ c.toNat ≤ 57 then some (c.toNat - 48)
    else if 97 ≤ c.toNat ∧ c.toNat ≤ 122 then some (c.toNat - 97 + 10)
    else if 65 ≤ c.toNat ∧ c.toNat ≤ 90 then some (c.toNat - 65 + 10)
    else none
  match v with
  | some d => if d < radix then some d else none
  | none => none

/-- The digits `parseInt` reads: the longest prefix of digits of the radix. -/
def leadingDigits (radix : Nat) : List Char → List Nat
  | [] => []
  | c :: cs =>
    match radixDigit radix c with
    | some d => d :: leadingDigits radix cs
    | none => []

/-- The integer `parseInt(text)` reads, without radix argument: white space,
an optional sign, an optional `0x` prefix, then digits; `none` when there is
no digit. This is the exact integer the digits denote. -/
def parseIntMathInt (text : List Char) : Option Int :=
  let s1 := text.dropWhile isJsWhitespace
  let negative := s1.head? = some '-'
  let s2 := if s1.head? = some '-' ∨ s1.head? = some '+' then s1.tail else s1
  let hex := s2.take 2 = ['0', 'x'] ∨ s2.take 2 = ['0', 'X']
  let radix := if hex then 16 else 10
  let s3 := if hex then s2.drop 2 else s2
  let digits := leadingDigits radix s3
  if digits = [] then none
  else
    let value : Int := (digits.foldl (fun acc d => acc * radix + d) 0 : Nat)
    some (if negative then -value else value)

/-- The function `parseInt(text)` without radix argument: `NaN` when no
digit is read, otherwise the Number nearest to the integer read, which is an
infinity from 2^1024 on. -/
def parseInt (text : List Char) : ParsedNumber :=
  match parseIntMathInt text with
  | none => .nan
  | some z =>
    let magnitude := toNumber z.natAbs
    if magnitude < 2 ^ 1024 then .number (if z < 0 then -(magnitude : Int) else magnitude)
    else .infinity (decide (z < 0))

/-- The cursor of an offset: the base64 text of its decimal numeral,
`Buffer.from(offset.toString()).toString('base64')`. -/
def encodeCursor (offset : Nat) : String :=
  String.mk (base64Encode (asciiBytes (numberToString offset)))

/-- The Number a cursor decodes to:
`parseInt(Buffer.from(after, 'base64').toString())`. -/
def decodeCursor (after : String) : ParsedNumber :=
  parseInt (bytesToText (base64Decode after.data))

/-- The exact integer the digits of a cursor denote; `decodeCursor` is the
Number nearest to it, which is the same integer up to 2^53. -/
def cursorInteger (after : String) : Option Int :=
  parseIntMathInt (bytesToText (base64Decode after.data))

/-- The `PaginationInput` of a list query (negative `first` is outside the
model). -/
structure PaginationInput where
  first : Option Nat
  after : Option String
  last : Option Nat
deriving DecidableEq, Repr

/-- The function `validatePagination(pagination)` of `utils/validation.js`.
No resolver calls it. -/
def validatePagination (pagination : Option PaginationInput) : List String :=
  match pagination with
  | none => []
  | some pg =>
    let firstGiven := match pg.first with | some f => decide (f ≠ 0) | none => false
    let lastGiven := match pg.last with | some l => decide (l ≠ 0) | none => false
    let e1 :=
      if firstGiven = true ∧ ((pg.first.getD 0) < 1 ∨ 100 < (pg.first.getD 0)) then
        ["First parameter must be between 1 and 100"]
      else []
    let e2 :=
      if lastGiven = true ∧ ((pg.last.getD 0) < 1 ∨ 100 < (pg.last.getD 0)) then
        ["Last parameter must be between 1 and 100"]
      else []
    let e3 :=
      if firstGiven = true ∧ lastGiven = true then
        ["Cannot specify both first and last parameters"]
      else []
    e1 ++ e2 ++ e3

/-- The page size: `pagination?.first || 20`. -/
def pageLimit (pagination : Option PaginationInput) : Nat :=
  match pagination with
  | none => 20
  | some pg =>
    match pg.first with
    | some f => if f = 0 then 20 else f
    | none => 20

/-- The number of records skipped: `pagination?.after ? parseInt(...) : 0`;
`none` when the cursor decodes to `NaN` or to a negative number, which the
store does not accept as a skip. The list queries are modelled on the exact
integer the cursor denotes: the code holds the Number nearest to it, which
is the same integer for every offset up to 2^53. -/
def pageSkip (pagination : Option PaginationInput) : Option Nat :=
  match pagination with
  | none => some 0
  | some pg =>
    match pg.after with
    | none => some 0
    | some after =>
      if after = "" then some 0
      else
        match cursorInteger after with
        | some (Int.ofNat n) => some n
        | _ => none

/-- An edge of a connection. -/
structure Edge (α : Type) where
  node : α
  cursor : String
deriving DecidableEq, Repr

/-- The `pageInfo` of a connection. -/
structure PageInfo where
  hasNextPage : Bool
  hasPreviousPage : Bool
  startCursor : Option String
  endCursor : Option String
  totalCount : Nat
deriving DecidableEq, Repr

/-- What a list query returns. -/
structure Connection (α : Type) where
  edges : List (Edge α)
  pageInfo : PageInfo
deriving DecidableEq, Repr

/-- The `map` that builds the edges: the record at index `index` of the page
gets the cursor of `skip + index + 1`. -/
def edgesFrom {α : Type} (skip : Nat) : Nat → List α → List (Edge α)
  | _, [] => []
  | index, r :: rest =>
    { node := r, cursor := encodeCursor (skip + index + 1) } :: edgesFrom skip (index + 1) rest

/-- The body of a list query from `limit` and `skip` on; `records` is the
result of `find(query).sort(sortOptions)`, of which the store returns the
part after `skip`, cut to `limit + 1`. -/
def connectionAt {α : Type} (records : List α) (limit skip : Nat) : Connection α :=
  let found := (records.drop skip).take (limit + 1)
  let hasNextPage := decide (limit < found.length)
  let page := if hasNextPage then found.dropLast else found
  let edges := edgesFrom skip 0 page
  { edges := edges,
    pageInfo :=
      { hasNextPage := hasNextPage,
        hasPreviousPage := decide (0 < skip),
        startCursor := edges.head?.map (fun e => e.cursor),
        endCursor := edges.getLast?.map (fun e => e.cursor),
        totalCount := records.length } }

/-- A list query (`issues`, `myIssues`, `notifications`, ...) on the records
its filter and sort select. -/
def connectionPage {α : Type} (records : List α) (pagination : Option PaginationInput) :
    Option (Connection α) :=
  (pageSkip pagination).map (fun skip => connectionAt records (pageLimit pagination) skip)

/-- Paging through a list: each request passes the previous page's
`endCursor` as `after`, until `hasNextPage` is false. `none` when the fuel
runs out or a cursor cannot be used. -/
def collectPages {α : Type} (records : List α) (first : Option Nat) :
    Nat → Option String → Option (List α)
  | 0, _ => none
  | fuel + 1, after =>
    match connectionPage records (some { first := first, after := after, last := none }) with
    | none => none
    | some page =>
      if page.pageInfo.hasNextPage then
        (collectPages records first fuel page.pageInfo.endCursor).map
          (fun rest => page.edges.map (fun e => e.node) ++ rest)
      else some (page.edges.map (fun e => e.node))

/-! ## Nearby issues (validation.js 25-34, Issue.js 259-272, issueResolvers.js 155-169) -/

/-- A JavaScript value as `validateCoordinates` sees it: a finite number,
`NaN`, an infinity, or a value whose `typeof` is not `'number'`. -/
inductive JsValue where
  | number (x : ℚ)
  | nan
  | infinity (negative : Bool)
  | other (typeName : String)
deriving DecidableEq, Repr

/-- The test `typeof v === 'number'`: `NaN` and the infinities are numbers. -/
def JsValue.isNumber : JsValue → Bool
  | .number _ => true
  | .nan => true
  | .infinity _ => true
  | .other _ => false

/-- The comparison `v >= c` of a number value with a finite constant (the
conjunction short-circuits, so it is only reached by number values). -/
def JsValue.ge : JsValue → ℚ → Bool
  | .number x, c => decide (c ≤ x)
  | .nan, _ => false
  | .infinity negative, _ => !negative
  | .other _, _ => false

/-- The comparison `v <= c` of a number value with a finite constant. -/
def JsValue.le : JsValue → ℚ → Bool
  | .number x, c => decide (x ≤ c)
  | .nan, _ => false
  | .infinity negative, _ => negative
  | .other _, _ => false

/-- The helper `validateCoordinates(longitude, latitude)` of utils/validation.js. -/
def validateCoordinates (longitude latitude : JsValue) : Bool :=
  longitude.isNumber &&
  latitude.isNumber &&
  longitude.ge (-180) &&
  longitude.le 180 &&
  latitude.ge (-90) &&
  latitude.le 90

/-- A GeoJSON point: `coordinates: [longitude, latitude]`. -/
structure Point where
  longitude : ℚ
  latitude : ℚ
deriving DecidableEq, Repr

/-- An issue document together with its `location.coordinates` point. -/
structure LocatedIssue where
  issue : Issue
  coordinates : Point
deriving DecidableEq, Repr

/-- The filter `{ 'location.coordinates': { $near: { $geometry, $maxDistance } } }`;
a coordinate is `none` when the argument was `undefined`. -/
structure NearFilter where
  longitude : Option ℚ
  latitude : Option ℚ
  maxDistance : ℚ
deriving DecidableEq, Repr

/-- A query under construction: the filter, what `.limit(n)` set and whether
`.sort({ createdAt: -1 })` was called. (`populate` replaces the reporter and
assignee ids by documents; it selects and orders nothing and is left out.) -/
structure NearQuery where
  filter : NearFilter
  limit : Option Nat
  sortCreatedAtDescending : Bool
deriving DecidableEq, Repr

/-- The static `findNearby(longitude, latitude, maxDistance = 5000)`: it
builds the query and checks nothing. -/
def findNearby (longitude latitude : Option ℚ) (maxDistance : Option ℚ) : NearQuery :=
  { filter := { longitude := longitude, latitude := latitude,
                maxDistance := maxDistance.getD 5000 },
    limit := none, sortCreatedAtDescending := false }

/-- The query method `.limit(n)`. -/
def NearQuery.setLimit (q : NearQuery) (n : Nat) : NearQuery := { q with limit := some n }

/-- The query method `.sort({ createdAt: -1 })`. -/
def NearQuery.sortByCreatedAtDescending (q : NearQuery) : NearQuery :=
  { q with sortCreatedAtDescending := true }

/-- What the nearby query can throw: a resolver error, or an error of the store. -/
inductive NearbyError where
  | api (e : ApiError)
  | store (message : String)
deriving DecidableEq, Repr

/-- The resolver `nearbyIssues(coordinates, radius, limit)`. `exec` is the
store executing the awaited query; the first component of the result lists
the queries handed to the store. -/
def nearbyIssues (exec : NearQuery → Except NearbyError (List LocatedIssue))
    (user : Option User) (coordinates : List ℚ) (radius : ℚ) (limit : Nat) :
    List NearQuery × Except NearbyError (List LocatedIssue) :=
  match user with
  | none => ([], .error (.api (.AuthenticationError "Not authenticated")))
  | some _ =>
    let query := ((findNearby coordinates[0]? coordinates[1]? (some radius)).setLimit limit)
      |>.sortByCreatedAtDescending
    ([query], exec query)

/-- The `$maxDistance` test of `$near`, for the store metric `dist` (metres
between two points on the sphere). -/
def withinDistance (dist : Point → Point → ℚ) (center : Point) (maxDistance : ℚ)
    (i : LocatedIssue) : Bool :=
  decide (dist center i.coordinates ≤ maxDistance)

/-- The order of `$near`: nearest to the centre first. -/
def nearerThan (dist : Point → Point → ℚ) (center : Point) (a b : LocatedIssue) : Prop :=
  dist center a.coordinates ≤ dist center b.coordinates

instance (dist : Point → Point → ℚ) (center : Point) : DecidableRel (nearerThan dist center) :=
  fun a b => inferInstanceAs (Decidable (dist center a.coordinates ≤ dist center b.coordinates))

/-- The order of `.sort({ createdAt: -1 })`: most recently created first. -/
def createdAfter (a b : LocatedIssue) : Prop := b.issue.createdAt ≤ a.issue.createdAt

instance : DecidableRel createdAfter := fun a b =>
  inferInstanceAs (Decidable (b.issue.createdAt ≤ a.issue.createdAt))

instance (dist : Point → Point → ℚ) (center : Point) :
    IsTotal LocatedIssue (nearerThan dist center) :=
  ⟨fun a b => le_total (dist center a.coordinates) (dist center b.coordinates)⟩

instance (dist : Point → Point → ℚ) (center : Point) :
    IsTrans LocatedIssue (nearerThan dist center) :=
  ⟨fun _ _ _ h1 h2 => le_trans h1 h2⟩

instance : IsTotal LocatedIssue createdAfter :=
  ⟨fun a b => le_total b.issue.createdAt a.issue.createdAt⟩

instance : IsTrans LocatedIssue createdAfter :=
  ⟨fun _ _ _ h1 h2 => le_trans h2 h1⟩

/-- The bounds of a GeoJSON point: longitude in [-180, 180], latitude in
[-90, 90]. -/
def Point.inBounds (p : Point) : Bool :=
  decide (-180 ≤ p.longitude) && decide (p.longitude ≤ 180) &&
  decide (-90 ≤ p.latitude) && decide (p.latitude ≤ 90)

/-- The store executing a `$near` query over the stored issues, for the store
metric `dist`: the documents within `$maxDistance`, nearest first; an explicit
sort re-orders the matching documents and so replaces the order of `$near`;
then the limit is applied, a limit of 0 meaning no limit. The store itself
rejects a point with an `undefined` coordinate or outside the bounds of a
GeoJSON point, with an error of its own. -/
def execNear (dist : Point → Point → ℚ) (stored : List LocatedIssue) (q : NearQuery) :
    Except NearbyError (List LocatedIssue) :=
  match q.filter.longitude, q.filter.latitude with
  | some longitude, some latitude =>
    let center : Point := { longitude := longitude, latitude := latitude }
    if center.inBounds then
      let matched := (stored.filter (withinDistance dist center q.filter.maxDistance)).insertionSort
        (nearerThan dist center)
      let sorted := if q.sortCreatedAtDescending then matched.insertionSort createdAfter else matched
      match q.limit with
      | none => .ok sorted
      | some n => .ok (if n = 0 then sorted else sorted.take n)
    else .error (.store "Longitude/latitude is out of bounds")
  | _, _ => .error (.store "Point must only contain numeric elements")

/-- A sample metric for the examples: 111195 metres per degree of latitude and
of longitude difference. On one meridian it is the great-circle distance (to
the metre per degree); the sample points all lie on one meridian. -/
def sampleDistance (p q : Point) : ℚ :=
  (|p.latitude - q.latitude| + |p.longitude - q.longitude|) * 111195

/-- A sample located issue. -/
def sampleLocated (id : ObjectId) (createdAt : Date) (longitude latitude : ℚ) : LocatedIssue :=
  { issue := sampleIssue id createdAt ⟨0, 0, 0, 0, 0⟩,
    coordinates := { longitude := longitude, latitude := latitude } }

/-- A sample user. -/
def sampleUser (id : ObjectId) (role : String) : User :=
  { id := id, name := "N " ++ id, email := id ++ "@example.org", role := role,
    stats := ⟨0, 0, 0, "नया सदस्य", 0⟩ }

/-- A sample: an issue reported as critical by user u1, saved at time 1. -/
def criticalIssue : Issue := save 1 (newIssue "i1" "u1" "critical" true)

/-- A sample: an issue reported with medium priority by user u1, saved at time 1. -/
def mediumIssue : Issue := save 1 (newIssue "i2" "u1" "medium" true)

/-- A sample store: the two sample issues; a citizen, an official and an admin. -/
def sampleDb : Db :=
  { issues := [criticalIssue, mediumIssue],
    users := [sampleUser "u1" "citizen", sampleUser "u2" "official", sampleUser "u3" "admin"] }

/-- A sample: an issue of medium priority under a well-formed ObjectId,
reported by the citizen of `objectIdDb` and saved at time 1. -/
def storedIssue : Issue :=
  save 1 (newIssue "64b7f0c2a1d3e4f5a6b7c8d1" "64b7f0c2a1d3e4f5a6b7c8e1" "medium" true)

/-- A sample store whose ids are well-formed ObjectIds: one issue; a citizen
and an official. -/
def objectIdDb : Db :=
  { issues := [storedIssue],
    users := [sampleUser "64b7f0c2a1d3e4f5a6b7c8e1" "citizen",
              sampleUser "64b7f0c2a1d3e4f5a6b7c8e2" "official"] }

/-! ## Theorems -/

/-- The floor in the virtual is (floor) integer division of the view counter. -/
theorem floor_views_div_ten (v : Int) : Int.floor ((v : ℚ) / 10) = v / 10 := by
  have h : ((v : ℚ) / 10) = ((v : ℚ) / ((10 : Nat) : ℚ)) := by norm_num
  rw [h, Rat.floor_intCast_div_natCast]
  norm_cast

/-- The virtual over integer counters, with the floor as integer division. -/
theorem engagementScore_eq (e : Engagement) :
    engagementScore e = e.upvotes * 2 + e.shares + e.comments - e.downvotes + e.views / 10 := by
  simp only [engagementScore, floor_views_div_ten]

/-- C1: for all non-negative integer counters the engagementScore virtual is
upvotes*2 + shares + comments - downvotes + floor(views/10) (the floor being
integer division), and it is a function of the five counters only: issues
with equal counters have equal scores. -/
theorem engagementScore_formula :
    (∀ views upvotes downvotes shares comments : Nat,
      engagementScore ⟨views, upvotes, downvotes, shares, comments⟩
        = (upvotes : Int) * 2 + shares + comments - downvotes + ((views / 10 : Nat) : Int))
    ∧ (∀ i j : Issue, i.engagement = j.engagement → i.engagementScore = j.engagementScore) := by
  refine ⟨?_, ?_⟩
  · intro views upvotes downvotes shares comments
    rw [engagementScore_eq]
    simp only [Int.natCast_ediv, Nat.cast_ofNat]
    rfl
  · intro i j h
    simp only [Issue.engagementScore, h]

/-- Witness for C1: the virtual on concrete counters, and two different issues
with the same counters. -/
theorem engagementScore_formula_witness :
    engagementScore ⟨25, 3, 1, 2, 4⟩ = 13
    ∧ (sampleIssue "a" 0 ⟨25, 3, 1, 2, 4⟩).engagementScore
        = (sampleIssue "b" 5 ⟨25, 3, 1, 2, 4⟩).engagementScore :=
  ⟨engagementScore_formula.1 25 3 1 2 4, engagementScore_formula.2 _ _ rfl⟩

/-- The aggregation score is the virtual plus the fractional part of views/10. -/
theorem trendingScore_eq (e : Engagement) :
    trendingScore e = (engagementScore e : ℚ) + ((e.views % 10 : Int) : ℚ) / 10 := by
  have hv : (e.views : ℚ) = ((e.views / 10 : Int) : ℚ) * 10 + ((e.views % 10 : Int) : ℚ) := by
    have h2 : ((10 * (e.views / 10) + e.views % 10 : Int) : ℚ) = (e.views : ℚ) := by
      rw [Int.ediv_add_emod e.views 10]
    rw [Int.cast_add, Int.cast_mul] at h2
    have h3 : ((10 : Int) : ℚ) = 10 := by norm_num
    rw [h3] at h2
    linarith
  have hq : (e.views : ℚ) / 10
      = ((e.views / 10 : Int) : ℚ) + ((e.views % 10 : Int) : ℚ) / 10 := by
    rw [div_eq_iff (by norm_num : (10 : ℚ) ≠ 0)]
    linarith
  simp only [trendingScore, engagementScore, floor_views_div_ten, Int.cast_add, Int.cast_sub,
    Int.cast_mul, Int.cast_ofNat]
  linarith

/-- The two scores agree exactly on issues whose view counter is a multiple
of ten. -/
theorem trendingScore_eq_engagementScore_iff (e : Engagement) :
    trendingScore e = (engagementScore e : ℚ) ↔ (10 : Int) ∣ e.views := by
  rw [trendingScore_eq, Int.dvd_iff_emod_eq_zero]
  constructor
  · intro h
    have h0 : ((e.views % 10 : Int) : ℚ) / 10 = 0 := by linarith
    rw [div_eq_zero_iff] at h0
    rcases h0 with h0 | h0
    · exact_mod_cast h0
    · norm_num at h0
  · intro h
    rw [h]
    simp

/-- C2 (the code at the failing input): for an issue with 5 views and no
other engagement the aggregation pipeline of getTrending computes the score
1/2, while the engagementScore virtual of the same issue is 0; the pipeline
divides the views by ten without taking the floor. -/
theorem getTrending_score_differs_from_virtual :
    trendingScore ⟨5, 0, 0, 0, 0⟩ = 1 / 2
    ∧ engagementScore ⟨5, 0, 0, 0, 0⟩ = 0
    ∧ trendingScore ⟨5, 0, 0, 0, 0⟩ ≠ (engagementScore ⟨5, 0, 0, 0, 0⟩ : ℚ) := by
  refine ⟨?_, ?_, ?_⟩
  · norm_num [trendingScore]
  · rw [engagementScore_eq]; decide
  · rw [Ne, trendingScore_eq_engagementScore_iff]; decide

/-- The sorted, unlimited list behind getTrending is a permutation of the
issues in the window, in non-increasing score order. -/
theorem trending_sorted (now : Date) (stored : List Issue) :
    ((stored.filter (inTrendingWindow now)).insertionSort trendingBefore).Pairwise trendingBefore
    ∧ ((stored.filter (inTrendingWindow now)).insertionSort trendingBefore).Perm
        (stored.filter (inTrendingWindow now)) :=
  ⟨List.sorted_insertionSort trendingBefore _, List.perm_insertionSort trendingBefore _⟩

/-- C3 (amended): getTrending(K) returns min(K, number of issues in the
window) issues, hence at most K; each is a stored issue created at or after
now minus seven days; they are in non-increasing order of the aggregation
score; and every issue of the window that is left out scores no more than
any returned one. Nothing orders issues of equal score by createdAt or id. -/
theorem getTrending_spec (now : Date) (K : Nat) (stored : List Issue) :
    (getTrending now K stored).length = min K (stored.filter (inTrendingWindow now)).length
    ∧ (getTrending now K stored).length ≤ K
    ∧ (∀ i ∈ getTrending now K stored, i ∈ stored ∧ now - sevenDaysMs ≤ i.createdAt)
    ∧ (getTrending now K stored).Pairwise
        (fun a b => trendingScore b.engagement ≤ trendingScore a.engagement)
    ∧ (∀ j ∈ stored, now - sevenDaysMs ≤ j.createdAt → j ∉ getTrending now K stored →
        ∀ i ∈ getTrending now K stored, trendingScore j.engagement ≤ trendingScore i.engagement) := by
  obtain ⟨hs, hp⟩ := trending_sorted now stored
  refine ⟨?_, ?_, ?_, ?_, ?_⟩
  · simp only [getTrending, List.length_take, List.length_insertionSort]
  · simp only [getTrending, List.length_take]
    exact Nat.min_le_left _ _
  · intro i hi
    have h1 : i ∈ stored.filter (inTrendingWindow now) := hp.subset (List.mem_of_mem_take hi)
    rw [List.mem_filter] at h1
    exact ⟨h1.1, by simpa [inTrendingWindow] using h1.2⟩
  · exact hs.sublist (List.take_sublist K _)
  · intro j hj hw hnot i hi
    have hjs : j ∈ (stored.filter (inTrendingWindow now)).insertionSort trendingBefore := by
      apply hp.symm.subset
      rw [List.mem_filter]
      exact ⟨hj, by simpa [inTrendingWindow] using hw⟩
    rw [← List.take_append_drop K
      ((stored.filter (inTrendingWindow now)).insertionSort trendingBefore)] at hjs hs
    rw [List.mem_append] at hjs
    rcases hjs with hjs | hjs
    · exact absurd hjs hnot
    · rw [List.pairwise_append] at hs
      exact hs.2.2 i hi j hjs

/-- On two stored issues of the window with one upvote each, the older one
stored first, getTrending returns them in storage order. -/
theorem getTrending_two_equal :
    getTrending 10 2 [sampleIssue "a" 1 ⟨0, 1, 0, 0, 0⟩, sampleIssue "b" 2 ⟨0, 1, 0, 0, 0⟩]
      = [sampleIssue "a" 1 ⟨0, 1, 0, 0, 0⟩, sampleIssue "b" 2 ⟨0, 1, 0, 0, 0⟩] := by
  simp [getTrending, inTrendingWindow, sevenDaysMs, sampleIssue, trendingBefore, trendingScore]

/-- C3 (counterexample): two issues with the same score, the older one
stored first: getTrending returns the older one first, so the tie is not
broken by more-recent createdAt; and the same two issues stored in the other
order give a different result, so the result is not determined by the set of
stored issues. -/
theorem getTrending_ties_not_broken :
    ¬ TieBroken (getTrending 10 2
        [sampleIssue "a" 1 ⟨0, 1, 0, 0, 0⟩, sampleIssue "b" 2 ⟨0, 1, 0, 0, 0⟩])
    ∧ getTrending 10 2 [sampleIssue "a" 1 ⟨0, 1, 0, 0, 0⟩, sampleIssue "b" 2 ⟨0, 1, 0, 0, 0⟩]
      ≠ getTrending 10 2 [sampleIssue "b" 2 ⟨0, 1, 0, 0, 0⟩, sampleIssue "a" 1 ⟨0, 1, 0, 0, 0⟩] := by
  constructor
  · rw [getTrending_two_equal]
    simp [TieBroken, sampleIssue]
  · simp [getTrending, inTrendingWindow, sevenDaysMs, sampleIssue, trendingBefore, trendingScore]

/-- Witness for C3: with limit 1 on a store of three issues, one of them
outside the window, the result has one element, the best-scored issue of the
window. -/
theorem getTrending_spec_witness :
    (getTrending 700000000 1 [sampleIssue "a" 100000000 ⟨0, 1, 0, 0, 0⟩,
        sampleIssue "b" 200000000 ⟨5, 1, 0, 0, 0⟩, sampleIssue "c" 1 ⟨0, 9, 0, 0, 0⟩]).length = 1
    ∧ (sampleIssue "b" 200000000 ⟨5, 1, 0, 0, 0⟩ ∈
        [sampleIssue "a" 100000000 ⟨0, 1, 0, 0, 0⟩,
          sampleIssue "b" 200000000 ⟨5, 1, 0, 0, 0⟩, sampleIssue "c" 1 ⟨0, 9, 0, 0, 0⟩]
      ∧ (700000000 : Int) - sevenDaysMs ≤ (sampleIssue "b" 200000000 ⟨5, 1, 0, 0, 0⟩).createdAt) := by
  have h := getTrending_spec 700000000 1 [sampleIssue "a" 100000000 ⟨0, 1, 0, 0, 0⟩,
        sampleIssue "b" 200000000 ⟨5, 1, 0, 0, 0⟩, sampleIssue "c" 1 ⟨0, 9, 0, 0, 0⟩]
  have hres : getTrending 700000000 1 [sampleIssue "a" 100000000 ⟨0, 1, 0, 0, 0⟩,
        sampleIssue "b" 200000000 ⟨5, 1, 0, 0, 0⟩, sampleIssue "c" 1 ⟨0, 9, 0, 0, 0⟩]
      = [sampleIssue "b" 200000000 ⟨5, 1, 0, 0, 0⟩] := by
    simp [getTrending, inTrendingWindow, sevenDaysMs, sampleIssue, trendingBefore, trendingScore]
    norm_num
  refine ⟨?_, h.2.2.1 _ ?_⟩
  · rw [h.1]
    simp [inTrendingWindow, sevenDaysMs, sampleIssue]
  · rw [hres]
    exact List.mem_singleton.mpr rfl

/-! ### The pre-save hook and `save` -/

theorem preSave_fields (now : Date) (doc : Issue) :
    (preSave now doc).status = doc.status ∧ (preSave now doc).priority = doc.priority
    ∧ (preSave now doc).actualResolution = doc.actualResolution
    ∧ (preSave now doc).engagement = doc.engagement
    ∧ (preSave now doc).assignedTo = doc.assignedTo
    ∧ (preSave now doc).aiAnalysis = doc.aiAnalysis
    ∧ (preSave now doc).id = doc.id ∧ (preSave now doc).reporter = doc.reporter
    ∧ (preSave now doc).isNew = doc.isNew := by
  unfold preSave
  by_cases hu : urgencyCondition doc = true <;> by_cases hn : doc.isNew = true <;> simp [hu, hn]

theorem save_fields (now : Date) (doc : Issue) :
    (save now doc).status = doc.status ∧ (save now doc).priority = doc.priority
    ∧ (save now doc).actualResolution = doc.actualResolution
    ∧ (save now doc).engagement = doc.engagement
    ∧ (save now doc).assignedTo = doc.assignedTo
    ∧ (save now doc).aiAnalysis = doc.aiAnalysis
    ∧ (save now doc).id = doc.id ∧ (save now doc).reporter = doc.reporter
    ∧ (save now doc).isNew = false := by
  obtain ⟨h1, h2, h3, h4, h5, h6, h7, h8, _⟩ := preSave_fields now doc
  exact ⟨h1, h2, h3, h4, h5, h6, h7, h8, rfl⟩

/-- The hook only ever raises the flag. -/
theorem save_isUrgent (now : Date) (doc : Issue) :
    (save now doc).isUrgent = (doc.isUrgent || urgencyCondition doc) := by
  show (preSave now doc).isUrgent = _
  unfold preSave
  by_cases hu : urgencyCondition doc = true <;> by_cases hn : doc.isNew = true <;> simp [hu, hn]

/-- On a document that is not new the hook leaves the timeline alone; on a
new one it appends the creation entry. -/
theorem save_timeline (now : Date) (doc : Issue) :
    (save now doc).timeline =
      if doc.isNew then doc.timeline ++
        [{ action := "created", description := "Issue reported",
           performedBy := doc.reporter, timestamp := now, metadata := none }]
      else doc.timeline := by
  show (preSave now doc).timeline = _
  unfold preSave
  by_cases hu : urgencyCondition doc = true <;> by_cases hn : doc.isNew = true <;> simp [hu, hn]

theorem save_timeline_of_not_new (now : Date) (doc : Issue) (h : doc.isNew = false) :
    (save now doc).timeline = doc.timeline := by
  rw [save_timeline, h]; rfl

theorem save_timeline_extends (now : Date) (doc : Issue) :
    doc.timeline <+: (save now doc).timeline := by
  rw [save_timeline]
  by_cases hn : doc.isNew = true
  · simp [hn]
  · simp [hn]

/-! ### Urgency flag -/

/-- C4 (the code at the failing inputs): the reporter lowers the priority of
a saved critical issue without urgency score through updateIssue; the stored
issue then has priority low and still isUrgent true, and stays so after a
further save and after a status transition. Conversely, raising a medium
issue to critical through updateIssue leaves isUrgent false, because
findByIdAndUpdate runs no save hook. In all these states the invariant
isUrgent iff (priority critical or urgencyScore > 80) is broken. -/
theorem isUrgent_not_reevaluated :
    criticalIssue.isUrgent = true
    ∧ (updateIssue sampleDb "i1" ⟨some "LOW"⟩ (some (sampleUser "u1" "citizen"))).2
        = .ok (applyUpdate criticalIssue ⟨some "LOW"⟩)
    ∧ (applyUpdate criticalIssue ⟨some "LOW"⟩).priority = "low"
    ∧ (applyUpdate criticalIssue ⟨some "LOW"⟩).aiAnalysis = none
    ∧ (applyUpdate criticalIssue ⟨some "LOW"⟩).isUrgent = true
    ∧ ¬ UrgencyInvariant (applyUpdate criticalIssue ⟨some "LOW"⟩)
    ∧ ¬ UrgencyInvariant (save 2 (applyUpdate criticalIssue ⟨some "LOW"⟩))
    ∧ ¬ UrgencyInvariant
        (updateStatus 3 (applyUpdate criticalIssue ⟨some "LOW"⟩) "acknowledged" "u2" none)
    ∧ (updateIssue sampleDb "i2" ⟨some "CRITICAL"⟩ (some (sampleUser "u1" "citizen"))).2
        = .ok (applyUpdate mediumIssue ⟨some "CRITICAL"⟩)
    ∧ (applyUpdate mediumIssue ⟨some "CRITICAL"⟩).priority = "critical"
    ∧ (applyUpdate mediumIssue ⟨some "CRITICAL"⟩).isUrgent = false
    ∧ ¬ UrgencyInvariant (applyUpdate mediumIssue ⟨some "CRITICAL"⟩) := by
  refine ⟨?_, ?_, ?_, ?_, ?_, ?_, ?_, ?_, ?_, ?_, ?_, ?_⟩ <;> decide

/-! ### Timeline -/

theorem save_timeline_extends_of (now : Date) (d : Issue) (t : List TimelineEntry)
    (h : t <+: d.timeline) : t <+: (save now d).timeline :=
  h.trans (save_timeline_extends now d)

theorem addTimelineEntry_timeline_extends (now : Date) (doc : Issue) (action description : String)
    (performedBy : ObjectId) (metadata : Option (List (String × String))) :
    doc.timeline <+: (addTimelineEntry now doc action description performedBy metadata).timeline := by
  unfold addTimelineEntry
  apply save_timeline_extends_of
  exact List.prefix_append _ _

theorem updateStatus_timeline_extends (now : Date) (doc : Issue) (newStatus : String)
    (performedBy : ObjectId) (notes : Option String) :
    doc.timeline <+: (updateStatus now doc newStatus performedBy notes).timeline := by
  unfold updateStatus
  apply save_timeline_extends_of
  have h := addTimelineEntry_timeline_extends now { doc with status := newStatus } newStatus
    (statusDescription newStatus) performedBy
    (some [("oldStatus", doc.status), ("notes", notes.getD "")])
  by_cases hr : newStatus = "resolved"
  · simpa [hr] using h
  · simpa [hr] using h

theorem incrementEngagement_timeline_extends (now : Date) (doc : Issue) (type : String) :
    doc.timeline <+: (incrementEngagement now doc type).timeline := by
  unfold incrementEngagement
  split_ifs
  · exact save_timeline_extends_of now _ _ (List.prefix_refl _)
  · exact save_timeline_extends_of now _ _ (List.prefix_refl _)
  · exact save_timeline_extends_of now _ _ (List.prefix_refl _)
  · exact save_timeline_extends_of now _ _ (List.prefix_refl _)
  · exact save_timeline_extends_of now _ _ (List.prefix_refl _)
  · exact List.prefix_refl _

theorem applyUpdate_timeline (doc : Issue) (input : UpdateIssueInput) :
    (applyUpdate doc input).timeline = doc.timeline := by
  unfold applyUpdate
  cases input.priority <;> rfl

/-- Every operation extends the timeline. -/
theorem run_timeline_extends (now : Date) (doc : Issue) (op : IssueOp) :
    doc.timeline <+: (op.run now doc).timeline := by
  cases op with
  | updateStatus s actor notes => exact updateStatus_timeline_extends now doc s actor notes
  | addTimelineEntry a d actor m => exact addTimelineEntry_timeline_extends now doc a d actor m
  | assign aid an actor =>
    exact addTimelineEntry_timeline_extends now { doc with assignedTo := some aid } _ _ _ _
  | incrementEngagement t => exact incrementEngagement_timeline_extends now doc t
  | update input =>
    show doc.timeline <+: (applyUpdate doc input).timeline
    rw [applyUpdate_timeline]
  | save => exact save_timeline_extends now doc

theorem runOps_timeline_extends (ops : List (Date × IssueOp)) (doc : Issue) :
    doc.timeline <+: (runOps doc ops).timeline := by
  induction ops generalizing doc with
  | nil => exact List.prefix_refl _
  | cons op rest ih =>
    show doc.timeline <+: (runOps (op.2.run op.1 doc) rest).timeline
    exact (run_timeline_extends op.1 doc op.2).trans (ih _)

/-- C5: every operation on an issue document (updateStatus, addTimelineEntry,
assignment, incrementEngagement, the $set of updateIssue, save) leaves the
timeline it found as a prefix of the timeline it leaves; and for an issue
created by saving a new document, after any finite sequence of these
operations the first timeline entry is the one pushed at creation, with
action 'created', and the timeline after creation is a prefix of the final
one. -/
theorem timeline_append_only :
    (∀ (now : Date) (doc : Issue) (op : IssueOp), doc.timeline <+: (op.run now doc).timeline)
    ∧ (∀ (id reporter : ObjectId) (priority : String) (isPublic : Bool) (t0 : Date)
        (ops : List (Date × IssueOp)),
        (runOps (save t0 (newIssue id reporter priority isPublic)) ops).timeline.head?
            = some { action := "created", description := "Issue reported",
                     performedBy := reporter, timestamp := t0, metadata := none }
        ∧ ((runOps (save t0 (newIssue id reporter priority isPublic)) ops).timeline.head?.map
            (fun e => e.action)) = some "created"
        ∧ (save t0 (newIssue id reporter priority isPublic)).timeline
            <+: (runOps (save t0 (newIssue id reporter priority isPublic)) ops).timeline
        ∧ (save t0 (newIssue id reporter priority isPublic)).timeline.length
            ≤ (runOps (save t0 (newIssue id reporter priority isPublic)) ops).timeline.length) := by
  refine ⟨run_timeline_extends, ?_⟩
  intro id reporter priority isPublic t0 ops
  have hpre := runOps_timeline_extends ops (save t0 (newIssue id reporter priority isPublic))
  have hcreated : (save t0 (newIssue id reporter priority isPublic)).timeline
      = [{ action := "created", description := "Issue reported",
           performedBy := reporter, timestamp := t0, metadata := none }] := by
    rw [save_timeline]
    rfl
  obtain ⟨rest, hrest⟩ := hpre
  rw [hcreated] at hrest
  refine ⟨?_, ?_, ?_, ?_⟩
  · rw [← hrest]; rfl
  · rw [← hrest]; rfl
  · rw [hcreated]; exact ⟨rest, hrest⟩
  · rw [hcreated, ← hrest]; simp

/-! ### Status transitions -/

/-- What `addTimelineEntry` leaves in the fields of a stored (not new)
document. -/
theorem addTimelineEntry_fields (now : Date) (doc : Issue) (action description : String)
    (performedBy : ObjectId) (metadata : Option (List (String × String)))
    (hnew : doc.isNew = false) :
    (addTimelineEntry now doc action description performedBy metadata).timeline
        = doc.timeline ++
          [{ action := action, description := description, performedBy := performedBy,
             timestamp := now, metadata := some (metadata.getD []) }]
    ∧ (addTimelineEntry now doc action description performedBy metadata).status = doc.status
    ∧ (addTimelineEntry now doc action description performedBy metadata).actualResolution
        = doc.actualResolution
    ∧ (addTimelineEntry now doc action description performedBy metadata).engagement
        = doc.engagement
    ∧ (addTimelineEntry now doc action description performedBy metadata).assignedTo
        = doc.assignedTo
    ∧ (addTimelineEntry now doc action description performedBy metadata).id = doc.id
    ∧ (addTimelineEntry now doc action description performedBy metadata).isNew = false := by
  unfold addTimelineEntry
  refine ⟨?_, (save_fields now _).1, (save_fields now _).2.2.1, (save_fields now _).2.2.2.1,
    (save_fields now _).2.2.2.2.1, (save_fields now _).2.2.2.2.2.2.1,
    (save_fields now _).2.2.2.2.2.2.2.2⟩
  rw [save_timeline_of_not_new now _ (by exact hnew)]

/-- The body of `updateStatus`, with its intermediate documents named. -/
theorem updateStatus_eq (now : Date) (doc : Issue) (newStatus : String)
    (performedBy : ObjectId) (notes : Option String) :
    updateStatus now doc newStatus performedBy notes
      = save now (if newStatus = "resolved" then
          { addTimelineEntry now { doc with status := newStatus } newStatus
              (statusDescription newStatus) performedBy
              (some [("oldStatus", doc.status), ("notes", notes.getD "")])
            with actualResolution := some now }
        else addTimelineEntry now { doc with status := newStatus } newStatus
              (statusDescription newStatus) performedBy
              (some [("oldStatus", doc.status), ("notes", notes.getD "")])) := rfl

/-- What `updateStatus` leaves in the fields of a stored (not new) document. -/
theorem updateStatus_fields (now : Date) (doc : Issue) (newStatus : String)
    (performedBy : ObjectId) (notes : Option String) (hnew : doc.isNew = false) :
    (updateStatus now doc newStatus performedBy notes).status = newStatus
    ∧ (updateStatus now doc newStatus performedBy notes).timeline = doc.timeline ++
        [{ action := newStatus, description := statusDescription newStatus,
           performedBy := performedBy, timestamp := now,
           metadata := some [("oldStatus", doc.status), ("notes", notes.getD "")] }]
    ∧ (updateStatus now doc newStatus performedBy notes).actualResolution
        = (if newStatus = "resolved" then some now else doc.actualResolution)
    ∧ (updateStatus now doc newStatus performedBy notes).isNew = false
    ∧ (updateStatus now doc newStatus performedBy notes).engagement = doc.engagement
    ∧ (updateStatus now doc newStatus performedBy notes).id = doc.id := by
  obtain ⟨ht, hs, ha, he, _, hid, hn⟩ := addTimelineEntry_fields now { doc with status := newStatus }
    newStatus (statusDescription newStatus) performedBy
    (some [("oldStatus", doc.status), ("notes", notes.getD "")]) hnew
  rw [updateStatus_eq]
  by_cases hr : newStatus = "resolved"
  · rw [if_pos hr, if_pos hr]
    refine ⟨(save_fields now _).1.trans hs, ?_, (save_fields now _).2.2.1,
      (save_fields now _).2.2.2.2.2.2.2.2, (save_fields now _).2.2.2.1.trans he,
      (save_fields now _).2.2.2.2.2.2.1.trans hid⟩
    rw [save_timeline_of_not_new now _ (by exact hn)]
    exact ht
  · rw [if_neg hr, if_neg hr]
    refine ⟨(save_fields now _).1.trans hs, ?_, (save_fields now _).2.2.1.trans ha,
      (save_fields now _).2.2.2.2.2.2.2.2, (save_fields now _).2.2.2.1.trans he,
      (save_fields now _).2.2.2.2.2.2.1.trans hid⟩
    rw [save_timeline_of_not_new now _ hn]
    exact ht

/-- The document in memory after `updateStatus`, for a stored document and
every newStatus of the status set (backward moves included): status is
newStatus, exactly one timeline entry is appended, whose action is
newStatus, whose description is the fixed text of newStatus, whose
performedBy is the actor and whose metadata is {oldStatus, notes}, and
actualResolution is the current time when newStatus is 'resolved' and
unchanged otherwise. Whether this document reaches the store is the matter
of `updateStatusOutcome`. -/
theorem updateStatus_effect (now : Date) (doc : Issue) (newStatus : String)
    (actor : ObjectId) (notes : Option String)
    (hstored : doc.isNew = false) (hstatus : newStatus ∈ statusEnum) :
    (updateStatus now doc newStatus actor notes).status = newStatus
    ∧ (updateStatus now doc newStatus actor notes).timeline = doc.timeline ++
        [{ action := newStatus, description := statusDescription newStatus,
           performedBy := actor, timestamp := now,
           metadata := some [("oldStatus", doc.status), ("notes", notes.getD "")] }]
    ∧ statusDescription newStatus ∈
        ["Status changed to pending", "Issue acknowledged by authorities",
         "Work started on the issue", "Issue has been resolved", "Issue was rejected",
         "Issue marked as duplicate"]
    ∧ statusDescription "pending" = "Status changed to pending"
    ∧ statusDescription "acknowledged" = "Issue acknowledged by authorities"
    ∧ statusDescription "in-progress" = "Work started on the issue"
    ∧ statusDescription "resolved" = "Issue has been resolved"
    ∧ statusDescription "rejected" = "Issue was rejected"
    ∧ statusDescription "duplicate" = "Issue marked as duplicate"
    ∧ (newStatus = "resolved" →
        (updateStatus now doc newStatus actor notes).actualResolution = some now)
    ∧ (newStatus ≠ "resolved" →
        (updateStatus now doc newStatus actor notes).actualResolution = doc.actualResolution) := by
  obtain ⟨h1, h2, h3, _, _, _⟩ := updateStatus_fields now doc newStatus actor notes hstored
  refine ⟨h1, h2, ?_, by decide, by decide, by decide, by decide, by decide, by decide, ?_, ?_⟩
  · simp only [statusEnum, List.mem_cons, List.mem_singleton, List.not_mem_nil, or_false]
      at hstatus
    rcases hstatus with h | h | h | h | h | h <;> subst h <;> decide
  · intro hr
    rw [h3, if_pos hr]
  · intro hr
    rw [h3, if_neg hr]

/-- An instance: a resolved issue moved back to acknowledged, in memory. -/
theorem updateStatus_effect_witness :
    (updateStatus 9 (updateStatus 5 mediumIssue "resolved" "u2" (some "done"))
        "acknowledged" "u3" none).status = "acknowledged"
    ∧ (updateStatus 9 (updateStatus 5 mediumIssue "resolved" "u2" (some "done"))
        "acknowledged" "u3" none).timeline
        = (updateStatus 5 mediumIssue "resolved" "u2" (some "done")).timeline ++
          [{ action := "acknowledged", description := "Issue acknowledged by authorities",
             performedBy := "u3", timestamp := 9,
             metadata := some [("oldStatus", "resolved"), ("notes", "")] }]
    ∧ (updateStatus 9 (updateStatus 5 mediumIssue "resolved" "u2" (some "done"))
        "acknowledged" "u3" none).actualResolution = some 5 := by
  have h := updateStatus_effect 9 (updateStatus 5 mediumIssue "resolved" "u2" (some "done"))
    "acknowledged" "u3" none (by decide) (by decide)
  refine ⟨h.1, h.2.1, ?_⟩
  rw [h.2.2.2.2.2.2.2.2.2.2 (by decide)]
  decide

/-- The promise `updateStatus` returns is the one of its second `save()`,
which always finds the first in flight. -/
theorem updateStatusOutcome_result (now : Date) (doc : Issue) (newStatus : String)
    (performedBy : ObjectId) (notes : Option String) :
    (updateStatusOutcome now doc newStatus performedBy notes).result
      = .error .ParallelSaveError := by
  unfold updateStatusOutcome
  simp only
  split <;> rfl

/-- A second save of a stored document, after a change of the resolution
stamp, leaves what one save of the changed document leaves. -/
theorem save_stamp_save (now : Date) (d : Issue) (hnew : d.isNew = false) (r : Option Date) :
    save now { save now d with actualResolution := r }
      = save now { d with actualResolution := r } := by
  cases d
  simp only at hnew
  subst hnew
  unfold save preSave urgencyCondition
  simp only
  split_ifs <;> simp_all

/-- Saving a stored document twice leaves what saving it once leaves. -/
theorem save_save (now : Date) (d : Issue) (hnew : d.isNew = false) :
    save now (save now d) = save now d := by
  cases d
  simp only at hnew
  subst hnew
  unfold save preSave urgencyCondition
  simp only
  split_ifs <;> simp_all

/-- On a stored document, the two successive saves of `updateStatus` leave
what one save of the finished document leaves. -/
theorem updateStatus_eq_save (now : Date) (doc : Issue) (newStatus : String)
    (performedBy : ObjectId) (notes : Option String) (hnew : doc.isNew = false) :
    updateStatus now doc newStatus performedBy notes
      = save now (updateStatusDocument now doc newStatus performedBy notes) := by
  rw [updateStatus_eq]
  unfold addTimelineEntry updateStatusDocument
  by_cases hr : newStatus = "resolved"
  · rw [if_pos hr, if_pos hr]
    exact save_stamp_save now _ (by exact hnew) (some now)
  · rw [if_neg hr, if_neg hr]
    exact save_save now _ (by exact hnew)

/-- What the first save of `updateStatus` writes for a stored document: the
document `updateStatus` describes when the validation passes, nothing when
it fails. -/
theorem updateStatusOutcome_stored (now : Date) (doc : Issue) (newStatus : String)
    (performedBy : ObjectId) (notes : Option String) (hnew : doc.isNew = false) :
    (updateStatusOutcome now doc newStatus performedBy notes).stored
      = if invalidPaths (updateStatusDocument now doc newStatus performedBy notes) = []
        then some (updateStatus now doc newStatus performedBy notes) else none := by
  rw [updateStatus_eq_save now doc newStatus performedBy notes hnew]
  unfold updateStatusOutcome trySave
  by_cases hv : invalidPaths (updateStatusDocument now doc newStatus performedBy notes) = []
  · simp only [if_pos hv]
  · simp only [if_neg hv]

/-- The timeline of the document the synchronous part leaves. -/
theorem updateStatusDocument_timeline (now : Date) (doc : Issue) (newStatus : String)
    (performedBy : ObjectId) (notes : Option String) :
    (updateStatusDocument now doc newStatus performedBy notes).timeline
      = doc.timeline ++
        [{ action := newStatus, description := statusDescription newStatus,
           performedBy := performedBy, timestamp := now,
           metadata := some [("oldStatus", doc.status), ("notes", notes.getD "")] }] := by
  unfold updateStatusDocument
  by_cases hr : newStatus = "resolved"
  · simp only [if_pos hr]
  · simp only [if_neg hr]

/-- A new status outside the timeline action enum never reaches the store:
its timeline entry fails the validation of the first save. -/
theorem updateStatusOutcome_stores_nothing (now : Date) (doc : Issue) (newStatus : String)
    (performedBy : ObjectId) (notes : Option String)
    (haction : newStatus ∉ timelineActionEnum) :
    (updateStatusOutcome now doc newStatus performedBy notes).stored = none := by
  have hinv : invalidPaths (updateStatusDocument now doc newStatus performedBy notes) ≠ [] := by
    intro hnil
    unfold invalidPaths at hnil
    simp only [List.append_eq_nil] at hnil
    have h4 := hnil.2
    rw [updateStatusDocument_timeline] at h4
    simp [List.all_append, haction] at h4
  unfold updateStatusOutcome trySave
  simp only [if_neg hinv]

/-- C6 (the code at the failing input): updateStatus('in-progress', actor)
on a stored pending issue. The entry it pushes has the action 'in-progress',
the first save fails validation on the timeline action and writes nothing,
and the promise returned, that of the second save, rejects with
ParallelSaveError: the stored issue keeps status pending and its one
timeline entry. The same holds for pending and duplicate. For acknowledged
the first save writes the document the claim describes, yet the returned
promise rejects all the same, as for every call. After the transitions of
Scenario B the stored timeline has three entries: the step to in-progress
left no trace. -/
theorem updateStatus_first_save_unawaited :
    (updateStatusOutcome 5 storedIssue "in-progress" "64b7f0c2a1d3e4f5a6b7c8e2" none).stored = none
    ∧ (updateStatusOutcome 5 storedIssue "in-progress" "64b7f0c2a1d3e4f5a6b7c8e2" none).result
        = .error .ParallelSaveError
    ∧ invalidPaths
        (updateStatusOutcome 5 storedIssue "in-progress" "64b7f0c2a1d3e4f5a6b7c8e2" none).document
        = ["timeline.action"]
    ∧ (storedAfterTransitions storedIssue [(5, "in-progress", "64b7f0c2a1d3e4f5a6b7c8e2")]).status
        = "pending"
    ∧ (storedAfterTransitions storedIssue
        [(5, "in-progress", "64b7f0c2a1d3e4f5a6b7c8e2")]).timeline.map (fun e => e.action)
        = ["created"]
    ∧ statusEnum.filter (fun st =>
        (updateStatusOutcome 5 storedIssue st "64b7f0c2a1d3e4f5a6b7c8e2" none).stored.isNone)
        = ["pending", "in-progress", "duplicate"]
    ∧ (updateStatusOutcome 5 storedIssue "acknowledged" "64b7f0c2a1d3e4f5a6b7c8e2" none).stored
        = some (updateStatus 5 storedIssue "acknowledged" "64b7f0c2a1d3e4f5a6b7c8e2" none)
    ∧ (updateStatusOutcome 5 storedIssue "acknowledged" "64b7f0c2a1d3e4f5a6b7c8e2" none).result
        = .error .ParallelSaveError
    ∧ (storedAfterTransitions storedIssue
        [(2, "acknowledged", "64b7f0c2a1d3e4f5a6b7c8e2"),
         (3, "in-progress", "64b7f0c2a1d3e4f5a6b7c8e2"),
         (4, "resolved", "64b7f0c2a1d3e4f5a6b7c8e2")]).timeline.map (fun e => e.action)
        = ["created", "acknowledged", "resolved"]
    ∧ (storedAfterTransitions storedIssue
        [(2, "acknowledged", "64b7f0c2a1d3e4f5a6b7c8e2"),
         (3, "in-progress", "64b7f0c2a1d3e4f5a6b7c8e2"),
         (4, "resolved", "64b7f0c2a1d3e4f5a6b7c8e2")]).actualResolution = some 4
    ∧ ∀ (now : Date) (doc : Issue) (newStatus : String) (actor : ObjectId)
        (notes : Option String),
        (updateStatusOutcome now doc newStatus actor notes).result
          = .error .ParallelSaveError := by
  refine ⟨by decide, rfl, by decide, by decide, by decide, by decide, by decide, rfl, by decide,
    by decide, updateStatusOutcome_result⟩

/-! ### Resolution stamp -/

/-- The status and the resolution stamp after `updateStatus`, for any document. -/
theorem updateStatus_status_resolution (now : Date) (doc : Issue) (newStatus : String)
    (performedBy : ObjectId) (notes : Option String) :
    (updateStatus now doc newStatus performedBy notes).status = newStatus
    ∧ (updateStatus now doc newStatus performedBy notes).actualResolution
        = (if newStatus = "resolved" then some now else doc.actualResolution) := by
  rw [updateStatus_eq]
  have hs : (addTimelineEntry now { doc with status := newStatus } newStatus
      (statusDescription newStatus) performedBy
      (some [("oldStatus", doc.status), ("notes", notes.getD "")])).status = newStatus :=
    (save_fields now _).1
  have ha : (addTimelineEntry now { doc with status := newStatus } newStatus
      (statusDescription newStatus) performedBy
      (some [("oldStatus", doc.status), ("notes", notes.getD "")])).actualResolution
        = doc.actualResolution :=
    (save_fields now _).2.2.1
  by_cases hr : newStatus = "resolved"
  · rw [if_pos hr, if_pos hr]
    exact ⟨(save_fields now _).1.trans hs, (save_fields now _).2.2.1⟩
  · rw [if_neg hr, if_neg hr]
    exact ⟨(save_fields now _).1.trans hs, (save_fields now _).2.2.1.trans ha⟩

theorem runTransitions_append (doc : Issue) (ts : List Transition) (t : Transition) :
    runTransitions doc (ts ++ [t])
      = updateStatus t.now (runTransitions doc ts) t.newStatus t.performedBy t.notes := by
  simp [runTransitions, List.foldl_append]

/-- The resolution stamp of a document after a sequence of transitions: set
if it was set before or some transition went to resolved; and a document in
status resolved after at least one transition carries a stamp. -/
theorem runTransitions_resolution (doc : Issue) (ts : List Transition) :
    ((runTransitions doc ts).actualResolution.isSome = true
      ↔ (doc.actualResolution.isSome = true ∨ ∃ t ∈ ts, t.newStatus = "resolved"))
    ∧ (ts ≠ [] → (runTransitions doc ts).status = "resolved" →
        (runTransitions doc ts).actualResolution.isSome = true) := by
  induction ts using List.reverseRecOn with
  | nil => simp [runTransitions]
  | append_singleton ts t ih =>
    rw [runTransitions_append]
    obtain ⟨hs, ha⟩ := updateStatus_status_resolution t.now (runTransitions doc ts) t.newStatus
      t.performedBy t.notes
    rw [hs, ha]
    by_cases hr : t.newStatus = "resolved"
    · simp only [hr, if_true, Option.isSome_some, true_iff, List.mem_append, List.mem_singleton]
      exact ⟨Or.inr ⟨t, Or.inr rfl, hr⟩, fun _ _ => trivial⟩
    · simp only [hr, if_false, List.mem_append, List.mem_singleton]
      refine ⟨?_, fun _ h => h.elim⟩
      rw [ih.1]
      constructor
      · rintro (h | ⟨u, hu, hur⟩)
        · exact Or.inl h
        · exact Or.inr ⟨u, Or.inl hu, hur⟩
      · rintro (h | ⟨u, hu | hu, hur⟩)
        · exact Or.inl h
        · exact Or.inr ⟨u, hu, hur⟩
        · subst hu; exact absurd hur hr

/-- C7 (counterexample): a new issue is created, resolved at time 5 and then
moved back to acknowledged at time 9; it is then not resolved and still has
actualResolution set (to 5), so "non-null iff resolved" fails. -/
theorem actualResolution_kept_after_reopen :
    (runTransitions (save 1 (newIssue "i2" "u1" "medium" true))
        [⟨5, "resolved", "u2", none⟩, ⟨9, "acknowledged", "u2", none⟩]).status = "acknowledged"
    ∧ (runTransitions (save 1 (newIssue "i2" "u1" "medium" true))
        [⟨5, "resolved", "u2", none⟩, ⟨9, "acknowledged", "u2", none⟩]).actualResolution = some 5
    ∧ ¬ ((runTransitions (save 1 (newIssue "i2" "u1" "medium" true))
          [⟨5, "resolved", "u2", none⟩, ⟨9, "acknowledged", "u2", none⟩]).actualResolution.isSome
            = true
        ↔ (runTransitions (save 1 (newIssue "i2" "u1" "medium" true))
          [⟨5, "resolved", "u2", none⟩, ⟨9, "acknowledged", "u2", none⟩]).status = "resolved") := by
  refine ⟨by decide, by decide, by decide⟩

/-- C7 (amended): in every state reachable from a newly created issue by a
sequence of status transitions, an issue in status resolved has a non-null
actualResolution, and actualResolution is non-null exactly when some
transition of the sequence went to resolved (a later move to another status
keeps the stamp). -/
theorem resolved_has_actualResolution (id reporter : ObjectId) (priority : String)
    (isPublic : Bool) (t0 : Date) (ts : List Transition) :
    ((runTransitions (save t0 (newIssue id reporter priority isPublic)) ts).status = "resolved" →
      (runTransitions (save t0 (newIssue id reporter priority isPublic)) ts).actualResolution.isSome
        = true)
    ∧ ((runTransitions (save t0 (newIssue id reporter priority isPublic)) ts).actualResolution.isSome
        = true ↔ ∃ t ∈ ts, t.newStatus = "resolved") := by
  have hinit : (save t0 (newIssue id reporter priority isPublic)).actualResolution = none :=
    (save_fields t0 _).2.2.1
  have hstat : (save t0 (newIssue id reporter priority isPublic)).status = "pending" :=
    (save_fields t0 _).1
  obtain ⟨h1, h2⟩ := runTransitions_resolution (save t0 (newIssue id reporter priority isPublic)) ts
  constructor
  · intro hres
    by_cases hts : ts = []
    · subst hts
      have : (save t0 (newIssue id reporter priority isPublic)).status = "resolved" := hres
      rw [hstat] at this
      exact absurd this (by decide)
    · exact h2 hts hres
  · rw [h1, hinit]
    simp

/-- Witness for C7: pending, acknowledged, in-progress, resolved. -/
theorem resolved_has_actualResolution_witness :
    (runTransitions (save 1 (newIssue "i2" "u1" "medium" true))
        [⟨2, "acknowledged", "u2", none⟩, ⟨3, "in-progress", "u2", none⟩,
         ⟨4, "resolved", "u2", none⟩]).actualResolution.isSome = true :=
  (resolved_has_actualResolution "i2" "u1" "medium" true 1
    [⟨2, "acknowledged", "u2", none⟩, ⟨3, "in-progress", "u2", none⟩,
     ⟨4, "resolved", "u2", none⟩]).1 (by decide)

theorem incrementEngagement_actualResolution (now : Date) (doc : Issue) (type : String) :
    (incrementEngagement now doc type).actualResolution = doc.actualResolution := by
  unfold incrementEngagement
  split_ifs
  · exact (save_fields now _).2.2.1
  · exact (save_fields now _).2.2.1
  · exact (save_fields now _).2.2.1
  · exact (save_fields now _).2.2.1
  · exact (save_fields now _).2.2.1
  · rfl

theorem applyUpdate_actualResolution (doc : Issue) (input : UpdateIssueInput) :
    (applyUpdate doc input).actualResolution = doc.actualResolution := by
  unfold applyUpdate
  cases input.priority <;> rfl

/-- The resolution stamp after one operation: the current time for a
transition into resolved, the old value for everything else. -/
theorem run_actualResolution (now : Date) (doc : Issue) (op : IssueOp) :
    (op.run now doc).actualResolution
      = if op.resolves = true then some now else doc.actualResolution := by
  cases op with
  | updateStatus s actor notes =>
    show (updateStatus now doc s actor notes).actualResolution = _
    rw [(updateStatus_status_resolution now doc s actor notes).2]
    by_cases hr : s = "resolved" <;> simp [IssueOp.resolves, hr]
  | addTimelineEntry a d actor m => exact (save_fields now _).2.2.1
  | assign aid an actor => exact (save_fields now _).2.2.1
  | incrementEngagement t => exact incrementEngagement_actualResolution now doc t
  | update input => exact applyUpdate_actualResolution doc input
  | save => exact (save_fields now _).2.2.1

theorem runOps_actualResolution (ops : List (Date × IssueOp)) (doc : Issue) :
    (doc.actualResolution.isSome = true → (runOps doc ops).actualResolution.isSome = true)
    ∧ ((∀ p ∈ ops, p.2.resolves = false) →
        (runOps doc ops).actualResolution = doc.actualResolution) := by
  induction ops generalizing doc with
  | nil => exact ⟨fun h => h, fun _ => rfl⟩
  | cons op rest ih =>
    have hstep := run_actualResolution op.1 doc op.2
    obtain ⟨ih1, ih2⟩ := ih (op.2.run op.1 doc)
    constructor
    · intro h
      apply ih1
      rw [hstep]
      by_cases hr : op.2.resolves = true
      · rw [if_pos hr]; rfl
      · rw [if_neg hr]; exact h
    · intro hall
      have hop : op.2.resolves = false := hall op (List.mem_cons_self _ _)
      have hrest : ∀ p ∈ rest, p.2.resolves = false :=
        fun p hp => hall p (List.mem_cons_of_mem _ hp)
      show (runOps (op.2.run op.1 doc) rest).actualResolution = doc.actualResolution
      rw [ih2 hrest, hstep, hop]
      rfl

/-- C8 (counterexample): an issue resolved at time 5 and resolved again at
time 9 has actualResolution 9 after the second transition: the first stamp
is overwritten. -/
theorem actualResolution_restamped :
    (updateStatus 5 mediumIssue "resolved" "u2" none).actualResolution = some 5
    ∧ (updateStatus 9 (updateStatus 5 mediumIssue "resolved" "u2" none) "resolved" "u2"
        none).actualResolution = some 9
    ∧ (updateStatus 9 (updateStatus 5 mediumIssue "resolved" "u2" none) "resolved" "u2"
        none).actualResolution
      ≠ (updateStatus 5 mediumIssue "resolved" "u2" none).actualResolution := by
  refine ⟨by decide, by decide, by decide⟩

/-- C8 (amended): once actualResolution is set it is never cleared: after any
sequence of operations (status transitions, timeline entries, assignments,
engagement bumps, updateIssue, saves) it is still non-null; it keeps its
value as long as no operation of the sequence is a transition into
resolved; and every transition into resolved, a repeated one included,
sets it to the time of that transition. -/
theorem actualResolution_never_cleared (doc : Issue) (t : Date)
    (hset : doc.actualResolution = some t) (ops : List (Date × IssueOp)) :
    (runOps doc ops).actualResolution.isSome = true
    ∧ ((∀ p ∈ ops, p.2.resolves = false) → (runOps doc ops).actualResolution = some t)
    ∧ (∀ (now : Date) (actor : ObjectId) (notes : Option String),
        (updateStatus now doc "resolved" actor notes).actualResolution = some now) := by
  obtain ⟨h1, h2⟩ := runOps_actualResolution ops doc
  refine ⟨h1 (by rw [hset]; rfl), fun hall => (h2 hall).trans hset, ?_⟩
  intro now actor notes
  rw [(updateStatus_status_resolution now doc "resolved" actor notes).2]
  rfl

/-- Witness for C8: an issue resolved at time 5, then acknowledged, viewed
and assigned, still carries the stamp 5. -/
theorem actualResolution_never_cleared_witness :
    (runOps (updateStatus 5 mediumIssue "resolved" "u2" none)
      [(6, .updateStatus "acknowledged" "u2" none), (7, .incrementEngagement "views"),
       (8, .assign "u2" "N u2" "u3")]).actualResolution = some 5 :=
  (actualResolution_never_cleared (updateStatus 5 mediumIssue "resolved" "u2" none) 5
    (by decide)
    [(6, .updateStatus "acknowledged" "u2" none), (7, .incrementEngagement "views"),
     (8, .assign "u2" "N u2" "u3")]).2.1 (by decide)

/-! ### Resolvers -/

theorem notElevated_iff (u : User) :
    notElevated u = true ↔ (u.role ≠ "admin" ∧ u.role ≠ "official") := by
  simp [notElevated]

/-- A document found by id is hydrated: it is not new and carries the id. -/
theorem findById_some (db : Db) (id : ObjectId) (i : Issue)
    (h : Issue.findById db id = some i) : i.isNew = false ∧ i.id = id := by
  unfold Issue.findById at h
  rw [Option.map_eq_some'] at h
  obtain ⟨j, hj, rfl⟩ := h
  have := List.find?_some hj
  exact ⟨rfl, by simpa using this⟩

theorem find_map_replace (l : List Issue) (doc : Issue)
    (h : (l.find? (fun x => x.id == doc.id)).isSome = true) :
    (l.map (fun x => if x.id == doc.id then doc else x)).find? (fun x => x.id == doc.id)
      = some doc := by
  induction l with
  | nil => simp at h
  | cons x rest ih =>
    by_cases hx : (x.id == doc.id) = true
    · simp [List.find?, hx]
    · have hx2 : (x.id == doc.id) = false := by simpa using hx
      rw [List.find?_cons, hx2] at h
      simp only [List.map_cons, hx2, List.find?_cons, Bool.false_eq_true, if_false]
      exact ih h

/-- After the write of a saved document over a stored one, `findById`
returns the written document. -/
theorem findById_writeIssue (db : Db) (id : ObjectId) (i doc : Issue)
    (h : Issue.findById db id = some i) (hid : doc.id = id) (hnew : doc.isNew = false) :
    Issue.findById (db.writeIssue doc) id = some doc := by
  unfold Issue.findById at h ⊢
  subst hid
  have hsome : (db.issues.find? (fun x => x.id == doc.id)).isSome = true := by
    cases hf : db.issues.find? (fun x => x.id == doc.id) with
    | none => rw [hf] at h; simp at h
    | some _ => rfl
  show ((db.issues.map (fun x => if x.id == doc.id then doc else x)).find?
    (fun x => x.id == doc.id)).map _ = _
  rw [find_map_replace db.issues doc hsome]
  show some { doc with isNew := false } = some doc
  rw [← hnew]

/-- C9 (counterexample): a citizen asks for a status change under a
well-formed id that no stored issue has: the call fails with the not-found
error, not with Forbidden. An official asks under the id 'nope', which no
issue has either: the call fails with the cast error of the lookup, not with
not-found. Without a caller the call fails with the authentication error. -/
theorem updateIssueStatus_missing_issue_not_forbidden :
    (isObjectIdString "64b7f0c2a1d3e4f5a6b7c8d2" = true
      ∧ Issue.findById objectIdDb "64b7f0c2a1d3e4f5a6b7c8d2" = none
      ∧ updateIssueStatus 5 objectIdDb "64b7f0c2a1d3e4f5a6b7c8d2" "RESOLVED" none
          (some (sampleUser "64b7f0c2a1d3e4f5a6b7c8e1" "citizen"))
        = (objectIdDb, .error (.UserInputError "Issue not found"))
      ∧ (sampleUser "64b7f0c2a1d3e4f5a6b7c8e1" "citizen").role ≠ "admin"
      ∧ (sampleUser "64b7f0c2a1d3e4f5a6b7c8e1" "citizen").role ≠ "official"
      ∧ ¬ ∃ msg, (updateIssueStatus 5 objectIdDb "64b7f0c2a1d3e4f5a6b7c8d2" "RESOLVED" none
          (some (sampleUser "64b7f0c2a1d3e4f5a6b7c8e1" "citizen"))).2
            = .error (.ForbiddenError msg))
    ∧ (Issue.findById objectIdDb "nope" = none
      ∧ updateIssueStatus 5 objectIdDb "nope" "RESOLVED" none
          (some (sampleUser "64b7f0c2a1d3e4f5a6b7c8e2" "official"))
        = (objectIdDb, .error (.CastError "nope"))
      ∧ ¬ ∃ msg, (updateIssueStatus 5 objectIdDb "nope" "RESOLVED" none
          (some (sampleUser "64b7f0c2a1d3e4f5a6b7c8e2" "official"))).2
            = .error (.UserInputError msg))
    ∧ updateIssueStatus 5 objectIdDb "64b7f0c2a1d3e4f5a6b7c8d2" "RESOLVED" none none
      = (objectIdDb, .error (.AuthenticationError "Not authenticated")) := by
  have h : updateIssueStatus 5 objectIdDb "64b7f0c2a1d3e4f5a6b7c8d2" "RESOLVED" none
        (some (sampleUser "64b7f0c2a1d3e4f5a6b7c8e1" "citizen"))
      = (objectIdDb, .error (.UserInputError "Issue not found")) := by rfl
  have h2 : updateIssueStatus 5 objectIdDb "nope" "RESOLVED" none
        (some (sampleUser "64b7f0c2a1d3e4f5a6b7c8e2" "official"))
      = (objectIdDb, .error (.CastError "nope")) := by rfl
  refine ⟨⟨by decide, by rfl, h, by decide, by decide, ?_⟩, ⟨by rfl, h2, ?_⟩, rfl⟩
  · rw [h]
    rintro ⟨msg, hmsg⟩
    cases hmsg
  · rw [h2]
    rintro ⟨msg, hmsg⟩
    cases hmsg

/-- C9 (amended): for an authenticated caller, updateIssueStatus fails with
the cast error of the lookup when the id is not a well-formed ObjectId; with
the not-found error when the id is well-formed and no issue has it (whatever
the caller's role); and with Forbidden when the issue exists and the
caller's role is neither admin nor official. Without a caller it fails with
the authentication error. In each of these cases the store returned is the
store given: no issue is mutated. -/
theorem updateIssueStatus_failures (now : Date) (db : Db) (id : String) (status : String)
    (notes : Option String) (u : User) :
    (isObjectIdString id = false →
      updateIssueStatus now db id status notes (some u) = (db, .error (.CastError id)))
    ∧ (isObjectIdString id = true → Issue.findById db id = none →
      updateIssueStatus now db id status notes (some u)
        = (db, .error (.UserInputError "Issue not found")))
    ∧ (∀ i, isObjectIdString id = true → Issue.findById db id = some i →
      u.role ≠ "admin" → u.role ≠ "official" →
      updateIssueStatus now db id status notes (some u)
        = (db, .error (.ForbiddenError "Only officials can update issue status")))
    ∧ updateIssueStatus now db id status notes none
        = (db, .error (.AuthenticationError "Not authenticated")) := by
  refine ⟨?_, ?_, ?_, rfl⟩
  · intro hid
    simp only [updateIssueStatus, hid, if_true]
  · intro hid h
    have hid2 : ¬ isObjectIdString id = false := by rw [hid]; decide
    simp only [updateIssueStatus, if_neg hid2, h]
  · intro i hid h h1 h2
    have hid2 : ¬ isObjectIdString id = false := by rw [hid]; decide
    have hne : notElevated u = true := (notElevated_iff u).2 ⟨h1, h2⟩
    simp only [updateIssueStatus, if_neg hid2, h, hne, if_true]

/-- Witness for C9: a citizen on the stored issue, an official on a
well-formed id that is not stored, and an official on a malformed id. -/
theorem updateIssueStatus_failures_witness :
    updateIssueStatus 5 objectIdDb "64b7f0c2a1d3e4f5a6b7c8d1" "RESOLVED" none
        (some (sampleUser "64b7f0c2a1d3e4f5a6b7c8e1" "citizen"))
      = (objectIdDb, .error (.ForbiddenError "Only officials can update issue status"))
    ∧ updateIssueStatus 5 objectIdDb "64b7f0c2a1d3e4f5a6b7c8d2" "RESOLVED" none
        (some (sampleUser "64b7f0c2a1d3e4f5a6b7c8e2" "official"))
      = (objectIdDb, .error (.UserInputError "Issue not found"))
    ∧ updateIssueStatus 5 objectIdDb "nope" "RESOLVED" none
        (some (sampleUser "64b7f0c2a1d3e4f5a6b7c8e2" "official"))
      = (objectIdDb, .error (.CastError "nope")) :=
  ⟨(updateIssueStatus_failures 5 objectIdDb "64b7f0c2a1d3e4f5a6b7c8d1" "RESOLVED" none
      (sampleUser "64b7f0c2a1d3e4f5a6b7c8e1" "citizen")).2.2.1
      { storedIssue with isNew := false } (by decide) (by rfl) (by decide) (by decide),
   (updateIssueStatus_failures 5 objectIdDb "64b7f0c2a1d3e4f5a6b7c8d2" "RESOLVED" none
      (sampleUser "64b7f0c2a1d3e4f5a6b7c8e2" "official")).2.1 (by decide) (by rfl),
   (updateIssueStatus_failures 5 objectIdDb "nope" "RESOLVED" none
      (sampleUser "64b7f0c2a1d3e4f5a6b7c8e2" "official")).1 (by decide)⟩

/-- C10: for a stored issue and a stored assignee, assignIssue called by an
admin or official succeeds, writes the returned issue to the store, sets its
assignedTo to the assignee, appends exactly one timeline entry, with action
'assigned', and leaves status, actualResolution and the engagement counters
as they were; called by an authenticated user of any other role it fails
with Forbidden on every store, and returns that store as it was. -/
theorem assignIssue_effect (now : Date) (db : Db) (id assigneeId : ObjectId) (u : User)
    (i : Issue) (a : User) (hrole : u.role = "admin" ∨ u.role = "official")
    (hissue : Issue.findById db id = some i) (hassignee : User.findById db assigneeId = some a) :
    (∃ r, assignIssue now db id assigneeId (some u) = (db.writeIssue r, .ok r)
      ∧ Issue.findById (db.writeIssue r) id = some r
      ∧ r.assignedTo = some assigneeId
      ∧ r.timeline = i.timeline ++
          [{ action := "assigned", description := "Issue assigned to " ++ a.name,
             performedBy := u.id, timestamp := now,
             metadata := some [("assigneeId", assigneeId), ("assigneeName", a.name)] }]
      ∧ r.status = i.status
      ∧ r.actualResolution = i.actualResolution
      ∧ r.engagement = i.engagement)
    ∧ (∀ (v : User) (db2 : Db), v.role ≠ "admin" → v.role ≠ "official" →
        assignIssue now db2 id assigneeId (some v)
          = (db2, .error (.ForbiddenError "Only officials can assign issues"))) := by
  constructor
  · have hel : notElevated u = false := by
      rcases hrole with h | h <;> simp [notElevated, h]
    obtain ⟨hnew, hid⟩ := findById_some db id i hissue
    obtain ⟨ht, hs, ha, he, hat, hidr, hn⟩ := addTimelineEntry_fields now
      { i with assignedTo := some assigneeId } "assigned" ("Issue assigned to " ++ a.name) u.id
      (some [("assigneeId", assigneeId), ("assigneeName", a.name)]) hnew
    refine ⟨assign now i assigneeId a.name u.id, ?_, ?_, hat, ht, hs, ha, he⟩
    · simp only [assignIssue, hel, hissue, hassignee, Bool.false_eq_true, if_false]
    · exact findById_writeIssue db id i _ hissue (hidr.trans hid) hn
  · intro v db2 h1 h2
    have hne : notElevated v = true := (notElevated_iff v).2 ⟨h1, h2⟩
    simp only [assignIssue, hne, if_true]

/-- Witness for C10: the official u2 assigns the stored issue i2 to the
admin u3. -/
theorem assignIssue_effect_witness :
    ∃ r, assignIssue 7 sampleDb "i2" "u3" (some (sampleUser "u2" "official"))
        = (sampleDb.writeIssue r, .ok r)
      ∧ r.assignedTo = some "u3" ∧ r.status = "pending" ∧ r.timeline.length = 2 := by
  obtain ⟨⟨r, h1, _, h3, h4, h5, _, _⟩, _⟩ := assignIssue_effect 7 sampleDb "i2" "u3"
    (sampleUser "u2" "official") { mediumIssue with isNew := false } (sampleUser "u3" "admin")
    (Or.inr rfl) (by rfl) (by rfl)
  refine ⟨r, h1, h3, ?_, ?_⟩
  · rw [h5]; rfl
  · rw [h4]; rfl

/-! ### Engagement counters -/

theorem Engagement.le_refl (e : Engagement) : Engagement.le e e :=
  ⟨le_rfl, le_rfl, le_rfl, le_rfl, le_rfl⟩

theorem save_engagement (now : Date) (doc : Issue) :
    (save now doc).engagement = doc.engagement :=
  (save_fields now doc).2.2.2.1

/-- What `incrementEngagement` does to the counters, for every counter name. -/
theorem incrementEngagement_engagement (now : Date) (doc : Issue) (type : String) :
    (incrementEngagement now doc type).engagement =
      if type = "views" then { doc.engagement with views := doc.engagement.views + 1 }
      else if type = "upvotes" then { doc.engagement with upvotes := doc.engagement.upvotes + 1 }
      else if type = "downvotes" then
        { doc.engagement with downvotes := doc.engagement.downvotes + 1 }
      else if type = "shares" then { doc.engagement with shares := doc.engagement.shares + 1 }
      else if type = "comments" then
        { doc.engagement with comments := doc.engagement.comments + 1 }
      else doc.engagement := by
  unfold incrementEngagement
  split_ifs
  · exact save_engagement now _
  · exact save_engagement now _
  · exact save_engagement now _
  · exact save_engagement now _
  · exact save_engagement now _
  · rfl

/-- On a stored document `incrementEngagement` leaves the timeline alone. -/
theorem incrementEngagement_timeline (now : Date) (doc : Issue) (type : String)
    (hnew : doc.isNew = false) :
    (incrementEngagement now doc type).timeline = doc.timeline := by
  unfold incrementEngagement
  split_ifs
  · exact save_timeline_of_not_new now _ hnew
  · exact save_timeline_of_not_new now _ hnew
  · exact save_timeline_of_not_new now _ hnew
  · exact save_timeline_of_not_new now _ hnew
  · exact save_timeline_of_not_new now _ hnew
  · rfl

theorem incrementEngagement_le (now : Date) (doc : Issue) (type : String) :
    Engagement.le doc.engagement (incrementEngagement now doc type).engagement := by
  rw [incrementEngagement_engagement]
  unfold Engagement.le
  split_ifs <;> simp

theorem applyUpdate_engagement (doc : Issue) (input : UpdateIssueInput) :
    (applyUpdate doc input).engagement = doc.engagement := by
  unfold applyUpdate
  cases input.priority <;> rfl

theorem updateStatus_engagement (now : Date) (doc : Issue) (newStatus : String)
    (performedBy : ObjectId) (notes : Option String) :
    (updateStatus now doc newStatus performedBy notes).engagement = doc.engagement := by
  rw [updateStatus_eq]
  have he : (addTimelineEntry now { doc with status := newStatus } newStatus
      (statusDescription newStatus) performedBy
      (some [("oldStatus", doc.status), ("notes", notes.getD "")])).engagement
        = doc.engagement :=
    save_engagement now _
  by_cases hr : newStatus = "resolved"
  · rw [if_pos hr]
    exact (save_engagement now _).trans he
  · rw [if_neg hr]
    exact (save_engagement now _).trans he

/-- No operation on the document lowers a counter. -/
theorem run_engagement_le (now : Date) (doc : Issue) (op : IssueOp) :
    Engagement.le doc.engagement (op.run now doc).engagement := by
  cases op with
  | updateStatus s actor notes =>
    show Engagement.le doc.engagement (updateStatus now doc s actor notes).engagement
    rw [updateStatus_engagement]
    exact Engagement.le_refl _
  | addTimelineEntry a d actor m =>
    show Engagement.le doc.engagement (addTimelineEntry now doc a d actor m).engagement
    unfold addTimelineEntry
    rw [save_engagement]
    exact Engagement.le_refl _
  | assign aid an actor =>
    show Engagement.le doc.engagement (assign now doc aid an actor).engagement
    unfold assign addTimelineEntry
    rw [save_engagement]
    exact Engagement.le_refl _
  | incrementEngagement t => exact incrementEngagement_le now doc t
  | update input =>
    show Engagement.le doc.engagement (applyUpdate doc input).engagement
    rw [applyUpdate_engagement]
    exact Engagement.le_refl _
  | save =>
    show Engagement.le doc.engagement (save now doc).engagement
    rw [save_engagement]
    exact Engagement.le_refl _

/-- After `$inc` on the comment counter, `findById` returns the stored
document with the counter moved. -/
theorem findById_incComments (db : Db) (id : ObjectId) (delta : Int) :
    Issue.findById (db.incComments id delta) id
      = (Issue.findById db id).map (fun i =>
          { i with engagement :=
              { i.engagement with comments := i.engagement.comments + delta } }) := by
  unfold Issue.findById Db.incComments
  simp only
  induction db.issues with
  | nil => rfl
  | cons x rest ih =>
    by_cases hx : (x.id == id) = true
    · simp [List.find?, hx]
    · have hx2 : (x.id == id) = false := by simpa using hx
      simp only [List.map_cons, hx2, List.find?_cons, Bool.false_eq_true, if_false]
      exact ih

/-- A successful `issue` query found the issue and counted one view on it. -/
theorem issueQuery_ok (now : Date) (db : Db) (id : ObjectId) (user : Option User) (r : Issue)
    (h : (issueQuery now db id user).2 = .ok r) :
    ∃ i, Issue.findById db id = some i ∧ incrementEngagement now i "views" = r := by
  unfold issueQuery at h
  cases user with
  | none => simp at h
  | some u =>
    cases hf : Issue.findById db id with
    | none => simp [hf] at h
    | some i =>
      simp only [hf] at h
      by_cases hp : i.isPublic = true
      · rw [if_pos hp] at h
        exact ⟨i, rfl, by simpa using h⟩
      · rw [if_neg hp] at h
        cases hu : User.findById db i.reporter with
        | none => simp [hu] at h
        | some reporter =>
          simp only [hu] at h
          by_cases hc : notElevated u = true
          · rw [if_pos hc] at h; simp at h
          · rw [if_neg hc] at h
            exact ⟨i, rfl, by simpa using h⟩

/-- A successful `upvoteIssue` found the issue and counted one upvote on it. -/
theorem upvoteIssue_ok (now : Date) (db : Db) (id : ObjectId) (user : Option User) (r : Issue)
    (h : (upvoteIssue now db id user).2 = .ok r) :
    ∃ i, Issue.findById db id = some i ∧ incrementEngagement now i "upvotes" = r := by
  unfold upvoteIssue at h
  cases user with
  | none => simp at h
  | some u =>
    cases hf : Issue.findById db id with
    | none => simp [hf] at h
    | some i =>
      simp only [hf] at h
      exact ⟨i, rfl, by simpa using h⟩

/-- A successful `createComment` leaves the issue store with one `$inc` by 1. -/
theorem createComment_ok (db : Db) (cs : List Comment) (newId : ObjectId)
    (input : CreateCommentInput) (user : Option User) (c : Comment)
    (h : (createComment db cs newId input user).2 = .ok c) :
    (createComment db cs newId input user).1.1 = db.incComments input.issueId 1 := by
  unfold createComment at h ⊢
  cases user with
  | none => simp at h
  | some u =>
    cases hf : Issue.findById db input.issueId with
    | none => simp [hf] at h
    | some i =>
      simp only [hf] at h ⊢
      by_cases hc : (!i.isPublic && i.reporter != u.id && notElevated u) = true
      · rw [if_pos hc] at h; simp at h
      · rw [if_neg hc] at h ⊢
        split at h
        · simp at h
        · rename_i hpc
          simp only [hpc]

/-- A successful `deleteComment` found the comment and leaves the issue
store with one `$inc` by -1 on the comment's issue. -/
theorem deleteComment_ok (db : Db) (cs : List Comment) (id : ObjectId) (user : Option User)
    (h : (deleteComment db cs id user).2 = .ok true) :
    ∃ comment, Comment.findById cs id = some comment
      ∧ (deleteComment db cs id user).1.1 = db.incComments comment.issue (-1) := by
  unfold deleteComment at h ⊢
  cases user with
  | none => simp at h
  | some u =>
    cases hf : Comment.findById cs id with
    | none => simp [hf] at h
    | some comment =>
      simp only [hf] at h ⊢
      by_cases hc : (comment.author != u.id && u.role != "admin") = true
      · rw [if_pos hc] at h; simp at h
      · rw [if_neg hc]
        exact ⟨comment, rfl, rfl⟩

/-- C11 (counterexample): the author deletes a seeded comment on the stored
issue i2, whose comment counter is 0: afterwards the counter is -1, below
its value before the operation. -/
theorem deleteComment_lowers_comment_counter :
    (Issue.findById sampleDb "i2").map (fun i => i.engagement.comments) = some 0
    ∧ (deleteComment sampleDb [sampleComment] "c1" (some (sampleUser "u1" "citizen"))).2
        = .ok true
    ∧ (Issue.findById
        (deleteComment sampleDb [sampleComment] "c1" (some (sampleUser "u1" "citizen"))).1.1
        "i2").map (fun i => i.engagement.comments) = some (-1)
    ∧ ¬ Engagement.le ⟨0, 0, 0, 0, 0⟩ ⟨0, 0, 0, 0, -1⟩ := by
  refine ⟨by decide, by rfl, by decide, by decide⟩

/-- C11 (amended): viewing, upvoting, a status transition, an assignment,
an engagement increment, a save and updateIssue leave every engagement
counter at least as large as before, and creating a comment raises the
issue's comment counter by 1; deleting a comment lowers the issue's comment
counter by 1 and leaves the other four counters as they were. On a stored
issue an engagement increment raises exactly the named counter by 1, changes
no other counter and leaves the timeline as it was. -/
theorem engagement_monotone_except_delete :
    (∀ (now : Date) (doc : Issue) (op : IssueOp),
        Engagement.le doc.engagement (op.run now doc).engagement)
    ∧ (∀ (now : Date) (doc : Issue), doc.isNew = false →
        ((incrementEngagement now doc "views").engagement
            = { doc.engagement with views := doc.engagement.views + 1 }
          ∧ (incrementEngagement now doc "upvotes").engagement
            = { doc.engagement with upvotes := doc.engagement.upvotes + 1 }
          ∧ (incrementEngagement now doc "downvotes").engagement
            = { doc.engagement with downvotes := doc.engagement.downvotes + 1 }
          ∧ (incrementEngagement now doc "shares").engagement
            = { doc.engagement with shares := doc.engagement.shares + 1 }
          ∧ (incrementEngagement now doc "comments").engagement
            = { doc.engagement with comments := doc.engagement.comments + 1 })
        ∧ ∀ type, (incrementEngagement now doc type).timeline = doc.timeline)
    ∧ (∀ (now : Date) (db : Db) (id : ObjectId) (user : Option User) (r : Issue),
        (issueQuery now db id user).2 = .ok r →
        ∃ i, Issue.findById db id = some i
          ∧ r.engagement = { i.engagement with views := i.engagement.views + 1 }
          ∧ r.timeline = i.timeline)
    ∧ (∀ (now : Date) (db : Db) (id : ObjectId) (user : Option User) (r : Issue),
        (upvoteIssue now db id user).2 = .ok r →
        ∃ i, Issue.findById db id = some i
          ∧ r.engagement = { i.engagement with upvotes := i.engagement.upvotes + 1 }
          ∧ r.timeline = i.timeline)
    ∧ (∀ (db : Db) (cs : List Comment) (newId : ObjectId) (input : CreateCommentInput)
        (user : Option User) (c : Comment),
        (createComment db cs newId input user).2 = .ok c →
        Issue.findById (createComment db cs newId input user).1.1 input.issueId
          = (Issue.findById db input.issueId).map (fun i =>
              { i with engagement :=
                  { i.engagement with comments := i.engagement.comments + 1 } }))
    ∧ (∀ (db : Db) (cs : List Comment) (id : ObjectId) (user : Option User),
        (deleteComment db cs id user).2 = .ok true →
        ∃ comment, Comment.findById cs id = some comment
          ∧ Issue.findById (deleteComment db cs id user).1.1 comment.issue
            = (Issue.findById db comment.issue).map (fun i =>
                { i with engagement :=
                    { i.engagement with comments := i.engagement.comments - 1 } })) := by
  refine ⟨run_engagement_le, ?_, ?_, ?_, ?_, ?_⟩
  · intro now doc hnew
    refine ⟨⟨?_, ?_, ?_, ?_, ?_⟩, fun type => incrementEngagement_timeline now doc type hnew⟩
    · rw [incrementEngagement_engagement]; rfl
    · rw [incrementEngagement_engagement]; rfl
    · rw [incrementEngagement_engagement]; rfl
    · rw [incrementEngagement_engagement]; rfl
    · rw [incrementEngagement_engagement]; rfl
  · intro now db id user r h
    obtain ⟨i, hf, hr⟩ := issueQuery_ok now db id user r h
    subst hr
    refine ⟨i, hf, ?_, incrementEngagement_timeline now i "views" (findById_some db id i hf).1⟩
    rw [incrementEngagement_engagement]; rfl
  · intro now db id user r h
    obtain ⟨i, hf, hr⟩ := upvoteIssue_ok now db id user r h
    subst hr
    refine ⟨i, hf, ?_, incrementEngagement_timeline now i "upvotes" (findById_some db id i hf).1⟩
    rw [incrementEngagement_engagement]; rfl
  · intro db cs newId input user c h
    rw [createComment_ok db cs newId input user c h, findById_incComments]
  · intro db cs id user h
    obtain ⟨comment, hc, hdb⟩ := deleteComment_ok db cs id user h
    refine ⟨comment, hc, ?_⟩
    rw [hdb, findById_incComments]
    rfl

/-- Witness for C11: a view of the stored issue i2 by its reporter, and a
comment created on it. -/
theorem engagement_monotone_except_delete_witness :
    Engagement.le mediumIssue.engagement
        ((IssueOp.incrementEngagement "views").run 4 mediumIssue).engagement
    ∧ (incrementEngagement 4 mediumIssue "shares").engagement = ⟨0, 0, 0, 1, 0⟩
    ∧ (Issue.findById (createComment sampleDb [] "c9" ⟨"i2", "hello", none⟩
          (some (sampleUser "u1" "citizen"))).1.1 "i2").map (fun i => i.engagement.comments)
        = some 1 := by
  refine ⟨engagement_monotone_except_delete.1 4 mediumIssue (.incrementEngagement "views"),
    ?_, ?_⟩
  · rw [(engagement_monotone_except_delete.2.1 4 mediumIssue (by decide)).1.2.2.2.1]
    decide
  · rw [engagement_monotone_except_delete.2.2.2.2.1 sampleDb [] "c9" ⟨"i2", "hello", none⟩
      (some (sampleUser "u1" "citizen")) ⟨"c9", "hello", "u1", "i2", none, []⟩ (by rfl)]
    decide

/-! ### Classifier -/

theorem keywordScan_foldl (words : List String) (keywords : List String) (acc : Nat × List String) :
    keywords.foldl
      (fun acc keyword =>
        if keywordHit words keyword then (acc.1 + 1, acc.2 ++ [keyword]) else acc) acc
      = (acc.1 + (keywords.filter (keywordHit words)).length,
         acc.2 ++ keywords.filter (keywordHit words)) := by
  induction keywords generalizing acc with
  | nil => simp
  | cons kw rest ih =>
    rw [List.foldl_cons, ih]
    by_cases hk : keywordHit words kw = true
    · simp [hk, List.filter_cons, Nat.add_assoc, Nat.add_comm 1]
    · simp [hk, List.filter_cons]

/-- The inner loop counts the keywords that are hit, and collects them. -/
theorem keywordScan_eq (words : List String) (keywords : List String) :
    keywordScan words keywords
      = ((keywords.filter (keywordHit words)).length, keywords.filter (keywordHit words)) := by
  unfold keywordScan
  rw [keywordScan_foldl]
  simp

/-- C12 (counterexample): the text repeating the keyword 'पानी' in three
tokens scores 1 for water (and is classified water with score 1), while
three of its tokens match a keyword of the water list. -/
theorem keyword_score_counts_keywords_not_tokens :
    splitSpaces (toLowerCase "पानी पानी पानी") = ["पानी", "पानी", "पानी"]
    ∧ (keywordScan (splitSpaces (toLowerCase "पानी पानी पानी"))
        ["पानी", "नल", "टंकी", "बोरवेल", "कमी", "गुणवत्ता"]).1 = 1
    ∧ (bestCategory (splitSpaces (toLowerCase "पानी पानी पानी")) issueCategories).1
        = ⟨"water", 1⟩
    ∧ matchingTokenCount (splitSpaces (toLowerCase "पानी पानी पानी"))
        ["पानी", "नल", "टंकी", "बोरवेल", "कमी", "गुणवत्ता"] = 3 := by
  refine ⟨by decide, by decide, by decide, by decide⟩

/-- C12 (amended): for every input text and every category of the category
table, the score classifyIssue gives the category is the number of keywords
of the category's keyword list that occur inside at least one token of the
lower-cased text split on single spaces; it is at most the length of the
keyword list, and a keyword repeated in several tokens counts once. -/
theorem keyword_score_counts_keywords (text : String) :
    ∀ entry ∈ issueCategories,
    (keywordScan (splitSpaces (toLowerCase text)) entry.2.keywords).1
      = (entry.2.keywords.filter (fun keyword =>
          (splitSpaces (toLowerCase text)).any
            (fun word => includes word (toLowerCase keyword)))).length
    ∧ (keywordScan (splitSpaces (toLowerCase text)) entry.2.keywords).1
        ≤ entry.2.keywords.length
    ∧ (keywordScan (splitSpaces (toLowerCase text)) entry.2.keywords).2
      = entry.2.keywords.filter (fun keyword =>
          (splitSpaces (toLowerCase text)).any
            (fun word => includes word (toLowerCase keyword))) := by
  intro entry _
  rw [keywordScan_eq]
  exact ⟨rfl, List.length_filter_le _ _, rfl⟩

/-- Witness for C12: the water entry on a text with two water keywords. -/
theorem keyword_score_counts_keywords_witness :
    (keywordScan (splitSpaces (toLowerCase "पानी की कमी है, तुरंत ध्यान चाहिए"))
        ["पानी", "नल", "टंकी", "बोरवेल", "कमी", "गुणवत्ता"]).1 = 2 := by
  have h := (keyword_score_counts_keywords "पानी की कमी है, तुरंत ध्यान चाहिए"
    ("water", ⟨"पानी की आपूर्ति", ["पानी", "नल", "टंकी", "बोरवेल", "कमी", "गुणवत्ता"],
      ["shortage", "quality", "leakage", "pressure"]⟩) (by decide)).1
  rw [h]
  decide

theorem classifyStep_eq (words : List String) (st : BestMatch × List String)
    (entry : String × CategoryData) :
    classifyStep words st entry
      = if st.1.score < categoryScore words entry then
          (⟨entry.1, categoryScore words entry⟩, (keywordScan words entry.2.keywords).2)
        else st := rfl

/-- The outer loop from any starting best match: either nothing beat the
start, or the result is the first entry of the table with the greatest
score. -/
theorem bestCategory_foldl (words : List String) (cats : List (String × CategoryData))
    (st : BestMatch × List String) :
    (cats.foldl (classifyStep words) st = st
      ∧ ∀ e ∈ cats, categoryScore words e ≤ st.1.score)
    ∨ (∃ pre e post, cats = pre ++ e :: post
      ∧ (cats.foldl (classifyStep words) st).1 = ⟨e.1, categoryScore words e⟩
      ∧ st.1.score < categoryScore words e
      ∧ (∀ x ∈ pre, categoryScore words x < categoryScore words e)
      ∧ (∀ x ∈ post, categoryScore words x ≤ categoryScore words e)) := by
  induction cats generalizing st with
  | nil => exact Or.inl ⟨rfl, fun e he => absurd he (List.not_mem_nil e)⟩
  | cons c cs ih =>
    rw [List.foldl_cons, classifyStep_eq]
    by_cases hc : st.1.score < categoryScore words c
    · rw [if_pos hc]
      rcases ih (⟨c.1, categoryScore words c⟩, (keywordScan words c.2.keywords).2) with
        ⟨hr, hall⟩ | ⟨pre, e, post, hsplit, hr, hlt, hpre, hpost⟩
      · refine Or.inr ⟨[], c, cs, rfl, ?_, hc, fun x hx => absurd hx (List.not_mem_nil x), hall⟩
        rw [hr]
      · refine Or.inr ⟨c :: pre, e, post, by rw [hsplit]; rfl, hr, lt_trans hc hlt, ?_, hpost⟩
        intro x hx
        rcases List.mem_cons.1 hx with rfl | hx
        · exact hlt
        · exact hpre x hx
    · rw [if_neg hc]
      rcases ih st with ⟨hr, hall⟩ | ⟨pre, e, post, hsplit, hr, hlt, hpre, hpost⟩
      · refine Or.inl ⟨hr, ?_⟩
        intro x hx
        rcases List.mem_cons.1 hx with rfl | hx
        · exact Nat.le_of_not_lt hc
        · exact hall x hx
      · refine Or.inr ⟨c :: pre, e, post, by rw [hsplit]; rfl, hr, hlt, ?_, hpost⟩
        intro x hx
        rcases List.mem_cons.1 hx with rfl | hx
        · exact lt_of_le_of_lt (Nat.le_of_not_lt hc) hlt
        · exact hpre x hx

/-- C13: for every input text for which at least one category has a positive
score, the category classifyIssue returns is an entry of the category table
whose score is the maximum over all categories, every category declared
before it has a strictly smaller score and every category declared after it
has a score not greater: among the categories of maximal score it is the one
declared first (order roads, water, electricity, garbage, healthcare,
education). -/
theorem classifyIssue_first_maximum (text : String)
    (hpos : ∃ entry ∈ issueCategories,
      0 < categoryScore (splitSpaces (toLowerCase text)) entry) :
    (issueCategories.map (fun e => e.1)
      = ["roads", "water", "electricity", "garbage", "healthcare", "education"])
    ∧ ∃ pre e post, issueCategories = pre ++ e :: post
      ∧ (classifyIssue text).category = e.1
      ∧ (∀ x ∈ issueCategories, categoryScore (splitSpaces (toLowerCase text)) x
          ≤ categoryScore (splitSpaces (toLowerCase text)) e)
      ∧ (∀ x ∈ pre, categoryScore (splitSpaces (toLowerCase text)) x
          < categoryScore (splitSpaces (toLowerCase text)) e)
      ∧ (∀ x ∈ post, categoryScore (splitSpaces (toLowerCase text)) x
          ≤ categoryScore (splitSpaces (toLowerCase text)) e) := by
  refine ⟨by decide, ?_⟩
  rcases bestCategory_foldl (splitSpaces (toLowerCase text)) issueCategories (⟨"other", 0⟩, [])
    with ⟨_, hall⟩ | ⟨pre, e, post, hsplit, hr, _, hpre, hpost⟩
  · obtain ⟨entry, hmem, hlt⟩ := hpos
    exact absurd (hall entry hmem) (Nat.not_le_of_lt hlt)
  · refine ⟨pre, e, post, hsplit, ?_, ?_, hpre, hpost⟩
    · show (bestCategory (splitSpaces (toLowerCase text)) issueCategories).1.category = e.1
      unfold bestCategory
      rw [hr]
    · intro x hx
      rw [hsplit, List.mem_append, List.mem_cons] at hx
      rcases hx with hx | rfl | hx
      · exact Nat.le_of_lt (hpre x hx)
      · exact le_rfl
      · exact hpost x hx

/-- Witness for C13: a text with one roads keyword and one water keyword is
classified roads. -/
theorem classifyIssue_first_maximum_witness :
    (classifyIssue "पानी सड़क").category = "roads"
    ∧ ∃ pre e post, issueCategories = pre ++ e :: post
      ∧ (classifyIssue "पानी सड़क").category = e.1
      ∧ (∀ x ∈ issueCategories, categoryScore (splitSpaces (toLowerCase "पानी सड़क")) x
          ≤ categoryScore (splitSpaces (toLowerCase "पानी सड़क")) e)
      ∧ (∀ x ∈ pre, categoryScore (splitSpaces (toLowerCase "पानी सड़क")) x
          < categoryScore (splitSpaces (toLowerCase "पानी सड़क")) e)
      ∧ (∀ x ∈ post, categoryScore (splitSpaces (toLowerCase "पानी सड़क")) x
          ≤ categoryScore (splitSpaces (toLowerCase "पानी सड़क")) e) :=
  ⟨by decide, (classifyIssue_first_maximum "पानी सड़क"
    ⟨("water", ⟨"पानी की आपूर्ति", ["पानी", "नल", "टंकी", "बोरवेल", "कमी", "गुणवत्ता"],
      ["shortage", "quality", "leakage", "pressure"]⟩), by decide, by decide⟩).2⟩

/-- C14 (the code at the failing input): the text 'नल टूटा है, फौरन ठीक
करें' is classified water with negative sentiment and contains the urgent
keyword 'फौरन' of the classifier's urgent table, which raises its urgency
score to 100; calculatePriority tests its own four-word list, which lacks
'फौरन', so the priority score is 3 + 1 = 4 and the priority 'high', where
base + 1 + 2 = 6 gives 'critical'. -/
theorem calculatePriority_misses_urgent_keyword :
    (classifyIssue "नल टूटा है, फौरन ठीक करें").category = "water"
    ∧ (classifyIssue "नल टूटा है, फौरन ठीक करें").sentiment = "negative"
    ∧ sentimentKeywords.urgent.any (fun kw => includes "नल टूटा है, फौरन ठीक करें" kw) = true
    ∧ (classifyIssue "नल टूटा है, फौरन ठीक करें").urgencyScore = 100
    ∧ priorityScore "नल टूटा है, फौरन ठीक करें" "negative" "water" = 4
    ∧ (classifyIssue "नल टूटा है, फौरन ठीक करें").priority = "high"
    ∧ specPriority "नल टूटा है, फौरन ठीक करें" "negative" "water" = "critical"
    ∧ "फौरन" ∈ sentimentKeywords.urgent ∧ "फौरन" ∉ urgentWords := by
  refine ⟨by decide, by decide, by decide, by decide, by decide, by decide, by decide,
    by decide, by decide⟩

/-- C15: for every input text the urgency score is
min(100, 50 + 30*[an urgent keyword occurs in the text] + 20*[a negative
keyword occurs in the text] + 10*[the text has more than 100 UTF-16 code
units]); it lies between 50 and 100, and it is at least 80 whenever an
urgent keyword occurs in the text. -/
theorem calculateUrgencyScore_formula (text : String) :
    calculateUrgencyScore text
      = min 100 (50
          + 30 * (if sentimentKeywords.urgent.any (fun kw => includes text kw) then 1 else 0)
          + 20 * (if sentimentKeywords.negative.any (fun kw => includes text kw) then 1 else 0)
          + 10 * (if 100 < utf16Length text then 1 else 0))
    ∧ 0 ≤ calculateUrgencyScore text
    ∧ calculateUrgencyScore text ≤ 100
    ∧ 50 ≤ calculateUrgencyScore text
    ∧ (sentimentKeywords.urgent.any (fun kw => includes text kw) = true →
        80 ≤ calculateUrgencyScore text) := by
  unfold calculateUrgencyScore
  by_cases h1 : sentimentKeywords.urgent.any (fun kw => includes text kw) = true <;>
  by_cases h2 : sentimentKeywords.negative.any (fun kw => includes text kw) = true <;>
  by_cases h3 : 100 < utf16Length text <;>
  simp [h1, h2, h3]

/-- The priority of a text that contains a word of the local urgent list and
is classified water is critical. -/
theorem calculatePriority_water_urgent (text sentiment : String)
    (hurgent : urgentWords.any (fun word => includes text word) = true) :
    calculatePriority text sentiment "water" = "critical" := by
  unfold calculatePriority priorityScore
  have hbase : (categoryPriorities.lookup "water").getD 1 = 3 := by decide
  rw [hbase, hurgent]
  by_cases hs : sentiment = "negative"
  · simp [hs, priorityOfScore]
  · simp [hs, priorityOfScore]

/-- C16: classifying 'पानी की कमी है, तुरंत ध्यान चाहिए' yields category
water, urgency score 80 and priority critical; and every text whose
classification has category water and which contains 'तुरंत' gets an urgency
score of at least 80 and the priority critical (so a priority among high and
critical). -/
theorem classify_water_urgent :
    ((classifyIssue "पानी की कमी है, तुरंत ध्यान चाहिए").category = "water"
      ∧ (classifyIssue "पानी की कमी है, तुरंत ध्यान चाहिए").urgencyScore = 80
      ∧ 80 ≤ (classifyIssue "पानी की कमी है, तुरंत ध्यान चाहिए").urgencyScore
      ∧ (classifyIssue "पानी की कमी है, तुरंत ध्यान चाहिए").priority = "critical")
    ∧ ∀ text : String, (classifyIssue text).category = "water" →
        includes text "तुरंत" = true →
        (classifyIssue text).category = "water"
        ∧ 80 ≤ (classifyIssue text).urgencyScore
        ∧ ((classifyIssue text).priority = "high" ∨ (classifyIssue text).priority = "critical")
        ∧ (classifyIssue text).priority = "critical" := by
  refine ⟨⟨by decide, by decide, by decide, by decide⟩, ?_⟩
  intro text hcat hinc
  have hu1 : urgentWords.any (fun word => includes text word) = true := by
    simp [urgentWords, hinc]
  have hu2 : sentimentKeywords.urgent.any (fun kw => includes text kw) = true := by
    simp [sentimentKeywords, hinc]
  have hprio : (classifyIssue text).priority = "critical" := by
    have hp : (classifyIssue text).priority
        = calculatePriority text (analyzeSentiment text) (classifyIssue text).category := rfl
    rw [hp, hcat]
    exact calculatePriority_water_urgent text _ hu1
  refine ⟨hcat, ?_, Or.inr hprio, hprio⟩
  show 80 ≤ calculateUrgencyScore text
  unfold calculateUrgencyScore
  by_cases h2 : sentimentKeywords.negative.any (fun kw => includes text kw) = true <;>
  by_cases h3 : 100 < utf16Length text <;>
  simp [hu2, h2, h3]

/-- Witness for C16: the general statement at the text of the scenario. -/
theorem classify_water_urgent_witness :
    80 ≤ (classifyIssue "पानी की कमी है, तुरंत ध्यान चाहिए").urgencyScore
    ∧ (classifyIssue "पानी की कमी है, तुरंत ध्यान चाहिए").priority = "critical" :=
  ⟨(classify_water_urgent.2 "पानी की कमी है, तुरंत ध्यान चाहिए" (by decide) (by decide)).2.1,
   (classify_water_urgent.2 "पानी की कमी है, तुरंत ध्यान चाहिए" (by decide) (by decide)).2.2.2⟩

/-! ### Notification service -/

theorem attemptAll_length (deliver : Nat → Channel → Except Thrown Unit) (k : Nat)
    (channels : List Channel) : (attemptAll deliver k channels).length = channels.length := by
  induction channels generalizing k with
  | nil => rfl
  | cons c rest ih => simp [attemptAll, ih]

theorem attemptAll_channels (deliver : Nat → Channel → Except Thrown Unit) (k : Nat)
    (channels : List Channel) :
    (attemptAll deliver k channels).map (fun r => r.channel) = channels.map Channel.name := by
  induction channels generalizing k with
  | nil => rfl
  | cons c rest ih =>
    simp only [attemptAll, List.map_cons, ih]
    cases h : deliver k c with
    | ok u => rfl
    | error e => cases e <;> rfl

/-- The entry at position `j` of the results is the outcome of attempt
number `k + j`, on the channel requested at position `j`. -/
theorem attemptAll_getElem? (deliver : Nat → Channel → Except Thrown Unit) (k j : Nat)
    (channels : List Channel) :
    (attemptAll deliver k channels)[j]?
      = channels[j]?.map (fun c => attemptChannel (deliver (k + j) c) c) := by
  induction channels generalizing k j with
  | nil => simp [attemptAll]
  | cons c rest ih =>
    cases j with
    | zero => simp [attemptAll]
    | succ j =>
      simp only [attemptAll, List.getElem?_cons_succ]
      rw [ih (k + 1) j]
      congr 1
      funext c2
      rw [Nat.add_right_comm k 1 j, Nat.add_assoc k j 1]

theorem attemptChannel_success (outcome : Except Thrown Unit) (channel : Channel) :
    (attemptChannel outcome channel).success = true ↔ outcome = .ok () := by
  cases outcome with
  | ok u => simp [attemptChannel]
  | error e => cases e <;> simp [attemptChannel]

/-- Some entry of the results is a success exactly when some attempt was
delivered. -/
theorem attemptAll_any (deliver : Nat → Channel → Except Thrown Unit) (k : Nat)
    (channels : List Channel) :
    (attemptAll deliver k channels).any (fun r => r.success) = true
      ↔ ∃ j c, channels[j]? = some c ∧ deliver (k + j) c = .ok () := by
  rw [List.any_eq_true]
  constructor
  · rintro ⟨r, hr, hs⟩
    obtain ⟨j, hj⟩ := List.getElem?_of_mem hr
    rw [attemptAll_getElem?] at hj
    rw [Option.map_eq_some'] at hj
    obtain ⟨c, hc, rfl⟩ := hj
    exact ⟨j, c, hc, (attemptChannel_success _ _).1 hs⟩
  · rintro ⟨j, c, hc, hd⟩
    refine ⟨attemptChannel (deliver (k + j) c) c, ?_, (attemptChannel_success _ _).2 hd⟩
    have hj : (attemptAll deliver k channels)[j]? = some (attemptChannel (deliver (k + j) c) c) := by
      rw [attemptAll_getElem?, hc]
      rfl
    exact List.getElem?_mem hj

theorem lookup_snd_mem {β : Type} (l : List (String × β)) (k : String) (v : β)
    (h : l.lookup k = some v) : v ∈ l.map (fun e => e.2) := by
  induction l with
  | nil => simp [List.lookup] at h
  | cons e rest ih =>
    obtain ⟨a, b⟩ := e
    rw [List.lookup_cons] at h
    by_cases hk : (k == a) = true
    · rw [hk] at h
      simp only [Option.some.injEq] at h
      subst h
      simp
    · have hk2 : (k == a) = false := by simpa using hk
      rw [hk2] at h
      exact List.mem_cons_of_mem _ (ih h)

/-- Every language table declares a system text. -/
theorem templates_have_system :
    ∀ table ∈ templates.map (fun e => e.2), (table.lookup "system").isSome = true := by
  decide

/-- The lookup of a type that is no inherited name, in a table with a system
text, is a text. -/
theorem templateOfType_text (table : List (String × String)) (type : String)
    (ht : type ∉ inheritedProperties) (hs : (table.lookup "system").isSome = true) :
    ∃ body, templateOfType table type = .text body := by
  unfold templateOfType
  cases h1 : table.lookup type with
  | some body => exact ⟨body, rfl⟩
  | none =>
    obtain ⟨body, hb⟩ := Option.isSome_iff_exists.1 hs
    simp only [if_neg ht, hb]
    exact ⟨body, rfl⟩

/-- When neither the language nor the type names an inherited property, the
body is a template text. -/
theorem templateBody_text (config : NotificationConfig)
    (hl : config.language ∉ inheritedProperties) (ht : config.type ∉ inheritedProperties) :
    ∃ body, templateBody config = .text body := by
  have hhindi : "hindi" ∉ inheritedProperties := by decide
  have hlang : (if config.language = "" then "hindi" else config.language)
      ∉ inheritedProperties := by
    by_cases he : config.language = ""
    · rw [if_pos he]; exact hhindi
    · rw [if_neg he]; exact hl
  unfold templateBody
  simp only
  cases hlook : templates.lookup (if config.language = "" then "hindi" else config.language) with
  | some table =>
    exact templateOfType_text table config.type ht
      (templates_have_system table (lookup_snd_mem templates _ table hlook))
  | none =>
    simp only [if_neg hlang]
    exact templateOfType_text _ config.type ht (by decide)

/-- The message is generated whenever the config has no issue id to put in,
and whenever neither the language nor the type names an inherited property. -/
theorem generateMessage_ok (config : NotificationConfig)
    (h : config.issueId = none ∨ config.issueId = some ""
      ∨ (config.language ∉ inheritedProperties ∧ config.type ∉ inheritedProperties)) :
    ∃ m, generateMessage config = .ok m := by
  unfold generateMessage
  rcases h with h | h | ⟨hl, ht⟩
  · rw [h]
    exact ⟨_, rfl⟩
  · rw [h]
    exact ⟨_, rfl⟩
  · obtain ⟨body, hb⟩ := templateBody_text config hl ht
    cases hid : config.issueId with
    | none => exact ⟨_, rfl⟩
    | some issueId =>
      simp only [hb]
      by_cases he : issueId = ""
      · rw [if_pos he]
        exact ⟨_, rfl⟩
      · rw [if_neg he]
        exact ⟨_, rfl⟩

/-- Once the message is generated, `sendNotification` returns the results of
the loop. -/
theorem sendNotification_of_message (deliver : Nat → Channel → Except Thrown Unit)
    (config : NotificationConfig) (m : Message) (hm : generateMessage config = .ok m) :
    sendNotification deliver config
      = .ok { success := (attemptAll deliver 0 config.channels).any (fun r => r.success),
              results := attemptAll deliver 0 config.channels } := by
  unfold sendNotification
  rw [hm]

/-- What `sendNotification` returns once the message is generated: the
results list has one entry per requested channel, in request order, each
entry recording whether that attempt was delivered, whatever happened to the
attempts before it; success is true exactly when at least one attempt was
delivered; and with channels [push, sms], push throwing and sms delivered,
success is true and exactly one failure is recorded. -/
theorem sendNotification_results (deliver : Nat → Channel → Except Thrown Unit)
    (config : NotificationConfig) (m : Message) (hm : generateMessage config = .ok m) :
    ∃ r, sendNotification deliver config = .ok r
      ∧ r.results.length = config.channels.length
      ∧ r.results.map (fun x => x.channel) = config.channels.map Channel.name
      ∧ (∀ j c, config.channels[j]? = some c →
          ∃ x, r.results[j]? = some x ∧ x.channel = c.name
            ∧ (x.success = true ↔ deliver j c = .ok ()))
      ∧ (r.success = true ↔ ∃ j c, config.channels[j]? = some c ∧ deliver j c = .ok ())
      ∧ (config.channels = [.push, .sms] → deliver 0 .push ≠ .ok () → deliver 1 .sms = .ok () →
          r.success = true ∧ (r.results.filter (fun x => !x.success)).length = 1) := by
  refine ⟨{ success := (attemptAll deliver 0 config.channels).any (fun r => r.success),
            results := attemptAll deliver 0 config.channels },
    sendNotification_of_message deliver config m hm,
    attemptAll_length deliver 0 _, attemptAll_channels deliver 0 _, ?_, ?_, ?_⟩
  · intro j c hc
    refine ⟨attemptChannel (deliver j c) c, ?_, ?_, attemptChannel_success _ _⟩
    · show (attemptAll deliver 0 config.channels)[j]? = _
      rw [attemptAll_getElem?, hc, Nat.zero_add]
      rfl
    · cases h : deliver j c with
      | ok u => rfl
      | error e => cases e <;> rfl
  · show (attemptAll deliver 0 config.channels).any (fun r => r.success) = true ↔ _
    rw [attemptAll_any]
    simp only [Nat.zero_add]
  · intro hch hpush hsms
    show (attemptAll deliver 0 config.channels).any (fun r => r.success) = true
      ∧ ((attemptAll deliver 0 config.channels).filter (fun x => !x.success)).length = 1
    rw [hch]
    have h0 : (attemptChannel (deliver 0 .push) .push).success = false := by
      cases hs : (attemptChannel (deliver 0 .push) .push).success with
      | false => rfl
      | true => exact absurd ((attemptChannel_success _ _).1 hs) hpush
    have h1 : (attemptChannel (deliver 1 .sms) .sms).success = true :=
      (attemptChannel_success _ _).2 hsms
    simp [attemptAll, h0, h1]

/-- C17 (the code at the failing input): a config whose language is
'constructor' and that carries an issue id. The lookup of the language finds
the inherited constructor, the body is undefined, and body.replace throws a
TypeError in generateMessage, which runs before the loop and outside its
try/catch: sendNotification raises the exception to its caller whatever the
deliveries do, also when every delivery would succeed. For every config
whose language and type name no inherited property, and for every config
without issue id, the message is generated, and then no exception reaches
the caller: every requested channel is attempted, in request order, success
is true exactly when at least one delivery succeeded, and with channels
[push, sms], push failing and sms succeeding, success is true and exactly
one failure is recorded. -/
theorem sendNotification_message_outside_try :
    templateBody inheritedLanguageConfig = .undefined
    ∧ generateMessage inheritedLanguageConfig
        = .error (.error "Cannot read properties of undefined (reading 'replace')")
    ∧ (∀ deliver : Nat → Channel → Except Thrown Unit,
        sendNotification deliver inheritedLanguageConfig
          = .error (.error "Cannot read properties of undefined (reading 'replace')"))
    ∧ sendNotification allDelivered inheritedLanguageConfig
        = .error (.error "Cannot read properties of undefined (reading 'replace')")
    ∧ (∀ (deliver : Nat → Channel → Except Thrown Unit) (config : NotificationConfig),
        (config.issueId = none ∨ config.issueId = some ""
          ∨ (config.language ∉ inheritedProperties ∧ config.type ∉ inheritedProperties)) →
        ∃ r, sendNotification deliver config = .ok r
          ∧ r.results.length = config.channels.length
          ∧ r.results.map (fun x => x.channel) = config.channels.map Channel.name
          ∧ (∀ j c, config.channels[j]? = some c →
              ∃ x, r.results[j]? = some x ∧ x.channel = c.name
                ∧ (x.success = true ↔ deliver j c = .ok ()))
          ∧ (r.success = true ↔ ∃ j c, config.channels[j]? = some c ∧ deliver j c = .ok ())
          ∧ (config.channels = [.push, .sms] → deliver 0 .push ≠ .ok () →
              deliver 1 .sms = .ok () →
              r.success = true ∧ (r.results.filter (fun x => !x.success)).length = 1)) := by
  refine ⟨by decide, by decide, fun deliver => rfl, rfl, ?_⟩
  intro deliver config h
  obtain ⟨m, hm⟩ := generateMessage_ok config h
  exact sendNotification_results deliver config m hm

/-- Witness for C17: push throws, sms is delivered, no issue id. -/
theorem sendNotification_message_outside_try_witness :
    ∃ r, sendNotification pushFails (bulkConfig "u1" "m" "urgent" "high") = .ok r
      ∧ r.success = true ∧ (r.results.filter (fun x => !x.success)).length = 1 := by
  obtain ⟨r, h1, _, _, _, _, h6⟩ :=
    sendNotification_message_outside_try.2.2.2.2 pushFails (bulkConfig "u1" "m" "urgent" "high")
      (Or.inl rfl)
  exact ⟨r, h1, h6 rfl (fun h => by cases h) rfl⟩

/-- C18 (the code at the failing input): the message rendered for the config
that notifyIssueUpdate builds for issue 42 and status in-progress, in hindi
and in english, is the update template with the issue id put in and the
text '{status}' still in it: generateMessage replaces '{issueId}' only, and
the config has no status to carry. -/
theorem generateMessage_leaves_status_placeholder :
    generateMessage (notifyIssueUpdateConfig "42" "u1" "in-progress" none "hindi")
      = .ok { title := "रिपोर्ट अपडेट",
              body := .text "आपकी रिपोर्ट #42 को अपडेट मिला है। स्थिति: {status}" }
    ∧ includes "आपकी रिपोर्ट #42 को अपडेट मिला है। स्थिति: {status}" "{status}" = true
    ∧ includes "आपकी रिपोर्ट #42 को अपडेट मिला है। स्थिति: {status}" "{issueId}" = false
    ∧ generateMessage (notifyIssueUpdateConfig "42" "u1" "in-progress" none "english")
      = .ok { title := "रिपोर्ट अपडेट",
              body := .text "Your report #42 has been updated. Status: {status}" }
    ∧ generateMessage (notifyIssueUpdateConfig "42" "u1" "in-progress" none "tamil")
      = .ok { title := "रिपोर्ट अपडेट",
              body := .text "आपकी रिपोर्ट #42 को अपडेट मिला है। स्थिति: {status}" } := by
  refine ⟨by decide, by decide, by decide, by decide, by decide⟩

/-- `sendNotification` returns for every config without issue id, so the
loop of `sendBulkNotification` only ever bumps `sent`. -/
theorem bulkLoop_counts (deliver : Nat → Nat → Channel → Except Thrown Unit)
    (message type priority : String) (k : Nat) (userIds : List String) (acc : BulkCounts) :
    bulkLoop deliver message type priority k userIds acc
      = { sent := acc.sent + userIds.length, failed := acc.failed } := by
  induction userIds generalizing k acc with
  | nil => rfl
  | cons u rest ih =>
    obtain ⟨m, hm⟩ := generateMessage_ok (bulkConfig u message type priority) (Or.inl rfl)
    unfold bulkLoop
    rw [sendNotification_of_message (deliver k) _ m hm]
    simp only
    rw [ih]
    simp [Nat.add_assoc, Nat.add_comm 1]

/-- C19 (the code at the failing input): a bulk send to the single recipient
u1 with both deliveries throwing: the notification of u1 fails (its success
flag is false, no channel succeeded), and sendBulkNotification returns
sent = 1 and failed = 0. For every list of recipients and every behaviour
of the deliveries it returns sent = number of recipients and failed = 0. -/
theorem sendBulkNotification_counts_failures_as_sent :
    sendNotification allFail (bulkConfig "u1" "alert" "urgent" "critical")
      = .ok { success := false,
              results := [⟨"push", false, some "gateway down"⟩,
                          ⟨"sms", false, some "gateway down"⟩] }
    ∧ sendBulkNotification (fun _ => allFail) ["u1"] "alert" "urgent" "critical" = ⟨1, 0⟩
    ∧ ∀ (deliver : Nat → Nat → Channel → Except Thrown Unit) (userIds : List String)
        (message type priority : String),
        sendBulkNotification deliver userIds message type priority
          = ⟨userIds.length, 0⟩ := by
  refine ⟨rfl, rfl, ?_⟩
  intro deliver userIds message type priority
  unfold sendBulkNotification
  rw [bulkLoop_counts]
  simp

/-! ### Notification documents -/

/-- C20 (counterexample): markAsRead on a pending notification, and
markAllNotificationsAsRead over a pending and a failed notification of the
caller, leave them with status 'read'. -/
theorem markAsRead_from_pending_and_failed :
    (sampleNotification "n1" "pending").status = "pending"
    ∧ ((sampleNotification "n1" "pending").markAsRead 5).status = "read"
    ∧ ((sampleNotification "n2" "failed").markAsRead 5).status = "read"
    ∧ (markAllNotificationsAsRead 5
        [sampleNotification "n1" "pending", sampleNotification "n2" "failed"]
        (some (sampleUser "u1" "citizen"))).1.map (fun n => n.status) = ["read", "read"] := by
  refine ⟨by decide, by decide, by decide, by decide⟩

/-- C20 (amended): markAsRead sets status 'read', isRead true and readAt to
the current time whatever the status before, pending and failed included;
markAllNotificationsAsRead does the same to every notification of the caller
with isRead false, whatever its status, and leaves every other notification
as it was. -/
theorem markAsRead_unconditional (now : Date) (n : Notification) (ns : List Notification)
    (u : User) :
    ((n.markAsRead now).status = "read" ∧ (n.markAsRead now).isRead = true
      ∧ (n.markAsRead now).readAt = some now ∧ (n.markAsRead now).id = n.id
      ∧ (n.markAsRead now).recipient = n.recipient)
    ∧ (markAllNotificationsAsRead now ns (some u)).2 = .ok true
    ∧ (markAllNotificationsAsRead now ns (some u)).1.length = ns.length
    ∧ (∀ (j : Nat) (m : Notification), ns[j]? = some m → m.recipient = u.id →
        m.isRead = false →
        (markAllNotificationsAsRead now ns (some u)).1[j]? = some (m.markAsRead now))
    ∧ (∀ (j : Nat) (m : Notification), ns[j]? = some m →
        (m.recipient ≠ u.id ∨ m.isRead = true) →
        (markAllNotificationsAsRead now ns (some u)).1[j]? = some m) := by
  refine ⟨⟨rfl, rfl, rfl, rfl, rfl⟩, rfl, ?_, ?_, ?_⟩
  · simp [markAllNotificationsAsRead]
  · intro j m hj hr hread
    simp only [markAllNotificationsAsRead, List.getElem?_map, hj, Option.map_some']
    simp [hr, hread, Notification.markAsRead]
  · intro j m hj hcond
    simp only [markAllNotificationsAsRead, List.getElem?_map, hj, Option.map_some']
    rcases hcond with h | h
    · simp [h]
    · simp [h]

/-- Witness for C20: the failed notification n2 of user u1, read through
markAllNotificationsAsRead at time 5. -/
theorem markAsRead_unconditional_witness :
    (markAllNotificationsAsRead 5
        [sampleNotification "n1" "pending", sampleNotification "n2" "failed"]
        (some (sampleUser "u1" "citizen"))).1[1]?
      = some ((sampleNotification "n2" "failed").markAsRead 5) :=
  (markAsRead_unconditional 5 (sampleNotification "n1" "pending")
    [sampleNotification "n1" "pending", sampleNotification "n2" "failed"]
    (sampleUser "u1" "citizen")).2.2.2.1 1 (sampleNotification "n2" "failed") (by rfl) (by rfl)
    (by rfl)

/-! ### Subcategory -/

/-- What `find?` returns: the first element that passes, or nothing when
none passes. -/
theorem find?_first {α : Type} (p : α → Bool) (l : List α) :
    (∃ pre e post, l = pre ++ e :: post ∧ l.find? p = some e ∧ p e = true
        ∧ ∀ x ∈ pre, p x = false)
    ∨ (l.find? p = none ∧ ∀ x ∈ l, p x = false) := by
  induction l with
  | nil => exact Or.inr ⟨rfl, fun x hx => absurd hx (List.not_mem_nil x)⟩
  | cons a rest ih =>
    by_cases ha : p a = true
    · exact Or.inl ⟨[], a, rest, rfl, by simp [List.find?, ha], ha,
        fun x hx => absurd hx (List.not_mem_nil x)⟩
    · have ha2 : p a = false := by simpa using ha
      rcases ih with ⟨pre, e, post, hsplit, hfind, he, hpre⟩ | ⟨hfind, hall⟩
      · refine Or.inl ⟨a :: pre, e, post, by rw [hsplit]; rfl, ?_, he, ?_⟩
        · rw [List.find?_cons, ha2]; exact hfind
        · intro x hx
          rcases List.mem_cons.1 hx with rfl | hx
          · exact ha2
          · exact hpre x hx
      · refine Or.inr ⟨?_, ?_⟩
        · rw [List.find?_cons, ha2]; exact hfind
        · intro x hx
          rcases List.mem_cons.1 hx with rfl | hx
          · exact ha2
          · exact hall x hx

/-- C27: for every category and text, detectSubcategory returns 'general'
when the category has no keyword-to-subcategory table (only roads and water
have one) or when no keyword of the table occurs in the text; otherwise it
returns the first subcategory, in the declared order of the table, one of
whose keywords occurs in the text: no keyword of an earlier subcategory
occurs in the text. -/
theorem detectSubcategory_first_match (category text : String) :
    (subcategoryKeywords.map (fun e => e.1) = ["roads", "water"])
    ∧ (subcategoryKeywords.lookup category = none → detectSubcategory category text = "general")
    ∧ (∀ categoryMap, subcategoryKeywords.lookup category = some categoryMap →
        (∃ pre e post, categoryMap = pre ++ e :: post
          ∧ detectSubcategory category text = e.1
          ∧ (∃ kw ∈ e.2, includes text kw = true)
          ∧ (∀ x ∈ pre, ∀ kw ∈ x.2, includes text kw = false))
        ∨ ((∀ x ∈ categoryMap, ∀ kw ∈ x.2, includes text kw = false)
          ∧ detectSubcategory category text = "general")) := by
  refine ⟨by decide, ?_, ?_⟩
  · intro h
    unfold detectSubcategory
    rw [h]
  · intro categoryMap h
    unfold detectSubcategory
    rw [h]
    rcases find?_first (fun entry : String × List String =>
        entry.2.any (fun kw => includes text kw)) categoryMap with
      ⟨pre, e, post, hsplit, hfind, he, hpre⟩ | ⟨hfind, hall⟩
    · refine Or.inl ⟨pre, e, post, hsplit, ?_, ?_, ?_⟩
      · simp only [hfind]
      · simpa [List.any_eq_true] using he
      · intro x hx kw hkw
        have := hpre x hx
        simp only [List.any_eq_false] at this
        simpa using this kw hkw
    · refine Or.inr ⟨?_, ?_⟩
      · intro x hx kw hkw
        have := hall x hx
        simp only [List.any_eq_false] at this
        simpa using this kw hkw
      · simp only [hfind]

/-- Witness for C27: a water text naming both a quality keyword and a
shortage keyword gets the subcategory declared first, shortage; a text
without keyword, and a category without table, get general. -/
theorem detectSubcategory_first_match_witness :
    detectSubcategory "water" "पानी की गुणवत्ता खराब और कमी" = "shortage"
    ∧ detectSubcategory "water" "पानी" = "general"
    ∧ detectSubcategory "electricity" "बिजली की कमी" = "general" :=
  ⟨by decide, by decide,
   (detectSubcategory_first_match "electricity" "बिजली की कमी").2.1 (by decide)⟩

/-! ### Schema enums -/

/-- C28 (the code at the failing input): an official passes IN_PROGRESS to
updateIssueStatus on a stored issue. The status the resolver assigns to the
document is the lower-cased enum name 'in_progress', which is not a member
of the schema's status set (that has 'in-progress'): the validation of the
save rejects the path status, nothing is written to the store and the
resolver throws. The other five enum values lower-case to members of the
set. -/
theorem updateIssueStatus_in_progress_not_in_enum :
    toLowerCase "IN_PROGRESS" = "in_progress"
    ∧ "in_progress" ∉ statusEnum
    ∧ (updateStatusOutcome 5 { storedIssue with isNew := false } "in_progress"
          "64b7f0c2a1d3e4f5a6b7c8e2" none).document.status = "in_progress"
    ∧ invalidPaths { storedIssue with status := "in_progress" } = ["status"]
    ∧ (updateStatusOutcome 5 { storedIssue with isNew := false } "in_progress"
          "64b7f0c2a1d3e4f5a6b7c8e2" none).stored = none
    ∧ updateIssueStatus 5 objectIdDb "64b7f0c2a1d3e4f5a6b7c8d1" "IN_PROGRESS" none
          (some (sampleUser "64b7f0c2a1d3e4f5a6b7c8e2" "official"))
        = (objectIdDb, .error (.SaveFailed .ParallelSaveError))
    ∧ (issueStatusEnumNames.filter (fun name => decide (toLowerCase name ∉ statusEnum)))
        = ["IN_PROGRESS"] := by
  refine ⟨by decide, by decide, by decide, by decide, by decide, by rfl, by decide⟩

/-- C29 (the code at the failing inputs): updateStatus appends a timeline
entry whose action is the new status itself; for the new statuses pending,
in-progress and duplicate that action is not in the schema's timeline action
set, for acknowledged, resolved and rejected it is. -/
theorem updateStatus_action_not_in_enum :
    ((updateStatus 5 mediumIssue "in-progress" "u2" none).timeline.getLast?.map
        (fun e => e.action)) = some "in-progress"
    ∧ "in-progress" ∉ timelineActionEnum
    ∧ ((updateStatus 5 mediumIssue "duplicate" "u2" none).timeline.getLast?.map
        (fun e => e.action)) = some "duplicate"
    ∧ "duplicate" ∉ timelineActionEnum
    ∧ ((updateStatus 5 mediumIssue "pending" "u2" none).timeline.getLast?.map
        (fun e => e.action)) = some "pending"
    ∧ "pending" ∉ timelineActionEnum
    ∧ statusEnum.filter (fun st => decide (st ∉ timelineActionEnum))
        = ["pending", "in-progress", "duplicate"]
    ∧ statusEnum.filter (fun st => decide (st ∈ timelineActionEnum))
        = ["acknowledged", "resolved", "rejected"] := by
  refine ⟨by decide, by decide, by decide, by decide, by decide, by decide, by decide,
    by decide⟩

/-! ### Tokens and substrings -/

theorem isInfixOf_iff (pat s : List Char) : isInfixOf pat s = true ↔ pat <:+: s := by
  induction s with
  | nil =>
    simp only [isInfixOf, List.isEmpty_iff, List.infix_nil]
  | cons c cs ih =>
    simp only [isInfixOf, Bool.or_eq_true, List.isPrefixOf_iff_prefix, ih]
    exact List.infix_cons_iff.symm

theorem splitChars_ne_nil (s : List Char) : splitChars s ≠ [] := by
  cases s with
  | nil => simp [splitChars]
  | cons c cs =>
    unfold splitChars
    by_cases hc : c = ' '
    · simp [hc]
    · rw [if_neg hc]
      split <;> simp

/-- A pattern without space is a prefix of a text exactly when it is a
prefix of the text's first token. -/
theorem prefix_iff_prefix_first_token (s : List Char) :
    ∀ (pat w : List Char) (ws : List (List Char)), ' ' ∉ pat → splitChars s = w :: ws →
      (pat <+: s ↔ pat <+: w) := by
  induction s with
  | nil =>
    intro pat w ws _ hsplit
    simp only [splitChars, List.cons.injEq] at hsplit
    rw [← hsplit.1]
  | cons c cs ih =>
    intro pat w ws hpat hsplit
    unfold splitChars at hsplit
    by_cases hc : c = ' '
    · rw [if_pos hc] at hsplit
      simp only [List.cons.injEq] at hsplit
      rw [← hsplit.1, List.prefix_nil, List.prefix_cons_iff]
      constructor
      · rintro (h | ⟨t, ht, _⟩)
        · exact h
        · exact absurd (by rw [ht, hc]; exact List.mem_cons_self _ _) hpat
      · exact fun h => Or.inl h
    · rw [if_neg hc] at hsplit
      cases hrest : splitChars cs with
      | nil => exact absurd hrest (splitChars_ne_nil cs)
      | cons w2 ws2 =>
        rw [hrest] at hsplit
        simp only [List.cons.injEq] at hsplit
        rw [← hsplit.1]
        cases pat with
        | nil => simp
        | cons q qs =>
          rw [List.cons_prefix_cons, List.cons_prefix_cons]
          have hqs : ' ' ∉ qs := fun h => hpat (List.mem_cons_of_mem _ h)
          rw [ih qs w2 ws2 hqs hrest]

/-- A pattern without space occurs in a text exactly when it occurs in one of
the text's tokens. -/
theorem infix_iff_infix_token (pat : List Char) (hpat : ' ' ∉ pat) (s : List Char) :
    pat <:+: s ↔ ∃ t ∈ splitChars s, pat <:+: t := by
  induction s with
  | nil => simp [splitChars]
  | cons c cs ih =>
    rw [List.infix_cons_iff, ih]
    by_cases hc : c = ' '
    · have hsplit : splitChars (c :: cs) = [] :: splitChars cs := by
        rw [splitChars, if_pos hc]
      rw [hsplit, prefix_iff_prefix_first_token (c :: cs) pat [] (splitChars cs) hpat hsplit]
      simp only [List.mem_cons, exists_eq_or_imp, List.prefix_nil, List.infix_nil]
    · cases hrest : splitChars cs with
      | nil => exact absurd hrest (splitChars_ne_nil cs)
      | cons w ws =>
        have hsplit : splitChars (c :: cs) = (c :: w) :: ws := by
          rw [splitChars, if_neg hc, hrest]
        rw [hsplit, prefix_iff_prefix_first_token (c :: cs) pat (c :: w) ws hpat hsplit]
        simp only [List.mem_cons, exists_eq_or_imp]
        rw [List.infix_cons_iff]
        tauto

/-- The token test of `classifyIssue` against the substring test on the
whole text, for a keyword without space. -/
theorem any_token_includes (text kw : String) (hkw : ' ' ∉ kw.data) :
    (splitSpaces text).any (fun word => includes word kw) = includes text kw := by
  rw [Bool.eq_iff_iff, List.any_eq_true]
  unfold includes splitSpaces
  rw [isInfixOf_iff, infix_iff_infix_token kw.data hkw text.data]
  constructor
  · rintro ⟨w, hw, hin⟩
    rw [List.mem_map] at hw
    obtain ⟨t, ht, rfl⟩ := hw
    exact ⟨t, ht, (isInfixOf_iff _ _).1 hin⟩
  · rintro ⟨t, ht, hin⟩
    exact ⟨String.mk t, List.mem_map.2 ⟨t, ht, rfl⟩, (isInfixOf_iff _ _).2 hin⟩

/-- The keywords of the category table are in lower case and without space. -/
theorem issueCategories_keywords_plain :
    ∀ entry ∈ issueCategories, ∀ kw ∈ entry.2.keywords,
      toLowerCase kw = kw ∧ ' ' ∉ kw.data := by
  decide

/-- The outer loop keeps the list of hit keywords as long as the score. -/
theorem bestCategory_foldl_length (words : List String) (cats : List (String × CategoryData))
    (st : BestMatch × List String) (hst : st.2.length = st.1.score) :
    (cats.foldl (classifyStep words) st).2.length
      = (cats.foldl (classifyStep words) st).1.score := by
  induction cats generalizing st with
  | nil => exact hst
  | cons c cs ih =>
    rw [List.foldl_cons]
    apply ih
    rw [classifyStep_eq]
    by_cases hc : st.1.score < categoryScore words c
    · rw [if_pos hc]
      show (keywordScan words c.2.keywords).2.length = categoryScore words c
      unfold categoryScore
      rw [keywordScan_eq]
    · rw [if_neg hc]
      exact hst

/-- C30: for every text and every keyword without space character, some
token of the lower-cased text split on single spaces contains the keyword
if and only if the lower-cased text contains the keyword; hence the score
classifyIssue gives a category of the table is the number of that category's
keywords that occur as substrings of the lower-cased text, and the returned
keywords list has as many elements as the winning score. -/
theorem score_counts_substrings :
    (∀ (text kw : String), ' ' ∉ kw.data →
      ((splitSpaces (toLowerCase text)).any (fun word => includes word kw) = true
        ↔ includes (toLowerCase text) kw = true))
    ∧ (∀ (text : String), ∀ entry ∈ issueCategories,
        categoryScore (splitSpaces (toLowerCase text)) entry
          = (entry.2.keywords.filter (fun kw => includes (toLowerCase text) kw)).length)
    ∧ (∀ (text : String),
        (classifyIssue text).keywords.length
          = (bestCategory (splitSpaces (toLowerCase text)) issueCategories).1.score) := by
  refine ⟨?_, ?_, ?_⟩
  · intro text kw hkw
    rw [any_token_includes (toLowerCase text) kw hkw]
  · intro text entry hentry
    unfold categoryScore
    rw [keywordScan_eq]
    show (entry.2.keywords.filter (keywordHit (splitSpaces (toLowerCase text)))).length = _
    congr 1
    apply List.filter_congr
    intro kw hkw
    obtain ⟨hlow, hsp⟩ := issueCategories_keywords_plain entry hentry kw hkw
    unfold keywordHit
    rw [hlow]
    exact any_token_includes (toLowerCase text) kw hsp
  · intro text
    exact bestCategory_foldl_length (splitSpaces (toLowerCase text)) issueCategories
      (⟨"other", 0⟩, []) rfl

/-- Witness for C30: the water keyword 'कमी' in the scenario text, by token
and by substring; and the water score of that text. -/
theorem score_counts_substrings_witness :
    ((splitSpaces (toLowerCase "पानी की कमी है, तुरंत ध्यान चाहिए")).any
        (fun word => includes word "कमी") = true
      ↔ includes (toLowerCase "पानी की कमी है, तुरंत ध्यान चाहिए") "कमी" = true)
    ∧ (classifyIssue "पानी की कमी है, तुरंत ध्यान चाहिए").keywords.length = 2 := by
  refine ⟨score_counts_substrings.1 "पानी की कमी है, तुरंत ध्यान चाहिए" "कमी" (by decide), ?_⟩
  rw [score_counts_substrings.2.2]
  decide

/-! ### Pagination -/

theorem sextet_roundtrip :
    ∀ k, k < 64 → decodeSextet (encodeSextet k) = some k ∧ encodeSextet k ≠ '=' := by
  decide

theorem bytesToSextets_lt (bytes : List Nat) (hb : ∀ b ∈ bytes, b < 256) :
    ∀ s ∈ bytesToSextets bytes, s < 64 := by
  induction bytes using bytesToSextets.induct with
  | case1 a b c rest ih =>
    have ha := hb a (by simp)
    have hb2 := hb b (by simp)
    have hc := hb c (by simp)
    intro s hs
    simp only [bytesToSextets, List.mem_cons] at hs
    rcases hs with rfl | rfl | rfl | rfl | hs
    · omega
    · omega
    · omega
    · omega
    · exact ih (fun x hx => hb x (by simp [hx])) s hs
  | case2 a b =>
    have ha := hb a (by simp)
    have hb2 := hb b (by simp)
    intro s hs
    simp only [bytesToSextets, List.mem_cons, List.mem_singleton, List.not_mem_nil,
      or_false] at hs
    rcases hs with rfl | rfl | rfl <;> omega
  | case3 a =>
    have ha := hb a (by simp)
    intro s hs
    simp only [bytesToSextets, List.mem_cons, List.mem_singleton, List.not_mem_nil,
      or_false] at hs
    rcases hs with rfl | rfl <;> omega
  | case4 => intro s hs; simp [bytesToSextets] at hs

/-- Regrouping bytes into 6-bit groups and back gives the bytes. -/
theorem sextets_roundtrip (bytes : List Nat) (hb : ∀ b ∈ bytes, b < 256) :
    sextetsToBytes (bytesToSextets bytes) = bytes := by
  induction bytes using bytesToSextets.induct with
  | case1 a b c rest ih =>
    have ha := hb a (by simp)
    have hb2 := hb b (by simp)
    have hc := hb c (by simp)
    simp only [bytesToSextets, sextetsToBytes, ih (fun x hx => hb x (by simp [hx])),
      List.cons.injEq, and_true]
    refine ⟨by omega, by omega, by omega⟩
  | case2 a b =>
    have ha := hb a (by simp)
    have hb2 := hb b (by simp)
    simp only [bytesToSextets, sextetsToBytes, List.cons.injEq, and_true]
    refine ⟨by omega, by omega⟩
  | case3 a =>
    have ha := hb a (by simp)
    simp only [bytesToSextets, sextetsToBytes, List.cons.injEq, and_true]
    omega
  | case4 => rfl

theorem filterMap_decode_encode (sextets : List Nat) (hs : ∀ s ∈ sextets, s < 64) :
    (sextets.map encodeSextet).filterMap decodeSextet = sextets := by
  induction sextets with
  | nil => rfl
  | cons a rest ih =>
    have ha := (sextet_roundtrip a (hs a (by simp))).1
    simp only [List.map_cons, List.filterMap_cons, ha]
    rw [ih (fun x hx => hs x (by simp [hx]))]

theorem takeWhile_encode (sextets : List Nat) (hs : ∀ s ∈ sextets, s < 64) (k : Nat) :
    ((sextets.map encodeSextet ++ List.replicate k '=').takeWhile (fun c => c != '='))
      = sextets.map encodeSextet := by
  induction sextets with
  | nil =>
    cases k with
    | zero => rfl
    | succ k => simp [List.replicate, List.takeWhile]
  | cons a rest ih =>
    have ha := (sextet_roundtrip a (hs a (by simp))).2
    simp only [List.map_cons, List.cons_append, List.takeWhile_cons]
    have hne : (encodeSextet a != '=') = true := by simpa using ha
    rw [hne]
    simp only [if_true]
    rw [ih (fun x hx => hs x (by simp [hx]))]

/-- The base64 round trip on bytes. -/
theorem base64_roundtrip (bytes : List Nat) (hb : ∀ b ∈ bytes, b < 256) :
    base64Decode (base64Encode bytes) = bytes := by
  unfold base64Decode base64Encode
  rw [takeWhile_encode _ (bytesToSextets_lt bytes hb),
    filterMap_decode_encode _ (bytesToSextets_lt bytes hb), sextets_roundtrip bytes hb]

theorem digitChar_toNat : ∀ d, d < 10 → (Nat.digitChar d).toNat = 48 + d := by
  decide

theorem toDigitsCore_append (fuel : Nat) :
    ∀ (n : Nat) (ds : List Char),
      Nat.toDigitsCore 10 fuel n ds = Nat.toDigitsCore 10 fuel n [] ++ ds := by
  induction fuel with
  | zero => intro n ds; rfl
  | succ fuel ih =>
    intro n ds
    simp only [Nat.toDigitsCore]
    by_cases h : n / 10 = 0
    · simp [h]
    · simp only [h, if_false]
      rw [ih (n / 10) (Nat.digitChar (n % 10) :: ds), ih (n / 10) [Nat.digitChar (n % 10)]]
      simp

/-- The characters of a decimal numeral are decimal digits. -/
theorem toDigitsCore_digits (fuel : Nat) :
    ∀ (n : Nat), ∀ c ∈ Nat.toDigitsCore 10 fuel n [], 48 ≤ c.toNat ∧ c.toNat ≤ 57 := by
  induction fuel with
  | zero => intro n c hc; simp [Nat.toDigitsCore] at hc
  | succ fuel ih =>
    intro n c hc
    simp only [Nat.toDigitsCore] at hc
    have hd : (Nat.digitChar (n % 10)).toNat = 48 + n % 10 :=
      digitChar_toNat (n % 10) (Nat.mod_lt n (by decide))
    have hlt : n % 10 < 10 := Nat.mod_lt n (by decide)
    by_cases h : n / 10 = 0
    · simp only [h, if_true, List.mem_singleton] at hc
      rw [hc, hd]; omega
    · simp only [h, if_false] at hc
      rw [toDigitsCore_append, List.mem_append, List.mem_singleton] at hc
      rcases hc with hc | hc
      · exact ih (n / 10) c hc
      · rw [hc, hd]; omega

/-- The value of a decimal numeral, read digit by digit, is the number. -/
theorem toDigitsCore_value (fuel : Nat) :
    ∀ (n : Nat), n < fuel →
      ((Nat.toDigitsCore 10 fuel n []).map (fun c => c.toNat - 48)).foldl
        (fun acc d => acc * 10 + d) 0 = n := by
  induction fuel with
  | zero => intro n hn; omega
  | succ fuel ih =>
    intro n hn
    simp only [Nat.toDigitsCore]
    have hd : (Nat.digitChar (n % 10)).toNat = 48 + n % 10 :=
      digitChar_toNat (n % 10) (Nat.mod_lt n (by decide))
    by_cases h : n / 10 = 0
    · simp only [h, if_true, List.map_cons, List.map_nil, List.foldl_cons, List.foldl_nil, hd]
      omega
    · simp only [h, if_false]
      rw [toDigitsCore_append, List.map_append, List.foldl_append, ih (n / 10) (by omega)]
      simp only [List.map_cons, List.map_nil, List.foldl_cons, List.foldl_nil, hd]
      omega

theorem numberToString_ne_nil (n : Nat) : numberToString n ≠ [] := by
  unfold numberToString Nat.toDigits
  simp only [Nat.toDigitsCore]
  by_cases h : n / 10 = 0
  · simp [h]
  · simp only [h, if_false]
    rw [toDigitsCore_append]
    simp

theorem numberToString_digits (n : Nat) :
    ∀ c ∈ numberToString n, 48 ≤ c.toNat ∧ c.toNat ≤ 57 :=
  toDigitsCore_digits (n + 1) n

theorem numberToString_value (n : Nat) :
    ((numberToString n).map (fun c => c.toNat - 48)).foldl (fun acc d => acc * 10 + d) 0 = n :=
  toDigitsCore_value (n + 1) n (Nat.lt_succ_self n)

theorem radixDigit_of_digit (c : Char) (hc : 48 ≤ c.toNat ∧ c.toNat ≤ 57) :
    radixDigit 10 c = some (c.toNat - 48) := by
  unfold radixDigit
  simp only [hc, and_self, if_true]
  have : c.toNat - 48 < 10 := by omega
  simp [this]

theorem leadingDigits_of_digits (text : List Char)
    (hd : ∀ c ∈ text, 48 ≤ c.toNat ∧ c.toNat ≤ 57) :
    leadingDigits 10 text = text.map (fun c => c.toNat - 48) := by
  induction text with
  | nil => rfl
  | cons c cs ih =>
    simp only [leadingDigits, radixDigit_of_digit c (hd c (by simp)), List.map_cons]
    rw [ih (fun x hx => hd x (by simp [hx]))]

theorem not_whitespace_of_digit (c : Char) (hc : 48 ≤ c.toNat ∧ c.toNat ≤ 57) :
    isJsWhitespace c = false := by
  have h1 : c ≠ ' ' := fun h => by rw [h] at hc; revert hc; decide
  have h2 : c ≠ '\t' := fun h => by rw [h] at hc; revert hc; decide
  have h3 : c ≠ '\n' := fun h => by rw [h] at hc; revert hc; decide
  have h4 : c ≠ '\r' := fun h => by rw [h] at hc; revert hc; decide
  have h5 : c.toNat ≠ 11 := by omega
  have h6 : c.toNat ≠ 12 := by omega
  simp [isJsWhitespace, h1, h2, h3, h4, h5, h6]

/-- On a non-empty text of decimal digits `parseInt` reads the whole text
in radix 10. -/
theorem parseIntMathInt_of_digits (text : List Char) (hne : text ≠ [])
    (hd : ∀ c ∈ text, 48 ≤ c.toNat ∧ c.toNat ≤ 57) :
    parseIntMathInt text
      = some (((text.map (fun c => c.toNat - 48)).foldl (fun acc d => acc * 10 + d) 0 : Nat) :
          Int) := by
  obtain ⟨c, cs, rfl⟩ := List.exists_cons_of_ne_nil hne
  have hc := hd c (by simp)
  have hminus : c ≠ '-' := fun h => by rw [h] at hc; revert hc; decide
  have hplus : c ≠ '+' := fun h => by rw [h] at hc; revert hc; decide
  have hx : ∀ x ∈ c :: cs, x ≠ 'x' ∧ x ≠ 'X' := by
    intro x hxm
    have := hd x hxm
    exact ⟨fun h => by rw [h] at this; revert this; decide,
      fun h => by rw [h] at this; revert this; decide⟩
  have hhex : ¬ ((c :: cs).take 2 = ['0', 'x'] ∨ (c :: cs).take 2 = ['0', 'X']) := by
    rintro (h | h)
    · have hm : 'x' ∈ (c :: cs).take 2 := by rw [h]; simp
      exact (hx 'x' (List.mem_of_mem_take hm)).1 rfl
    · have hm : 'X' ∈ (c :: cs).take 2 := by rw [h]; simp
      exact (hx 'X' (List.mem_of_mem_take hm)).2 rfl
  have hdrop : (c :: cs).dropWhile isJsWhitespace = c :: cs := by
    simp [List.dropWhile, not_whitespace_of_digit c hc]
  unfold parseIntMathInt
  simp only [hdrop, List.head?_cons, Option.some.injEq, hminus, hplus, or_self, if_false, hhex,
    leadingDigits_of_digits (c :: cs) hd, decide_False, Bool.false_eq_true]
  simp

theorem bytesToText_asciiBytes (text : List Char)
    (hd : ∀ c ∈ text, 48 ≤ c.toNat ∧ c.toNat ≤ 57) :
    bytesToText (asciiBytes text) = text := by
  unfold bytesToText asciiBytes
  rw [List.map_map]
  conv_rhs => rw [← List.map_id text]
  apply List.map_congr_left
  intro c hc
  have := hd c hc
  have hlt : c.toNat < 128 := by omega
  simp only [Function.comp, hlt, if_true, id]
  exact Char.ofNat_toNat c

/-- The cursor round trip, on the decoded number. -/
theorem cursorInteger_encodeCursor (n : Nat) :
    cursorInteger (encodeCursor n) = some (n : Int) := by
  unfold cursorInteger encodeCursor
  have hb : ∀ b ∈ asciiBytes (numberToString n), b < 256 := by
    intro b hb
    unfold asciiBytes at hb
    rw [List.mem_map] at hb
    obtain ⟨c, hc, rfl⟩ := hb
    have := numberToString_digits n c hc
    omega
  simp only [base64_roundtrip _ hb, bytesToText_asciiBytes _ (numberToString_digits n)]
  rw [parseIntMathInt_of_digits _ (numberToString_ne_nil n) (numberToString_digits n),
    numberToString_value]

theorem encodeCursor_ne_empty (n : Nat) : encodeCursor n ≠ "" := by
  intro h
  have h2 := cursorInteger_encodeCursor n
  rw [h] at h2
  have h3 : cursorInteger "" = none := by decide
  rw [h3] at h2
  cases h2

/-- The skip of a request whose `after` is the cursor of an offset is that
offset. -/
theorem pageSkip_encodeCursor (first last : Option Nat) (n : Nat) :
    pageSkip (some { first := first, after := some (encodeCursor n), last := last })
      = some n := by
  unfold pageSkip
  simp only [encodeCursor_ne_empty n, if_false, cursorInteger_encodeCursor]

theorem edgesFrom_nodes {α : Type} (skip : Nat) (page : List α) :
    ∀ index, (edgesFrom skip index page).map (fun e => e.node) = page := by
  induction page with
  | nil => intro index; rfl
  | cons r rest ih => intro index; simp [edgesFrom, ih]

theorem edgesFrom_length {α : Type} (skip : Nat) (page : List α) :
    ∀ index, (edgesFrom skip index page).length = page.length := by
  induction page with
  | nil => intro index; rfl
  | cons r rest ih => intro index; simp [edgesFrom, ih]

/-- The edge at position `j` carries the record at position `j` of the page
and the cursor of `skip + index + j + 1`. -/
theorem edgesFrom_getElem? {α : Type} (skip : Nat) (page : List α) :
    ∀ (index j : Nat), (edgesFrom skip index page)[j]?
      = page[j]?.map (fun r => { node := r, cursor := encodeCursor (skip + (index + j) + 1) }) := by
  induction page with
  | nil => intro index j; simp [edgesFrom]
  | cons r rest ih =>
    intro index j
    cases j with
    | zero => simp [edgesFrom]
    | succ j =>
      simp only [edgesFrom, List.getElem?_cons_succ]
      rw [ih (index + 1) j]
      congr 1
      funext x
      rw [Nat.add_right_comm index 1 j, Nat.add_assoc index j 1]

/-- The cursor of the last edge of a non-empty page is the cursor of the
offset just after the page. -/
theorem edgesFrom_getLast? {α : Type} (skip : Nat) (page : List α) (hne : page ≠ []) :
    ∀ index, (edgesFrom skip index page).getLast?.map (fun e => e.cursor)
      = some (encodeCursor (skip + index + page.length)) := by
  induction page with
  | nil => exact absurd rfl hne
  | cons r rest ih =>
    intro index
    cases rest with
    | nil => simp [edgesFrom]
    | cons r2 rest2 =>
      have h := ih (by simp) (index + 1)
      simp only [edgesFrom, List.getLast?_cons_cons] at h ⊢
      rw [h]
      simp only [List.length_cons]
      congr 2
      omega

/-- The records on the page of `connectionAt`. -/
theorem connectionAt_page {α : Type} (records : List α) (limit skip : Nat) :
    (if limit < ((records.drop skip).take (limit + 1)).length then
        ((records.drop skip).take (limit + 1)).dropLast
      else (records.drop skip).take (limit + 1))
      = (records.drop skip).take limit := by
  by_cases h : limit < ((records.drop skip).take (limit + 1)).length
  · rw [if_pos h, List.dropLast_eq_take, List.take_take]
    rw [List.length_take] at h ⊢
    congr 1
    omega
  · rw [if_neg h]
    rw [List.length_take] at h
    have hlen : (records.drop skip).length ≤ limit := by omega
    rw [List.take_of_length_le hlen, List.take_of_length_le (by omega)]

/-- What `connectionAt` returns, field by field. -/
theorem connectionAt_fields {α : Type} (records : List α) (limit skip : Nat) :
    (connectionAt records limit skip).edges = edgesFrom skip 0 ((records.drop skip).take limit)
    ∧ ((connectionAt records limit skip).pageInfo.hasNextPage = true
        ↔ limit < records.length - skip)
    ∧ ((connectionAt records limit skip).pageInfo.hasPreviousPage = true ↔ 0 < skip)
    ∧ (connectionAt records limit skip).pageInfo.totalCount = records.length
    ∧ (connectionAt records limit skip).pageInfo.endCursor
        = (edgesFrom skip 0 ((records.drop skip).take limit)).getLast?.map (fun e => e.cursor)
    ∧ (connectionAt records limit skip).pageInfo.startCursor
        = (edgesFrom skip 0 ((records.drop skip).take limit)).head?.map (fun e => e.cursor) := by
  have hpage := connectionAt_page records limit skip
  refine ⟨?_, ?_, ?_, rfl, ?_, ?_⟩
  · show edgesFrom skip 0 (if decide (limit < ((records.drop skip).take (limit + 1)).length) = true
      then ((records.drop skip).take (limit + 1)).dropLast
      else (records.drop skip).take (limit + 1)) = _
    simp only [decide_eq_true_eq]
    rw [hpage]
  · show decide (limit < ((records.drop skip).take (limit + 1)).length) = true ↔ _
    rw [decide_eq_true_eq, List.length_take, List.length_drop]
    omega
  · show decide (0 < skip) = true ↔ _
    rw [decide_eq_true_eq]
  · show (edgesFrom skip 0 (if decide (limit < ((records.drop skip).take (limit + 1)).length)
      = true then ((records.drop skip).take (limit + 1)).dropLast
      else (records.drop skip).take (limit + 1))).getLast?.map (fun e => e.cursor) = _
    simp only [decide_eq_true_eq]
    rw [hpage]
  · show (edgesFrom skip 0 (if decide (limit < ((records.drop skip).take (limit + 1)).length)
      = true then ((records.drop skip).take (limit + 1)).dropLast
      else (records.drop skip).take (limit + 1))).head?.map (fun e => e.cursor) = _
    simp only [decide_eq_true_eq]
    rw [hpage]

theorem pageLimit_pos (pagination : Option PaginationInput) : 0 < pageLimit pagination := by
  unfold pageLimit
  cases pagination with
  | none => exact Nat.zero_lt_succ 19
  | some pg =>
    simp only
    cases hfirst : pg.first with
    | none => exact Nat.zero_lt_succ 19
    | some f =>
      simp only
      by_cases hf : f = 0
      · rw [if_pos hf]; exact Nat.zero_lt_succ 19
      · rw [if_neg hf]; exact Nat.pos_of_ne_zero hf

/-- C21 (counterexample): the offset 2^53 + 1. Its cursor is the base64
text of the numeral 9007199254740993, whose digits parseInt reads in full;
the Number it returns is the nearest one, 9007199254740992, not the offset
encoded. -/
theorem cursor_roundtrip_fails_beyond_safe :
    encodeCursor 9007199254740993 = "OTAwNzE5OTI1NDc0MDk5Mw=="
    ∧ cursorInteger (encodeCursor 9007199254740993) = some 9007199254740993
    ∧ decodeCursor (encodeCursor 9007199254740993) = .number 9007199254740992
    ∧ decodeCursor (encodeCursor 9007199254740993) ≠ .number 9007199254740993 := by
  have h1 := cursorInteger_encodeCursor 9007199254740993
  have h2 : decodeCursor (encodeCursor 9007199254740993) = .number 9007199254740992 := by
    unfold decodeCursor parseInt
    unfold cursorInteger at h1
    rw [h1]
    have hn : toNumber ((9007199254740993 : Nat) : Int).natAbs = 9007199254740992 := by decide
    have hlt : (9007199254740992 : Nat) < 2 ^ 1024 := by norm_num
    simp only [hn, if_pos hlt]
    rfl
  refine ⟨by decide, h1, h2, ?_⟩
  rw [h2]
  decide

/-- C21 (amended): for every non-negative integer offset n that is a safe
integer (n at most 2^53 - 1), decoding the cursor obtained by encoding n
returns n: the base64 text decodes to the bytes of the decimal numeral of n,
parseInt reads the numeral back as n, which is a Number; and a request whose
after is that cursor skips n records. -/
theorem cursor_roundtrip (n : Nat) (hsafe : n ≤ maxSafeInteger) :
    decodeCursor (encodeCursor n) = .number (n : Int)
    ∧ base64Decode (encodeCursor n).data = asciiBytes (numberToString n)
    ∧ parseIntMathInt (numberToString n) = some (n : Int)
    ∧ pageSkip (some { first := none, after := some (encodeCursor n), last := none }) = some n := by
  refine ⟨?_, ?_, ?_, pageSkip_encodeCursor none none n⟩
  · have h1 := cursorInteger_encodeCursor n
    unfold cursorInteger at h1
    unfold decodeCursor parseInt
    rw [h1]
    have hlt : n < 2 ^ 53 := by
      unfold maxSafeInteger at hsafe
      omega
    have hnum : toNumber n = n := by
      unfold toNumber
      rw [if_pos hlt]
    have hbig : n < 2 ^ 1024 := lt_trans hlt (by norm_num)
    simp only [Int.natAbs_ofNat, hnum, if_pos hbig]
    rw [if_neg (by omega)]
  · have hb : ∀ b ∈ asciiBytes (numberToString n), b < 256 := by
      intro b hb
      unfold asciiBytes at hb
      rw [List.mem_map] at hb
      obtain ⟨c, hc, rfl⟩ := hb
      have := numberToString_digits n c hc
      omega
    exact base64_roundtrip _ hb
  · rw [parseIntMathInt_of_digits _ (numberToString_ne_nil n) (numberToString_digits n),
      numberToString_value]

/-- Witness for C21: the offsets 0, 20 and the largest safe integer. -/
theorem cursor_roundtrip_witness :
    (0 ≤ maxSafeInteger ∧ decodeCursor (encodeCursor 0) = .number 0)
    ∧ (20 ≤ maxSafeInteger ∧ decodeCursor (encodeCursor 20) = .number 20
        ∧ encodeCursor 20 = "MjA=")
    ∧ (9007199254740991 ≤ maxSafeInteger
        ∧ decodeCursor (encodeCursor 9007199254740991) = .number 9007199254740991) :=
  ⟨⟨by decide, (cursor_roundtrip 0 (by decide)).1⟩,
   ⟨by decide, (cursor_roundtrip 20 (by decide)).1, by decide⟩,
   ⟨by decide, (cursor_roundtrip 9007199254740991 (by decide)).1⟩⟩

/-- What a list query returns when the request's cursor gives the skip `s`. -/
theorem connectionPage_eq {α : Type} (records : List α) (pagination : Option PaginationInput)
    (s : Nat) (hskip : pageSkip pagination = some s) :
    connectionPage records pagination = some (connectionAt records (pageLimit pagination) s) := by
  unfold connectionPage
  rw [hskip]
  rfl

/-- C22 (the code at the failing input): the page size is 20 when first is
not given, and it is whatever first says otherwise: a request with
first = 150 on 150 records gets 150 edges, more than 100. validatePagination,
which would report 'First parameter must be between 1 and 100' for that
request, is not called by the list queries. -/
theorem page_size_not_capped :
    pageLimit none = 20
    ∧ pageLimit (some { first := none, after := none, last := none }) = 20
    ∧ pageLimit (some { first := some 150, after := none, last := none }) = 150
    ∧ (∃ page, connectionPage (List.range 150)
          (some { first := some 150, after := none, last := none }) = some page
        ∧ page.edges.length = 150 ∧ ¬ page.edges.length ≤ 100)
    ∧ validatePagination (some { first := some 150, after := none, last := none })
        = ["First parameter must be between 1 and 100"] := by
  refine ⟨rfl, rfl, rfl, ⟨_, connectionPage_eq _ _ 0 rfl, ?_⟩, by decide⟩
  have hlen : (connectionAt (List.range 150)
      (pageLimit (some { first := some 150, after := none, last := none })) 0).edges.length
      = 150 := by
    rw [(connectionAt_fields _ _ _).1, edgesFrom_length]
    simp [pageLimit]
  rw [hlen]
  exact ⟨rfl, by decide⟩

/-- C23: for every filtered and sorted result list of n records, page size L
and skip s decoded from the request's cursor, the list query returns the
records at positions s .. s+L-1 of the list, that is min(L, n - s) edges
(n - s being 0 when s exceeds n), the edge at position j carrying the cursor
of s + j + 1; hasNextPage is true exactly when n - s > L, hasPreviousPage
exactly when s > 0, and totalCount is n. -/
theorem connectionPage_spec {α : Type} (records : List α)
    (pagination : Option PaginationInput) (s : Nat) (hskip : pageSkip pagination = some s) :
    ∃ page, connectionPage records pagination = some page
      ∧ page.edges.map (fun e => e.node) = (records.drop s).take (pageLimit pagination)
      ∧ page.edges.length = min (pageLimit pagination) (records.length - s)
      ∧ (∀ (j : Nat) (e : Edge α), page.edges[j]? = some e →
          records[s + j]? = some e.node ∧ e.cursor = encodeCursor (s + j + 1)
            ∧ j < pageLimit pagination)
      ∧ (page.pageInfo.hasNextPage = true ↔ pageLimit pagination < records.length - s)
      ∧ (page.pageInfo.hasPreviousPage = true ↔ 0 < s)
      ∧ page.pageInfo.totalCount = records.length := by
  obtain ⟨hedges, hnext, hprev, htotal, _, _⟩ :=
    connectionAt_fields records (pageLimit pagination) s
  refine ⟨connectionAt records (pageLimit pagination) s,
    connectionPage_eq records pagination s hskip, ?_, ?_, ?_, hnext, hprev, htotal⟩
  · rw [hedges, edgesFrom_nodes]
  · rw [hedges, edgesFrom_length, List.length_take, List.length_drop]
  · intro j e he
    rw [hedges, edgesFrom_getElem?, Option.map_eq_some'] at he
    obtain ⟨r, hr, rfl⟩ := he
    rw [List.getElem?_take] at hr
    by_cases hj : j < pageLimit pagination
    · rw [if_pos hj, List.getElem?_drop] at hr
      refine ⟨hr, ?_, hj⟩
      simp
    · rw [if_neg hj] at hr
      cases hr

/-- Witness for C23: first = 20 on 25 records gives 20 edges, hasNextPage
true and totalCount 25; first = 50 gives the short page of 25 edges with
hasNextPage false. -/
theorem connectionPage_spec_witness :
    (∃ page, connectionPage (List.range 25)
        (some { first := some 20, after := none, last := none }) = some page
      ∧ page.edges.length = 20 ∧ page.pageInfo.hasNextPage = true
      ∧ page.pageInfo.totalCount = 25)
    ∧ (∃ page, connectionPage (List.range 25)
        (some { first := some 50, after := none, last := none }) = some page
      ∧ page.edges.length = 25 ∧ page.pageInfo.hasNextPage = false) := by
  constructor
  · obtain ⟨page, h1, _, h3, _, h5, _, h7⟩ := connectionPage_spec (List.range 25)
      (some { first := some 20, after := none, last := none }) 0 rfl
    refine ⟨page, h1, ?_, ?_, ?_⟩
    · rw [h3]; decide
    · rw [h5]; decide
    · rw [h7]; decide
  · obtain ⟨page, h1, _, h3, _, h5, _, _⟩ := connectionPage_spec (List.range 25)
      (some { first := some 50, after := none, last := none }) 0 rfl
    refine ⟨page, h1, ?_, ?_⟩
    · rw [h3]; decide
    · cases hn : page.pageInfo.hasNextPage with
      | false => rfl
      | true => exact absurd (h5.1 hn) (by decide)

/-- When a page has a next page, its endCursor is the cursor of the offset
just after the page, `s + L`. -/
theorem connectionAt_endCursor {α : Type} (records : List α) (limit skip : Nat)
    (hpos : 0 < limit) (hnext : limit < records.length - skip) :
    (connectionAt records limit skip).pageInfo.endCursor = some (encodeCursor (skip + limit)) := by
  have hlen : ((records.drop skip).take limit).length = limit := by
    rw [List.length_take, List.length_drop]; omega
  have hne : (records.drop skip).take limit ≠ [] := by
    intro h
    rw [h] at hlen
    simp at hlen
    omega
  rw [(connectionAt_fields records limit skip).2.2.2.2.1, edgesFrom_getLast? skip _ hne 0, hlen]
  rfl

/-- Paging from skip `s` on, with enough fuel, collects the records from
position `s` on. -/
theorem collectPages_from {α : Type} (records : List α) (first : Option Nat) :
    ∀ (fuel s : Nat) (after : Option String),
      pageSkip (some { first := first, after := after, last := none }) = some s →
      records.length - s < fuel →
      collectPages records first fuel after = some (records.drop s) := by
  intro fuel
  induction fuel with
  | zero => intro s after _ h; omega
  | succ fuel ih =>
    intro s after hskip hfuel
    have hpos : 0 < pageLimit (some { first := first, after := after, last := none }) :=
      pageLimit_pos _
    have hlim : ∀ a2 : Option String,
        pageLimit (some { first := first, after := a2, last := none })
          = pageLimit (some { first := first, after := after, last := none }) := fun _ => rfl
    obtain ⟨hedges, hnext, _, _, _, _⟩ := connectionAt_fields records
      (pageLimit (some { first := first, after := after, last := none })) s
    simp only [collectPages, connectionPage_eq records _ s hskip]
    by_cases hn : (connectionAt records
        (pageLimit (some { first := first, after := after, last := none })) s).pageInfo.hasNextPage
        = true
    · have hlt := hnext.1 hn
      rw [if_pos hn, connectionAt_endCursor records _ s hpos hlt]
      have hskip2 := pageSkip_encodeCursor first none
        (s + pageLimit (some { first := first, after := after, last := none }))
      rw [ih _ _ hskip2 (by omega), hedges, edgesFrom_nodes]
      simp only [Option.map_some', Option.some.injEq]
      rw [← List.drop_drop, List.take_append_drop]
    · rw [if_neg hn, hedges, edgesFrom_nodes]
      have hle : ¬ pageLimit (some { first := first, after := after, last := none })
          < records.length - s := fun h => hn (hnext.2 h)
      rw [List.take_of_length_le (by rw [List.length_drop]; omega)]

/-- C24: for a fixed result list and page size, a page that has a next page
ends with the cursor of the offset s + L just after it, so the request that
passes this endCursor as after skips exactly the s + L records read so far
and its page starts with the record right after the previous page's last
one; and paging from the start until hasNextPage is false, the
concatenation of the pages is the whole result list (n + 1 requests are
always enough). -/
theorem pages_partition {α : Type} (records : List α) (first : Option Nat) :
    (∀ (s : Nat) (after : Option String),
        pageSkip (some { first := first, after := after, last := none }) = some s →
        ∃ page, connectionPage records (some { first := first, after := after, last := none })
            = some page
          ∧ page.edges.map (fun e => e.node)
            = (records.drop s).take (pageLimit (some { first := first, after := after, last := none }))
          ∧ (page.pageInfo.hasNextPage = true →
              pageSkip (some { first := first, after := page.pageInfo.endCursor, last := none })
                = some (s + page.edges.length)
              ∧ ∃ next, connectionPage records
                  (some { first := first, after := page.pageInfo.endCursor, last := none })
                  = some next
                ∧ next.edges.map (fun e => e.node)
                  = (records.drop (s + page.edges.length)).take
                      (pageLimit (some { first := first, after := after, last := none }))))
    ∧ collectPages records first (records.length + 1) none = some records := by
  constructor
  · intro s after hskip
    obtain ⟨hedges, hnext, _, _, _, _⟩ := connectionAt_fields records
      (pageLimit (some { first := first, after := after, last := none })) s
    refine ⟨_, connectionPage_eq records _ s hskip, ?_, ?_⟩
    · rw [hedges, edgesFrom_nodes]
    · intro hn
      have hlt := hnext.1 hn
      have hlen : (connectionAt records
          (pageLimit (some { first := first, after := after, last := none })) s).edges.length
          = pageLimit (some { first := first, after := after, last := none }) := by
        rw [hedges, edgesFrom_length, List.length_take, List.length_drop]; omega
      rw [connectionAt_endCursor records _ s (pageLimit_pos _) hlt, hlen]
      have hskip2 := pageSkip_encodeCursor first none
        (s + pageLimit (some { first := first, after := after, last := none }))
      refine ⟨hskip2, _, connectionPage_eq records _ _ hskip2, ?_⟩
      rw [(connectionAt_fields records _ _).1, edgesFrom_nodes]
      rfl
  · have h := collectPages_from records first (records.length + 1) 0 none rfl (by omega)
    rw [h]
    rfl

/-- Witness for C24: five records paged by two: the second page follows the
first, and the three pages together are the list. -/
theorem pages_partition_witness :
    collectPages [10, 11, 12, 13, 14] (some 2) 6 none = some [10, 11, 12, 13, 14]
    ∧ ∃ page, connectionPage [10, 11, 12, 13, 14]
          (some { first := some 2, after := none, last := none }) = some page
        ∧ page.edges.map (fun e => e.node) = [10, 11]
        ∧ pageSkip (some { first := some 2, after := page.pageInfo.endCursor, last := none })
            = some 2 := by
  refine ⟨(pages_partition [10, 11, 12, 13, 14] (some 2)).2, ?_⟩
  obtain ⟨page, h1, h2, h3⟩ := (pages_partition [10, 11, 12, 13, 14] (some 2)).1 0 none rfl
  have hpage : page = connectionAt [10, 11, 12, 13, 14] 2 0 := by
    have h := connectionPage_eq [10, 11, 12, 13, 14]
      (some { first := some 2, after := none, last := none }) 0 rfl
    rw [h1] at h
    exact Option.some.inj h
  refine ⟨page, h1, ?_, ?_⟩
  · rw [h2]; rfl
  · have hn : page.pageInfo.hasNextPage = true := by rw [hpage]; decide
    have hl : page.edges.length = 2 := by rw [hpage]; decide
    have := (h3 hn).1
    rw [hl] at this
    exact this

/-! ### Nearby issues -/

/-- The helper validateCoordinates returns true exactly when both arguments
are finite numbers, the longitude in [-180, 180] and the latitude in
[-90, 90]. -/
theorem validateCoordinates_iff (longitude latitude : JsValue) :
    validateCoordinates longitude latitude = true ↔
      ∃ x y : ℚ, longitude = .number x ∧ latitude = .number y
        ∧ -180 ≤ x ∧ x ≤ 180 ∧ -90 ≤ y ∧ y ≤ 90 := by
  cases longitude with
  | number x =>
    cases latitude with
    | number y =>
      simp only [validateCoordinates, JsValue.isNumber, JsValue.ge, JsValue.le, Bool.true_and,
        Bool.and_eq_true, decide_eq_true_eq, JsValue.number.injEq]
      constructor
      · rintro ⟨⟨⟨h1, h2⟩, h3⟩, h4⟩
        exact ⟨x, y, rfl, rfl, h1, h2, h3, h4⟩
      · rintro ⟨x2, y2, rfl, rfl, h1, h2, h3, h4⟩
        exact ⟨⟨⟨h1, h2⟩, h3⟩, h4⟩
    | nan => simp [validateCoordinates, JsValue.isNumber, JsValue.ge, JsValue.le]
    | infinity negative =>
      cases negative <;> simp [validateCoordinates, JsValue.isNumber, JsValue.ge, JsValue.le]
    | other t => simp [validateCoordinates, JsValue.isNumber, JsValue.ge, JsValue.le]
  | nan => simp [validateCoordinates, JsValue.isNumber, JsValue.ge, JsValue.le]
  | infinity negative =>
    cases negative <;> simp [validateCoordinates, JsValue.isNumber, JsValue.ge, JsValue.le]
  | other t => simp [validateCoordinates, JsValue.isNumber, JsValue.ge, JsValue.le]

/-- The query the resolver builds from a two-element coordinate list. -/
theorem nearbyIssues_query (exec : NearQuery → Except NearbyError (List LocatedIssue))
    (u : User) (longitude latitude radius : ℚ) (limit : Nat) :
    nearbyIssues exec (some u) [longitude, latitude] radius limit
      = ([{ filter := { longitude := some longitude, latitude := some latitude,
                        maxDistance := radius },
            limit := some limit, sortCreatedAtDescending := true }],
         exec { filter := { longitude := some longitude, latitude := some latitude,
                            maxDistance := radius },
                limit := some limit, sortCreatedAtDescending := true }) := rfl

/-- The store's answer to the resolver's query for a point within bounds. -/
theorem execNear_sorted_query (dist : Point → Point → ℚ) (stored : List LocatedIssue)
    (longitude latitude radius : ℚ) (limit : Nat)
    (hb : Point.inBounds { longitude := longitude, latitude := latitude } = true) :
    execNear dist stored
        { filter := { longitude := some longitude, latitude := some latitude,
                      maxDistance := radius },
          limit := some limit, sortCreatedAtDescending := true }
      = .ok (if limit = 0 then
          ((stored.filter (withinDistance dist ⟨longitude, latitude⟩ radius)).insertionSort
            (nearerThan dist ⟨longitude, latitude⟩)).insertionSort createdAfter
        else (((stored.filter (withinDistance dist ⟨longitude, latitude⟩ radius)).insertionSort
            (nearerThan dist ⟨longitude, latitude⟩)).insertionSort createdAfter).take limit) := by
  simp only [execNear, hb, if_true]

/-- With coordinates within bounds and no stored issue within the radius, the
resolver returns the empty list, not an error. -/
theorem nearbyIssues_none_in_range (dist : Point → Point → ℚ) (stored : List LocatedIssue)
    (u : User) (longitude latitude radius : ℚ) (limit : Nat)
    (hb : Point.inBounds { longitude := longitude, latitude := latitude } = true)
    (hnone : ∀ i ∈ stored, radius < dist ⟨longitude, latitude⟩ i.coordinates) :
    (nearbyIssues (execNear dist stored) (some u) [longitude, latitude] radius limit).2
      = .ok [] := by
  have hfilter : stored.filter (withinDistance dist ⟨longitude, latitude⟩ radius) = [] := by
    rw [List.filter_eq_nil_iff]
    intro i hi
    simp only [withinDistance, decide_eq_true_eq, not_le]
    exact hnone i hi
  rw [nearbyIssues_query]
  simp only [execNear_sorted_query dist stored longitude latitude radius limit hb, hfilter,
    List.insertionSort, List.take_nil, ite_self]

/-- C25: a longitude of 200 and a latitude of 95 are out of range
(validateCoordinates rejects them), yet for every store the resolver
nearbyIssues hands the store a query with exactly this point and returns
whatever the store answers: no validation error is raised before querying.
With the modelled store the outcome is the error of the store, raised by the
query that was issued. -/
theorem nearbyIssues_no_coordinate_check :
    validateCoordinates (.number 200) (.number 95) = false
    ∧ (∀ exec : NearQuery → Except NearbyError (List LocatedIssue),
        nearbyIssues exec (some (sampleUser "u1" "citizen")) [200, 95] 5000 20
          = ([{ filter := { longitude := some 200, latitude := some 95, maxDistance := 5000 },
                limit := some 20, sortCreatedAtDescending := true }],
             exec { filter := { longitude := some 200, latitude := some 95, maxDistance := 5000 },
                    limit := some 20, sortCreatedAtDescending := true }))
    ∧ nearbyIssues (execNear sampleDistance []) (some (sampleUser "u1" "citizen")) [200, 95] 5000 20
        = ([{ filter := { longitude := some 200, latitude := some 95, maxDistance := 5000 },
              limit := some 20, sortCreatedAtDescending := true }],
           .error (.store "Longitude/latitude is out of bounds")) := by
  refine ⟨?_, fun exec => nearbyIssues_query exec _ 200 95 5000 20, ?_⟩
  · rw [← Bool.not_eq_true, validateCoordinates_iff]
    rintro ⟨x, y, hx, _, _, h2, _⟩
    cases hx
    norm_num at h2
  · rw [nearbyIssues_query]
    have hb : Point.inBounds { longitude := 200, latitude := 95 } = false := by
      simp only [Point.inBounds]
      norm_num
    simp only [execNear, hb]
    rfl

/-- The stored issues within the radius, in the order of the explicit sort. -/
theorem sortedNear_properties (dist : Point → Point → ℚ) (stored : List LocatedIssue)
    (center : Point) (radius : ℚ) :
    (((stored.filter (withinDistance dist center radius)).insertionSort
        (nearerThan dist center)).insertionSort createdAfter).Pairwise createdAfter
    ∧ (((stored.filter (withinDistance dist center radius)).insertionSort
        (nearerThan dist center)).insertionSort createdAfter).Perm
        (stored.filter (withinDistance dist center radius)) :=
  ⟨List.sorted_insertionSort createdAfter _,
    (List.perm_insertionSort createdAfter _).trans (List.perm_insertionSort _ _)⟩

/-- C26 (counterexample): two issues on the meridian of the query point, one
at the point and created first, one about 1112 m to the north and created
later, radius 5000: nearbyIssues returns the farther issue first. -/
theorem nearbyIssues_not_nearest_first :
    (nearbyIssues
        (execNear sampleDistance
          [sampleLocated "near" 1000 77.1734 31.1048, sampleLocated "far" 2000 77.1734 31.1148])
        (some (sampleUser "u1" "citizen")) [77.1734, 31.1048] 5000 20).2
      = .ok [sampleLocated "far" 2000 77.1734 31.1148, sampleLocated "near" 1000 77.1734 31.1048]
    ∧ ¬ nearerThan sampleDistance ⟨77.1734, 31.1048⟩
        (sampleLocated "far" 2000 77.1734 31.1148) (sampleLocated "near" 1000 77.1734 31.1048) := by
  constructor
  · rw [nearbyIssues_query]
    have hb : Point.inBounds { longitude := 77.1734, latitude := 31.1048 } = true := by
      simp only [Point.inBounds]
      norm_num
    rw [execNear_sorted_query _ _ _ _ _ _ hb]
    have hn : withinDistance sampleDistance ⟨77.1734, 31.1048⟩ 5000
        (sampleLocated "near" 1000 77.1734 31.1048) = true := by
      simp only [withinDistance, sampleDistance, sampleLocated, decide_eq_true_eq]
      norm_num
    have hf : withinDistance sampleDistance ⟨77.1734, 31.1048⟩ 5000
        (sampleLocated "far" 2000 77.1734 31.1148) = true := by
      simp only [withinDistance, sampleDistance, sampleLocated, decide_eq_true_eq]
      norm_num [abs_of_neg]
    have hnf : nearerThan sampleDistance ⟨77.1734, 31.1048⟩
        (sampleLocated "near" 1000 77.1734 31.1048) (sampleLocated "far" 2000 77.1734 31.1148) := by
      simp only [nearerThan, sampleDistance, sampleLocated]
      norm_num [abs_of_neg]
    have hc : ¬ createdAfter (sampleLocated "near" 1000 77.1734 31.1048)
        (sampleLocated "far" 2000 77.1734 31.1148) := by
      simp only [createdAfter, sampleLocated, sampleIssue]
      norm_num
    simp only [List.filter_cons, hn, hf, if_true, List.filter_nil, List.insertionSort,
      List.orderedInsert, if_pos hnf, if_neg hc]
    rfl
  · simp only [nearerThan, sampleDistance, sampleLocated]
    norm_num [abs_of_neg]

/-- C26 (amended): for every query point within bounds and every radius, the
query built by findNearby alone yields exactly the stored issues within the
radius of the point, nearest first; the resolver nearbyIssues returns only
stored issues within the radius, ordered most recently created first (each
returned issue was created no earlier than the one after it), all of them
when the limit is 0 and the first `limit` of that order otherwise. -/
theorem nearbyIssues_within_most_recent_first (dist : Point → Point → ℚ)
    (stored : List LocatedIssue) (u : User) (longitude latitude radius : ℚ) (limit : Nat)
    (hb : Point.inBounds { longitude := longitude, latitude := latitude } = true) :
    (∃ found, execNear dist stored (findNearby (some longitude) (some latitude) (some radius))
          = .ok found
        ∧ found.Perm (stored.filter (withinDistance dist ⟨longitude, latitude⟩ radius))
        ∧ found.Pairwise (nearerThan dist ⟨longitude, latitude⟩))
    ∧ ∃ r, (nearbyIssues (execNear dist stored) (some u) [longitude, latitude] radius limit).2
          = .ok r
        ∧ (∀ i ∈ r, i ∈ stored ∧ dist ⟨longitude, latitude⟩ i.coordinates ≤ radius)
        ∧ r.Pairwise createdAfter
        ∧ r.length = if limit = 0
            then (stored.filter (withinDistance dist ⟨longitude, latitude⟩ radius)).length
            else min limit (stored.filter (withinDistance dist ⟨longitude, latitude⟩ radius)).length := by
  obtain ⟨hsorted, hperm⟩ := sortedNear_properties dist stored ⟨longitude, latitude⟩ radius
  constructor
  · refine ⟨(stored.filter (withinDistance dist ⟨longitude, latitude⟩ radius)).insertionSort
        (nearerThan dist ⟨longitude, latitude⟩), ?_, List.perm_insertionSort _ _,
      List.sorted_insertionSort _ _⟩
    simp only [execNear, findNearby, hb, if_true, Option.getD_some]
    rfl
  · have hmem : ∀ i ∈ ((stored.filter (withinDistance dist ⟨longitude, latitude⟩ radius)).insertionSort
          (nearerThan dist ⟨longitude, latitude⟩)).insertionSort createdAfter,
        i ∈ stored ∧ dist ⟨longitude, latitude⟩ i.coordinates ≤ radius := by
      intro i hi
      have h1 := hperm.subset hi
      rw [List.mem_filter] at h1
      exact ⟨h1.1, by simpa [withinDistance] using h1.2⟩
    rw [nearbyIssues_query]
    simp only [execNear_sorted_query dist stored longitude latitude radius limit hb]
    by_cases h0 : limit = 0
    · simp only [if_pos h0]
      exact ⟨_, rfl, hmem, hsorted, hperm.length_eq⟩
    · simp only [if_neg h0]
      refine ⟨_, rfl, fun i hi => hmem i (List.mem_of_mem_take hi), ?_, ?_⟩
      · exact List.Pairwise.sublist (List.take_sublist _ _) hsorted
      · rw [List.length_take, hperm.length_eq]

/-- Witness for C26: the two sample issues around the query point
(77.1734, 31.1048), radius 5000, limit 20. -/
theorem nearbyIssues_within_most_recent_first_witness :
    Point.inBounds { longitude := 77.1734, latitude := 31.1048 } = true
    ∧ ∃ r, (nearbyIssues
          (execNear sampleDistance
            [sampleLocated "near" 1000 77.1734 31.1048, sampleLocated "far" 2000 77.1734 31.1148])
          (some (sampleUser "u1" "citizen")) [77.1734, 31.1048] 5000 20).2 = .ok r
        ∧ r.Pairwise createdAfter :=
  have hb : Point.inBounds { longitude := 77.1734, latitude := 31.1048 } = true := by
    simp only [Point.inBounds]
    norm_num
  have h := (nearbyIssues_within_most_recent_first sampleDistance
    [sampleLocated "near" 1000 77.1734 31.1048, sampleLocated "far" 2000 77.1734 31.1148]
    (sampleUser "u1" "citizen") 77.1734 31.1048 5000 20 hb).2
  ⟨hb, h.choose, h.choose_spec.1, h.choose_spec.2.2.1⟩

end JanBol
